import Mathlib

/-!
# Presentation surface and frame loop of the Win32 / Direct3D 11 example

A shallow embedding of `examples/example_win32ex_directx11/low_frame_latency.cpp`
(class `Application`, the lambdas of `WorkingThread`, `WorkingThreadMessageCallback`)
and of the frame loop of `examples/example_win32ex_directx11/main.cpp`.

Conventions of the embedding.

* A COM smart pointer (`ComPtr<T>`) or raw interface pointer is a `Bool`:
  `true` when it holds an object, `false` when it is NULL.
* `HWND` and `HANDLE` values are natural numbers, `0` being NULL.
* An `HRESULT` is an integer, `S_OK` being `0`.
* Every result that the platform (DXGI, Direct3D, user32) hands back is an
  explicit argument of the embedded function, so that a statement quantifies
  over every behaviour of the platform.
* Every embedded function returns, next to its C++ result and the new state,
  the list of platform calls it made, in program order.
* A failed COM creation call stores NULL through its out-parameter, and
  `QueryInterface` for an inherited interface succeeds (COM rules).
-/

namespace LowFrameLatency

/-! ## Platform constants (Windows SDK headers) -/

abbrev HRESULT := Int

/-- Windows SDK `S_OK`. -/
abbrev S_OK : HRESULT := 0

/-- Windows SDK `DXGI_SWAP_CHAIN_FLAG_ALLOW_MODE_SWITCH`. -/
abbrev DXGI_SWAP_CHAIN_FLAG_ALLOW_MODE_SWITCH : Nat := 2

/-- Windows SDK `DXGI_SWAP_CHAIN_FLAG_FRAME_LATENCY_WAITABLE_OBJECT`. -/
abbrev DXGI_SWAP_CHAIN_FLAG_FRAME_LATENCY_WAITABLE_OBJECT : Nat := 64

/-- Windows SDK `DXGI_SWAP_CHAIN_FLAG_ALLOW_TEARING`. -/
abbrev DXGI_SWAP_CHAIN_FLAG_ALLOW_TEARING : Nat := 2048

/-- Windows SDK `DXGI_PRESENT_ALLOW_TEARING`. -/
abbrev DXGI_PRESENT_ALLOW_TEARING : Nat := 512

/-- Windows SDK `DXGI_FORMAT_B8G8R8A8_UNORM`. -/
abbrev DXGI_FORMAT_B8G8R8A8_UNORM : Nat := 87

/-- Windows SDK `D3D_FEATURE_LEVEL_11_1`. -/
abbrev D3D_FEATURE_LEVEL_11_1 : Nat := 0xb100

/-- Windows SDK `DXGI_SWAP_EFFECT`. -/
inductive DXGI_SWAP_EFFECT where
  | DISCARD
  | SEQUENTIAL
  | FLIP_SEQUENTIAL
  | FLIP_DISCARD
  deriving DecidableEq, Repr

/-- Conversion of a C++ `int` to `UINT` (32 bits). -/
def toUINT (x : Int) : Nat := (x % 2 ^ 32).toNat

/-- Conversion of a C++ `UINT` to `int` (32 bits, two's complement). -/
def toINT (x : Nat) : Int :=
  if x % 2 ^ 32 < 2 ^ 31 then ((x % 2 ^ 32 : Nat) : Int) else ((x % 2 ^ 32 : Nat) : Int) - 2 ^ 32

/-! ## Platform calls -/

/-- The platform calls made by `Application`, with their arguments and the result
the platform gave. -/
inductive Event where
  | CreateDXGIFactory1 (hr : HRESULT)
  | CheckFeatureSupport (hr : HRESULT) (support : Bool)
  | EnumAdapters1 (hr : HRESULT)
  | D3D11CreateDevice (numFeatureLevels : Nat) (hr : HRESULT)
  | CreateSwapChainForHwnd (effect : DXGI_SWAP_EFFECT) (flags : Nat) (hr : HRESULT)
  | CreateSwapChain (effect : DXGI_SWAP_EFFECT) (flags : Nat) (hr : HRESULT)
  | SwapChain2_SetMaximumFrameLatency (n : Nat)
  | GetFrameLatencyWaitableObject (h : Nat)
  | DXGIDevice1_SetMaximumFrameLatency (n : Nat)
  | MakeWindowAssociation
  | ClearState
  | CloseHandle (h : Nat)
  | OMSetRenderTargets (rtv : Bool)
  | ReleaseRenderTargetView
  | ResizeBuffers (count width height format flags : Nat) (hr : HRESULT)
  | GetBuffer (hr : HRESULT)
  | CreateRenderTargetView (hr : HRESULT)
  | ClearRenderTargetView
  | Present (syncInterval flags : Nat) (hr : HRESULT)
  deriving DecidableEq, Repr

/-! ## `class Application` -/

/-- The data members of `Application` that the graphics code reads or writes.
The versioned interfaces that are only stored and never read
(`_dxgiFactory3/4/6/7`, `_dxgiSwapChain3/4`, `_d3d11Device2..5`,
`_d3d11DeviceContext2..4`) are left out. -/
structure Application where
  _quit : Bool
  windowHandle : Nat
  _windowMessageCallback : List Nat
  _support_d3d_feature_level_11_1 : Bool
  _support_swap_effect_flip : Bool
  _support_frame_latency_waitable_object : Bool
  _support_allow_tearing : Bool
  _swapchain_flags : Nat
  _frame_latency_waitable_object : Nat
  _dxgiFactory1 : Bool
  _dxgiFactory2 : Bool
  _dxgiFactory5 : Bool
  _dxgiSwapChain : Bool
  _dxgiSwapChain1 : Bool
  _dxgiSwapChain2 : Bool
  _d3d11Device : Bool
  _d3d11Device1 : Bool
  _d3d11DeviceContext : Bool
  _d3d11DeviceContext1 : Bool
  _d3d11RenderTarget : Bool
  dxgiFactory : Bool
  dxgiSwapChain : Bool
  d3d11Device : Bool
  d3d11DeviceContext : Bool
  d3d11RenderTarget : Bool
  deriving DecidableEq, Repr

/-- The result of an embedded member function: the C++ return value, the
`Application` afterwards and the platform calls made. -/
structure Outcome where
  result : Bool
  app : Application
  events : List Event
  deriving DecidableEq, Repr

/-- Member function `Application::_resetDXObject`. -/
def _resetDXObject (s : Application) : Application × List Event :=
  let ev1 := if s._frame_latency_waitable_object ≠ 0
    then [Event.CloseHandle s._frame_latency_waitable_object] else []
  let ev2 := if s._d3d11RenderTarget then [Event.ReleaseRenderTargetView] else []
  ({ s with
      dxgiFactory := false
      dxgiSwapChain := false
      d3d11Device := false
      d3d11DeviceContext := false
      d3d11RenderTarget := false
      _frame_latency_waitable_object := 0
      _d3d11RenderTarget := false
      _dxgiSwapChain := false
      _dxgiSwapChain1 := false
      _dxgiSwapChain2 := false
      _d3d11DeviceContext := false
      _d3d11DeviceContext1 := false
      _d3d11Device := false
      _d3d11Device1 := false
      _dxgiFactory1 := false
      _dxgiFactory2 := false
      _dxgiFactory5 := false },
   ev1 ++ ev2)

/-- Member function `Application::clear`. -/
def clear (s : Application) : Application × List Event :=
  let s1 : Application := { s with _quit := false, _windowMessageCallback := [], windowHandle := 0 }
  let r := _resetDXObject s1
  ({ r.1 with
      _support_d3d_feature_level_11_1 := false
      _support_swap_effect_flip := false
      _support_frame_latency_waitable_object := false
      _support_allow_tearing := false
      _swapchain_flags := 0 },
   r.2)

/-- Member function `Application::destroyGraphic`. -/
def destroyGraphic (s : Application) : Application × List Event :=
  let ev := if s._d3d11DeviceContext then [Event.ClearState] else []
  let r := _resetDXObject s
  (r.1, ev ++ r.2)

/-- Member function `Application::destroyRenderTarget`. -/
def destroyRenderTarget (s : Application) : Application × List Event :=
  let ev1 := if s._d3d11DeviceContext then [Event.OMSetRenderTargets false] else []
  let ev2 := if s._d3d11RenderTarget then [Event.ReleaseRenderTargetView] else []
  ({ s with _d3d11RenderTarget := false, d3d11RenderTarget := false }, ev1 ++ ev2)

/-- Results the platform gives to one `createRenderTarget` call. -/
structure RenderTargetPlatform where
  hrGetBuffer : HRESULT
  hrCreateRenderTargetView : HRESULT
  deriving DecidableEq, Repr

/-- Member function `Application::createRenderTarget`. -/
def createRenderTarget (p : RenderTargetPlatform) (s : Application) : Outcome :=
  if !s._dxgiSwapChain then ⟨false, s, []⟩
  else if !s._d3d11Device then ⟨false, s, []⟩
  else
    let d := if s._d3d11RenderTarget then destroyRenderTarget s else (s, [])
    let s1 := d.1
    let ev1 := d.2 ++ [Event.GetBuffer p.hrGetBuffer]
    if p.hrGetBuffer ≠ S_OK then ⟨false, s1, ev1⟩
    else
      let ev2 := ev1 ++ [Event.CreateRenderTargetView p.hrCreateRenderTargetView]
      if p.hrCreateRenderTargetView ≠ S_OK then
        ⟨false, { s1 with _d3d11RenderTarget := false }, ev2⟩
      else
        ⟨true, { s1 with _d3d11RenderTarget := true, d3d11RenderTarget := true }, ev2⟩

/-- Results the platform gives to one `resizeSwapChain` call. -/
structure ResizePlatform where
  hrResizeBuffers : HRESULT
  renderTarget : RenderTargetPlatform
  deriving DecidableEq, Repr

/-- Member function `Application::resizeSwapChain`. -/
def resizeSwapChain (p : ResizePlatform) (s : Application) (width height : Int) : Outcome :=
  let d := destroyRenderTarget s
  let s1 := d.1
  if !s1._dxgiSwapChain then ⟨false, s1, d.2⟩
  else
    let w : Nat := toUINT (if width ≥ 1 then width else 1)
    let h : Nat := toUINT (if height ≥ 1 then height else 1)
    let ev1 := d.2 ++
      [Event.ResizeBuffers 2 w h DXGI_FORMAT_B8G8R8A8_UNORM s1._swapchain_flags p.hrResizeBuffers]
    if p.hrResizeBuffers ≠ S_OK then ⟨false, s1, ev1⟩
    else
      let c := createRenderTarget p.renderTarget s1
      if !c.result then ⟨false, c.app, ev1 ++ c.events⟩
      else ⟨true, c.app, ev1 ++ c.events⟩

/-- Member function `Application::bindRenderTarget`. -/
def bindRenderTarget (s : Application) : Outcome :=
  if !s._d3d11DeviceContext then ⟨false, s, []⟩
  else if !s._d3d11RenderTarget then ⟨false, s, []⟩
  else ⟨true, s, [Event.OMSetRenderTargets true, Event.ClearRenderTargetView]⟩

/-- Member function `Application::presentBackBuffer`; `hrPresent` is what `Present` returns. -/
def presentBackBuffer (hrPresent : HRESULT) (s : Application) (vsync : Bool) : Outcome :=
  if !s._dxgiSwapChain then ⟨false, s, []⟩
  else
    let flag : Nat := 0
    let flag := if !vsync && s._support_allow_tearing then flag ||| DXGI_PRESENT_ALLOW_TEARING else flag
    let ev := [Event.Present (if vsync then 1 else 0) flag hrPresent]
    if hrPresent ≠ S_OK then ⟨false, s, ev⟩
    else ⟨true, s, ev⟩

/-- Results the platform gives to one `createGraphic` call: one field per call
site whose result the code inspects. `asX` is whether `ComPtr::As` (a
`QueryInterface` for a newer interface version) yields an object. -/
structure GraphicPlatform where
  hrCreateDXGIFactory1 : HRESULT
  asFactory2 : Bool
  asFactory5 : Bool
  hrCheckFeatureSupport : HRESULT
  tearingSupport : Bool
  hrEnumAdapters1 : HRESULT
  hrD3D11CreateDeviceA : HRESULT
  featureLevelA : Nat
  hrD3D11CreateDeviceB : HRESULT
  featureLevelB : Nat
  asDevice1 : Bool
  asContext1 : Bool
  hrCreateSwapChainForHwnd1 : HRESULT
  hrCreateSwapChainForHwnd2 : HRESULT
  hrCreateSwapChainForHwnd3 : HRESULT
  hrCreateSwapChainForHwnd4 : HRESULT
  asSwapChain2 : Bool
  frameLatencyWaitableObject : Nat
  asDXGIDevice1 : Bool
  hrCreateSwapChain : HRESULT
  deriving DecidableEq, Repr

/-- The local variables `hr` and `desc` (its `SwapEffect` and `Flags`, the two
fields that vary) of the flip-model block of `createGraphic`, with the calls
made so far. -/
structure FlipNegotiation where
  hr : HRESULT
  SwapEffect : DXGI_SWAP_EFFECT
  Flags : Nat
  events : List Event
  deriving DecidableEq, Repr

/-- One `hr = _dxgiFactory2->CreateSwapChainForHwnd(..., &desc, ...)` statement. -/
def createSwapChainForHwnd (n : FlipNegotiation) (hr : HRESULT) : FlipNegotiation :=
  { n with hr := hr, events := n.events ++ [Event.CreateSwapChainForHwnd n.SwapEffect n.Flags hr] }

/-- Lines 544-576 of `createGraphic`: the flip-model creation attempts. -/
def flipNegotiation (p : GraphicPlatform) (_support_allow_tearing : Bool) : FlipNegotiation :=
  let desc : FlipNegotiation :=
    { hr := S_OK
      SwapEffect := DXGI_SWAP_EFFECT.FLIP_DISCARD
      Flags := 0
        ||| DXGI_SWAP_CHAIN_FLAG_ALLOW_MODE_SWITCH
        ||| DXGI_SWAP_CHAIN_FLAG_FRAME_LATENCY_WAITABLE_OBJECT
        ||| (if _support_allow_tearing then DXGI_SWAP_CHAIN_FLAG_ALLOW_TEARING else 0)
      events := [] }
  let n1 := createSwapChainForHwnd desc p.hrCreateSwapChainForHwnd1
  let n2 :=
    if S_OK ≠ n1.hr then
      createSwapChainForHwnd { n1 with SwapEffect := DXGI_SWAP_EFFECT.FLIP_SEQUENTIAL }
        p.hrCreateSwapChainForHwnd2
    else n1
  let n3 :=
    if S_OK ≠ n2.hr then
      createSwapChainForHwnd
        { n2 with
            SwapEffect := DXGI_SWAP_EFFECT.FLIP_DISCARD
            Flags := n2.Flags ^^^ DXGI_SWAP_CHAIN_FLAG_FRAME_LATENCY_WAITABLE_OBJECT }
        p.hrCreateSwapChainForHwnd3
    else n2
  let n4 :=
    if S_OK ≠ n3.hr then
      createSwapChainForHwnd { n3 with SwapEffect := DXGI_SWAP_EFFECT.FLIP_SEQUENTIAL }
        p.hrCreateSwapChainForHwnd4
    else n3
  n4

/-- Lines 542-601 of `createGraphic`: the flip-model block, entered with the
feature level reported by `D3D11CreateDevice`. `_dxgiSwapChain1.As(&_dxgiSwapChain)`
asks for the inherited interface `IDXGISwapChain` and so yields an object. -/
def createGraphicFlip (p : GraphicPlatform) (featureLevel : Nat) (s : Application) :
    Application × List Event :=
  if s._dxgiFactory2 && s._d3d11Device1 && s._d3d11DeviceContext1
      && decide (featureLevel = D3D_FEATURE_LEVEL_11_1) then
    let n := flipNegotiation p s._support_allow_tearing
    if S_OK = n.hr then
      let s1 : Application :=
        { s with
            _dxgiSwapChain1 := true
            _support_swap_effect_flip := true
            _support_frame_latency_waitable_object :=
              decide (0 ≠ (n.Flags &&& DXGI_SWAP_CHAIN_FLAG_FRAME_LATENCY_WAITABLE_OBJECT))
            _swapchain_flags := n.Flags
            _dxgiSwapChain := true
            _dxgiSwapChain2 := p.asSwapChain2 }
      if s1._dxgiSwapChain2 && s1._support_frame_latency_waitable_object then
        ({ s1 with _frame_latency_waitable_object := p.frameLatencyWaitableObject },
          n.events ++ [Event.SwapChain2_SetMaximumFrameLatency 1,
            Event.GetFrameLatencyWaitableObject p.frameLatencyWaitableObject])
      else
        (s1, n.events ++
          (if p.asDXGIDevice1 then [Event.DXGIDevice1_SetMaximumFrameLatency 1] else []))
    else
      ({ s with _dxgiSwapChain1 := false }, n.events)
  else (s, [])

/-- Lines 602-636 of `createGraphic`: the legacy fallback, the window
association and the return. -/
def createGraphicFallback (p : GraphicPlatform) (s : Application) (ev : List Event) : Outcome :=
  if !s._dxgiSwapChain then
    let swapchainflag : Nat := DXGI_SWAP_CHAIN_FLAG_ALLOW_MODE_SWITCH
    let ev1 := ev ++
      [Event.CreateSwapChain DXGI_SWAP_EFFECT.DISCARD swapchainflag p.hrCreateSwapChain]
    if S_OK ≠ p.hrCreateSwapChain then ⟨false, s, ev1⟩
    else
      ⟨true,
        { s with _dxgiSwapChain := true, _swapchain_flags := swapchainflag, dxgiSwapChain := true },
        ev1 ++ (if p.asDXGIDevice1 then [Event.DXGIDevice1_SetMaximumFrameLatency 1] else [])
          ++ [Event.MakeWindowAssociation]⟩
  else
    ⟨true, { s with dxgiSwapChain := s._dxgiSwapChain }, ev ++ [Event.MakeWindowAssociation]⟩

/-- Lines 473-540 of `createGraphic`: the factory, the tearing query, the
adapter and the device. The first component is `none` when `createGraphic`
returns false at this stage, else the feature level that `D3D11CreateDevice`
reported. -/
def createGraphicDevice (p : GraphicPlatform) (s : Application) :
    Option Nat × Application × List Event :=
  if s.windowHandle = 0 then (none, s, [])
  else
    let ev1 := [Event.CreateDXGIFactory1 p.hrCreateDXGIFactory1]
    if p.hrCreateDXGIFactory1 ≠ S_OK then (none, { s with _dxgiFactory1 := false }, ev1)
    else
      let s1 : Application :=
        { s with
            _dxgiFactory1 := true
            dxgiFactory := true
            _dxgiFactory2 := p.asFactory2
            _dxgiFactory5 := p.asFactory5 }
      let s2 : Application :=
        if s1._dxgiFactory5 then
          if S_OK = p.hrCheckFeatureSupport ∧ p.tearingSupport ≠ false then
            { s1 with _support_allow_tearing := true }
          else s1
        else s1
      let ev2 := ev1 ++
        (if s1._dxgiFactory5 then [Event.CheckFeatureSupport p.hrCheckFeatureSupport p.tearingSupport]
          else [])
        ++ [Event.EnumAdapters1 p.hrEnumAdapters1]
      if p.hrEnumAdapters1 ≠ S_OK then (none, s2, ev2)
      else
        let ev3 := ev2 ++ [Event.D3D11CreateDevice 4 p.hrD3D11CreateDeviceA]
        let okA : Bool := decide (S_OK = p.hrD3D11CreateDeviceA)
        let ev4 := if !okA then ev3 ++ [Event.D3D11CreateDevice 3 p.hrD3D11CreateDeviceB] else ev3
        let okB : Bool := decide (S_OK = p.hrD3D11CreateDeviceB)
        if !okA && !okB then
          (none, { s2 with _d3d11Device := false, _d3d11DeviceContext := false }, ev4)
        else
          let featureLevel : Nat := if okA then p.featureLevelA else p.featureLevelB
          (some featureLevel,
            { s2 with
                _d3d11Device := true
                _d3d11DeviceContext := true
                d3d11Device := true
                _d3d11Device1 := p.asDevice1
                d3d11DeviceContext := true
                _d3d11DeviceContext1 := p.asContext1
                _support_d3d_feature_level_11_1 :=
                  decide (featureLevel = D3D_FEATURE_LEVEL_11_1) },
            ev4)

/-- Member function `Application::createGraphic`. -/
def createGraphic (p : GraphicPlatform) (s : Application) : Outcome :=
  let d := createGraphicDevice p s
  match d.1 with
  | none => ⟨false, d.2.1, d.2.2⟩
  | some featureLevel =>
    let f := createGraphicFlip p featureLevel d.2.1
    createGraphicFallback p f.1 (d.2.2 ++ f.2)

/-! ## The frame loop of `WorkingThread` -/

/-- The file-scope variables of `low_frame_latency.cpp` (the lock
`g_xWindowSizeLock` is represented by the outcome of `try_lock`). -/
structure Globals where
  g_bExit : Bool
  g_bWantUpdateWindowSize : Bool
  g_uWindowWidth : Nat
  g_uWindowHeight : Nat
  deriving DecidableEq, Repr

/-- The calls that the lambda `HandleRender` makes on `app` and on its argument
`render`. -/
inductive Call where
  | resizeSwapChain (width height : Int)
  | bindRenderTarget
  | render
  | presentBackBuffer (vsync : Bool)
  deriving DecidableEq, Repr

/-- What the environment decides during one `HandleRender` call: whether
`try_lock` acquires the lock, and the results of the platform calls. -/
structure FramePlatform where
  try_lock : Bool
  resize : ResizePlatform
  hrPresent : HRESULT
  deriving DecidableEq, Repr

/-- State after one `HandleRender` call, with the calls it made on `app` and on
`render` and the platform calls made inside them. -/
structure FrameOutcome where
  globals : Globals
  app : Application
  calls : List Call
  events : List Event
  deriving DecidableEq, Repr

/-- The lambda `HandleRender` of `WorkingThread`. -/
def HandleRender (p : FramePlatform) (g : Globals) (s : Application) : FrameOutcome :=
  let resize_flag := false
  let locked : FrameOutcome × Bool :=
    if p.try_lock then
      let want_resize := g.g_bWantUpdateWindowSize
      let g1 : Globals := { g with g_bWantUpdateWindowSize := false }
      let width : Nat := if g1.g_uWindowWidth > 0 then g1.g_uWindowWidth else 1
      let height : Nat := if g1.g_uWindowHeight > 0 then g1.g_uWindowHeight else 1
      if want_resize then
        let r := resizeSwapChain p.resize s (toINT width) (toINT height)
        (⟨g1, r.app, [Call.resizeSwapChain (toINT width) (toINT height)], r.events⟩, true)
      else (⟨g1, s, [], []⟩, resize_flag)
    else (⟨g, s, [], []⟩, resize_flag)
  let o := locked.1
  if !locked.2 then
    let b := bindRenderTarget o.app
    let q := presentBackBuffer p.hrPresent b.app true
    ⟨o.globals, q.app,
      o.calls ++ [Call.bindRenderTarget, Call.render, Call.presentBackBuffer true],
      o.events ++ b.events ++ q.events⟩
  else o

/-! ## `WorkingThreadMessageCallback` and the window it acts on -/

/-- Windows SDK `WM_SIZE`. -/
abbrev WM_SIZE : Nat := 5

/-- Windows SDK `SIZE_MINIMIZED`. -/
abbrev SIZE_MINIMIZED : Nat := 1

/-- Windows SDK `WM_USER`. -/
abbrev WM_USER : Nat := 0x0400

abbrev MSG_SWITCH_DISPLAY_MODE : Nat := WM_USER + 64

abbrev MSG_SWITCH_DISPLAY_MODE_WINDOWED : Nat := 1

abbrev MSG_SWITCH_DISPLAY_MODE_FULLSCREEN : Nat := 2

/-- Windows SDK `WS_OVERLAPPEDWINDOW`. -/
abbrev WS_OVERLAPPEDWINDOW : Nat := 0x00CF0000

/-- Windows SDK `WS_POPUP`. -/
abbrev WS_POPUP : Nat := 0x80000000

/-- Windows SDK macro `LOWORD`, applied to an `LPARAM` (64-bit, signed). -/
def LOWORD (l : Int) : Nat := (l % 2 ^ 64).toNat % 2 ^ 16

/-- Windows SDK macro `HIWORD`, applied to an `LPARAM` (64-bit, signed). -/
def HIWORD (l : Int) : Nat := ((l % 2 ^ 64).toNat / 2 ^ 16) % 2 ^ 16

/-- Windows SDK `RECT`; the fields are `LONG`s. -/
structure RECT where
  left : Int
  top : Int
  right : Int
  bottom : Int
  deriving DecidableEq, Repr

/-- Arithmetic result brought back into the range of a `LONG` (32 bits). -/
def toLONG (x : Int) : Int := toINT (toUINT x)

/-- Every field of the rectangle is a `LONG`. -/
def RECT.inRange (r : RECT) : Prop :=
  (-(2 ^ 31) ≤ r.left ∧ r.left < 2 ^ 31) ∧ (-(2 ^ 31) ≤ r.top ∧ r.top < 2 ^ 31) ∧
  (-(2 ^ 31) ≤ r.right ∧ r.right < 2 ^ 31) ∧ (-(2 ^ 31) ≤ r.bottom ∧ r.bottom < 2 ^ 31)

instance (r : RECT) : Decidable r.inRange := by
  unfold RECT.inRange
  exact inferInstance

/-- A top-level window as user32 keeps it: its `GWL_STYLE`, the rectangle that
`GetWindowRect` reports and whether it is in the topmost band. -/
structure Window where
  style : Nat
  rect : RECT
  topmost : Bool
  deriving DecidableEq, Repr

/-- Model of user32 `SetWindowLongPtrW(hWnd, GWL_STYLE, style)`. -/
def SetWindowLongPtrW_GWL_STYLE (w : Window) (style : Nat) : Window :=
  { w with style := style }

/-- Model of user32 `SetWindowPos(hWnd, after, X, Y, cx, cy, SWP_FRAMECHANGED | SWP_SHOWWINDOW)`
for an idealised window manager, which moves and sizes the window exactly as
asked; `topmost` tells `HWND_TOPMOST` from `HWND_NOTOPMOST`. -/
def SetWindowPos (w : Window) (topmost : Bool) (X Y cx cy : Int) : Window :=
  { w with rect := ⟨X, Y, toLONG (X + cx), toLONG (Y + cy)⟩, topmost := topmost }

/-- What `WorkingThreadMessageCallback` reads and writes besides `Application`:
the file-scope variables, its function-local `static RECT window_rect`, and the
application's window. -/
structure MessageState where
  globals : Globals
  window_rect : RECT
  window : Window
  deriving DecidableEq, Repr

/-- Function `WorkingThreadMessageCallback`. `monitor` is what `GetMonitorInfoW` gives:
`none` when it returns `FALSE`, else `rcMonitor`. The result is the returned
`LRESULT` and the state afterwards. -/
def WorkingThreadMessageCallback (app : Application) (monitor : Option RECT) (st : MessageState)
    (hWnd msg wParam : Nat) (lParam : Int) : Int × MessageState :=
  if hWnd = app.windowHandle then
    if msg = WM_SIZE then
      if wParam ≠ SIZE_MINIMIZED then
        (0, { st with
                globals :=
                  { st.globals with
                      g_bWantUpdateWindowSize := true
                      g_uWindowWidth := LOWORD lParam
                      g_uWindowHeight := HIWORD lParam } })
      else (0, st)
    else if msg = MSG_SWITCH_DISPLAY_MODE then
      if wParam = MSG_SWITCH_DISPLAY_MODE_WINDOWED then
        let w1 := SetWindowLongPtrW_GWL_STYLE st.window WS_OVERLAPPEDWINDOW
        let w2 := SetWindowPos w1 false
          st.window_rect.left
          st.window_rect.top
          (toLONG (st.window_rect.right - st.window_rect.left))
          (toLONG (st.window_rect.bottom - st.window_rect.top))
        (0, { st with window := w2 })
      else if wParam = MSG_SWITCH_DISPLAY_MODE_FULLSCREEN then
        let st1 : MessageState := { st with window_rect := st.window.rect }
        match monitor with
        | some rcMonitor =>
          let w1 := SetWindowLongPtrW_GWL_STYLE st1.window WS_POPUP
          let w2 := SetWindowPos w1 true
            rcMonitor.left
            rcMonitor.top
            (toLONG (rcMonitor.right - rcMonitor.left))
            (toLONG (rcMonitor.bottom - rcMonitor.top))
          (0, { st1 with window := w2 })
        | none => (0, st1)
      else (0, st)
    else (0, st)
  else (0, st)

/-- The WM_SIZE notifications `(wParam, lParam)` of a list handled one after
the other by `WorkingThreadMessageCallback` for the application's window. -/
def handleSizeMessages (app : Application) (monitor : Option RECT) (st : MessageState)
    (msgs : List (Nat × Int)) : MessageState :=
  msgs.foldl
    (fun st m => (WorkingThreadMessageCallback app monitor st app.windowHandle WM_SIZE m.1 m.2).2)
    st

/-! ## Sequences of calls on an `Application` -/

/-- One call of a public graphics member function of `Application`, with the
results the platform gives during that call. -/
inductive Op where
  | clear
  | createGraphic (p : GraphicPlatform)
  | destroyGraphic
  | createRenderTarget (p : RenderTargetPlatform)
  | destroyRenderTarget
  | resizeSwapChain (p : ResizePlatform) (width height : Int)
  | bindRenderTarget
  | presentBackBuffer (hrPresent : HRESULT) (vsync : Bool)
  deriving DecidableEq, Repr

/-- Whether the call is a `createGraphic`. -/
def Op.isCreateGraphic : Op → Bool
  | Op.createGraphic _ => true
  | _ => false

/-- Performs the call; a `void` member function reports `true`. -/
def Op.run (op : Op) (s : Application) : Outcome :=
  match op with
  | Op.clear => ⟨true, (LowFrameLatency.clear s).1, (LowFrameLatency.clear s).2⟩
  | Op.createGraphic p => LowFrameLatency.createGraphic p s
  | Op.destroyGraphic =>
    ⟨true, (LowFrameLatency.destroyGraphic s).1, (LowFrameLatency.destroyGraphic s).2⟩
  | Op.createRenderTarget p => LowFrameLatency.createRenderTarget p s
  | Op.destroyRenderTarget =>
    ⟨true, (LowFrameLatency.destroyRenderTarget s).1, (LowFrameLatency.destroyRenderTarget s).2⟩
  | Op.resizeSwapChain p width height => LowFrameLatency.resizeSwapChain p s width height
  | Op.bindRenderTarget => LowFrameLatency.bindRenderTarget s
  | Op.presentBackBuffer hrPresent vsync => LowFrameLatency.presentBackBuffer hrPresent s vsync

/-- Performs the calls of a list in order; gives the final `Application` and,
for every call, its outcome. -/
def runOps (s : Application) : List Op → Application × List (Op × Outcome)
  | [] => (s, [])
  | op :: ops =>
    let o := op.run s
    let r := runOps o.app ops
    (r.1, (op, o) :: r.2)

/-! ## Auxiliary definitions used in the statements -/

/-- Whether the platform call is a `ResizeBuffers`. -/
def Event.isResizeBuffers : Event → Bool
  | Event.ResizeBuffers _ _ _ _ _ _ => true
  | _ => false

/-- The `Application` that the constructor leaves: `clear` assigns every
modelled data member. -/
def Application.cleared : Application :=
  { _quit := false
    windowHandle := 0
    _windowMessageCallback := []
    _support_d3d_feature_level_11_1 := false
    _support_swap_effect_flip := false
    _support_frame_latency_waitable_object := false
    _support_allow_tearing := false
    _swapchain_flags := 0
    _frame_latency_waitable_object := 0
    _dxgiFactory1 := false
    _dxgiFactory2 := false
    _dxgiFactory5 := false
    _dxgiSwapChain := false
    _dxgiSwapChain1 := false
    _dxgiSwapChain2 := false
    _d3d11Device := false
    _d3d11Device1 := false
    _d3d11DeviceContext := false
    _d3d11DeviceContext1 := false
    _d3d11RenderTarget := false
    dxgiFactory := false
    dxgiSwapChain := false
    d3d11Device := false
    d3d11DeviceContext := false
    d3d11RenderTarget := false }

/-- A cleared `Application` whose window has since been created (`createWindow`
stores the handle in `windowHandle`). -/
def Application.withWindow (hwnd : Nat) : Application :=
  { Application.cleared with windowHandle := hwnd }

/-- Lambda `HandleRender` called once per element of the list, in order: the file-scope
variables and the `Application` after the last call. -/
def runFrames (ps : List FramePlatform) (g : Globals) (s : Application) : Globals × Application :=
  ps.foldl (fun st p => ((HandleRender p st.1 st.2).globals, (HandleRender p st.1 st.2).app)) (g, s)

/-- Sample state: nothing pending, an overlapped window at (100, 100) of size 1280 x 720. -/
def sampleMessageState : MessageState :=
  { globals := ⟨false, false, 1, 1⟩
    window_rect := ⟨0, 0, 0, 0⟩
    window := ⟨WS_OVERLAPPEDWINDOW, ⟨100, 100, 1380, 820⟩, false⟩ }

/-- Sample frame in which the size lock is acquired and every platform call succeeds. -/
def sampleFramePlatform : FramePlatform :=
  { try_lock := true, resize := ⟨S_OK, ⟨S_OK, S_OK⟩⟩, hrPresent := S_OK }

/-- The swap-chain creation attempt that a platform call is, if it is one: the
swap effect and the flags of the description, and whether the call returned
`S_OK`. `CreateSwapChainForHwnd` is the flip-model path, `CreateSwapChain` the
legacy one. -/
def Event.creationAttempt : Event → Option ((DXGI_SWAP_EFFECT × Nat) × Bool)
  | Event.CreateSwapChainForHwnd effect flags hr => some ((effect, flags), decide (hr = S_OK))
  | Event.CreateSwapChain effect flags hr => some ((effect, flags), decide (hr = S_OK))
  | _ => none

/-- The swap-chain creation attempts among the platform calls, in order. -/
def creationAttempts (ev : List Event) : List ((DXGI_SWAP_EFFECT × Nat) × Bool) :=
  ev.filterMap Event.creationAttempt

/-- A list of attempts with their results, cut after the first success. -/
def untilFirstSuccess {α : Type} : List (α × Bool) → List (α × Bool)
  | [] => []
  | (a, ok) :: rest => if ok then [(a, true)] else (a, false) :: untilFirstSuccess rest

/-- The ladder of swap-chain configurations as the specification words it:
flip-discard with the wait-object flag, flip-discard without it, flip-sequential
without it, then the legacy blit model (`tearing` is the tearing flag, or 0). -/
def specifiedLadder (tearing : Nat) : List (DXGI_SWAP_EFFECT × Nat) :=
  [ (DXGI_SWAP_EFFECT.FLIP_DISCARD,
      DXGI_SWAP_CHAIN_FLAG_ALLOW_MODE_SWITCH ||| DXGI_SWAP_CHAIN_FLAG_FRAME_LATENCY_WAITABLE_OBJECT
        ||| tearing),
    (DXGI_SWAP_EFFECT.FLIP_DISCARD, DXGI_SWAP_CHAIN_FLAG_ALLOW_MODE_SWITCH ||| tearing),
    (DXGI_SWAP_EFFECT.FLIP_SEQUENTIAL, DXGI_SWAP_CHAIN_FLAG_ALLOW_MODE_SWITCH ||| tearing),
    (DXGI_SWAP_EFFECT.DISCARD, DXGI_SWAP_CHAIN_FLAG_ALLOW_MODE_SWITCH) ]

/-- The value `desc.Flags` is initialised with in the flip-model block of
`createGraphic`. -/
def flipFlags (_support_allow_tearing : Bool) : Nat :=
  0 ||| DXGI_SWAP_CHAIN_FLAG_ALLOW_MODE_SWITCH
    ||| DXGI_SWAP_CHAIN_FLAG_FRAME_LATENCY_WAITABLE_OBJECT
    ||| (if _support_allow_tearing then DXGI_SWAP_CHAIN_FLAG_ALLOW_TEARING else 0)

/-- The platform lets `createGraphic` reach the flip-model block: factory,
adapter and device are created, the device reports feature level 11_1, and the
`IDXGIFactory2`, `ID3D11Device1` and `ID3D11DeviceContext1` interfaces exist. -/
def GraphicPlatform.offersFlipModel (p : GraphicPlatform) : Prop :=
  p.hrCreateDXGIFactory1 = S_OK ∧ p.hrEnumAdapters1 = S_OK ∧
  p.hrD3D11CreateDeviceA = S_OK ∧ p.featureLevelA = D3D_FEATURE_LEVEL_11_1 ∧
  p.asFactory2 = true ∧ p.asDevice1 = true ∧ p.asContext1 = true

instance (p : GraphicPlatform) : Decidable p.offersFlipModel := by
  unfold GraphicPlatform.offersFlipModel
  exact inferInstance

/-- Whether the swap effect is one of the two flip-model effects. -/
def DXGI_SWAP_EFFECT.isFlipModel : DXGI_SWAP_EFFECT → Bool
  | DXGI_SWAP_EFFECT.FLIP_SEQUENTIAL => true
  | DXGI_SWAP_EFFECT.FLIP_DISCARD => true
  | _ => false

/-- The number of flip-model swap-chain creation attempts that failed. -/
def failedFlipAttempts (ev : List Event) : Nat :=
  ((creationAttempts ev).filter (fun a => a.1.1.isFlipModel && !a.2)).length

/-- The swap effects of the flip-model swap-chain creation attempts that succeeded. -/
def succeededFlipAttempts (ev : List Event) : List DXGI_SWAP_EFFECT :=
  ((creationAttempts ev).filter (fun a => a.1.1.isFlipModel && a.2)).map (fun a => a.1.1)

/-- The flags of the swap-chain description of the creation attempt that
succeeded, if one did. -/
def negotiatedFlags (ev : List Event) : Option Nat :=
  ((creationAttempts ev).find? (fun a => a.2)).map (fun a => a.1.2)

/-- Sample platform: feature level 11_1 with all interfaces and no tearing
support, on which every call succeeds except the flip-model swap-chain creation
calls listed as failing. -/
def samplePlatform (hr1 hr2 hr3 hr4 hrLegacy : HRESULT) : GraphicPlatform :=
  { hrCreateDXGIFactory1 := S_OK
    asFactory2 := true
    asFactory5 := true
    hrCheckFeatureSupport := S_OK
    tearingSupport := false
    hrEnumAdapters1 := S_OK
    hrD3D11CreateDeviceA := S_OK
    featureLevelA := D3D_FEATURE_LEVEL_11_1
    hrD3D11CreateDeviceB := S_OK
    featureLevelB := 0xb000
    asDevice1 := true
    asContext1 := true
    hrCreateSwapChainForHwnd1 := hr1
    hrCreateSwapChainForHwnd2 := hr2
    hrCreateSwapChainForHwnd3 := hr3
    hrCreateSwapChainForHwnd4 := hr4
    asSwapChain2 := true
    frameLatencyWaitableObject := 7
    asDXGIDevice1 := true
    hrCreateSwapChain := hrLegacy }

/-- Windows SDK `E_FAIL` (`0x80004005` as a signed 32-bit value). -/
abbrev E_FAIL : HRESULT := -2147467259

/-! ## `Application::WindowProcess` and the message pump -/

/-- Windows SDK `WM_SYSCOMMAND`. -/
abbrev WM_SYSCOMMAND : Nat := 0x0112

/-- Windows SDK `SC_KEYMENU`. -/
abbrev SC_KEYMENU : Nat := 0xF100

/-- Windows SDK `WM_DESTROY`. -/
abbrev WM_DESTROY : Nat := 0x0002

/-- Windows SDK `WM_QUIT`. -/
abbrev WM_QUIT : Nat := 0x0012

/-- What `WindowProcess` does besides computing its result: the invocation of a
registered callback (a function pointer, here its address) with the `LRESULT` it
returned, `PostQuitMessage` and `DefWindowProcW`. -/
inductive WindowEvent where
  | callback (callback : Nat) (result : Int)
  | PostQuitMessage (exitCode : Int)
  | DefWindowProcW
  deriving DecidableEq, Repr

/-- The range-for loop of `WindowProcess`, from the callbacks still to visit:
`flag` and the invocations made so far. `callbackResult` is what each callback
returns for the message at hand. -/
def WindowProcess.loop (callbackResult : Nat → Int) :
    List Nat → Bool × List WindowEvent → Bool × List WindowEvent
  | [], acc => acc
  | callback :: rest, (flag, ev) =>
    let r := callbackResult callback
    WindowProcess.loop callbackResult rest
      (if r ≠ 0 then true else flag, ev ++ [WindowEvent.callback callback r])

/-- Static member function `Application::WindowProcess`; `lresultDef` is what
`DefWindowProcW` returns. -/
def WindowProcess (app : Application) (callbackResult : Nat → Int) (lresultDef : Int)
    (msg wParam : Nat) : Int × List WindowEvent :=
  let flag := false
  let l : Bool × List WindowEvent :=
    if app._windowMessageCallback.length > 0 then
      WindowProcess.loop callbackResult app._windowMessageCallback (flag, [])
    else (flag, [])
  if l.1 then (1, l.2)
  else if msg = WM_SYSCOMMAND then
    if wParam &&& 0xfff0 = SC_KEYMENU then (0, l.2)
    else (lresultDef, l.2 ++ [WindowEvent.DefWindowProcW])
  else if msg = WM_DESTROY then (0, l.2 ++ [WindowEvent.PostQuitMessage 0])
  else (lresultDef, l.2 ++ [WindowEvent.DefWindowProcW])

/-- Windows SDK `MSG`, reduced to the fields that identify the message. -/
structure MSG where
  hwnd : Nat
  message : Nat
  wParam : Nat
  lParam : Int
  deriving DecidableEq, Repr

/-- The calls by which the pump hands a message on. -/
inductive PumpEvent where
  | TranslateMessage (msg : MSG)
  | DispatchMessageW (msg : MSG)
  deriving DecidableEq, Repr

/-- State of `updateWindowMessage` when it returns: the local `quit`, the
`Application`, the calls made and the messages not yet retrieved. -/
structure PumpOutcome where
  quit : Bool
  app : Application
  events : List PumpEvent
  queue : List MSG
  deriving DecidableEq, Repr

/-- The `PeekMessageW` loop of `updateWindowMessage`. The list holds the messages
that `PeekMessageW(..., PM_REMOVE)` retrieves, in order; when it is empty
`PeekMessageW` returns 0. -/
def updateWindowMessage.peekLoop (app : Application) : List MSG → PumpOutcome
  | [] => ⟨false, app, [], []⟩
  | msg :: rest =>
    if msg.message = WM_QUIT then ⟨true, { app with _quit := true }, [], rest⟩
    else
      let r := updateWindowMessage.peekLoop app rest
      ⟨r.quit, r.app,
        PumpEvent.TranslateMessage msg :: PumpEvent.DispatchMessageW msg :: r.events, r.queue⟩

/-- The `GetMessageW` loop of `updateWindowMessage`. The list holds the results
of the successive `GetMessageW` calls (return value and message); when it is
empty the call does not return, which is `none`. -/
def updateWindowMessage.getLoop (app : Application) : List (Int × MSG) → Option PumpOutcome
  | [] => none
  | (ret, msg) :: rest =>
    if ret ≥ 0 then
      if app._quit ∨ ret = 0 then
        some ⟨true, { app with _quit := true }, [], rest.map Prod.snd⟩
      else
        match updateWindowMessage.getLoop app rest with
        | none => none
        | some r =>
          some ⟨r.quit, r.app,
            PumpEvent.TranslateMessage msg :: PumpEvent.DispatchMessageW msg :: r.events, r.queue⟩
    else some ⟨false, app, [], rest.map Prod.snd⟩

/-- Member function `Application::updateWindowMessage`: the returned `bool`
(still running) and the state at return, or `none` when `GetMessageW` blocks for
ever. With `peek` the messages of `queue` are what `PeekMessageW` retrieves, the
return values of `GetMessageW` do not matter. -/
def updateWindowMessage (app : Application) (peek : Bool) (queue : List (Int × MSG)) :
    Option (Bool × PumpOutcome) :=
  if peek then
    let r := updateWindowMessage.peekLoop app (queue.map Prod.snd)
    some (!r.quit, r)
  else
    match updateWindowMessage.getLoop app queue with
    | none => none
    | some r => some (!r.quit, r)

/-- Member function `Application::setWindowShouldClose`. -/
def setWindowShouldClose (app : Application) (quit : Bool) : Application :=
  { app with _quit := quit }

/-- Member function `Application::isWindowShouldClose`. -/
def isWindowShouldClose (app : Application) : Bool := app._quit

/-! ## The lambda `HandleFullscreen` -/

/-- Windows SDK `VK_MENU` and `VK_RETURN` key states as `GetKeyState` returns
them in one frame: 16-bit patterns whose high bit says that the key is down. -/
structure KeySample where
  menu : Nat
  enter : Nat
  deriving DecidableEq, Repr

/-- The two function-local statics of `HandleFullscreen`. -/
structure FullscreenState where
  _alt_enter : Bool
  _fullscreen : Bool
  deriving DecidableEq, Repr

/-- The initial values of the statics of `HandleFullscreen`. -/
def FullscreenState.initial : FullscreenState := ⟨false, false⟩

/-- The local `alt_enter_key` of `HandleFullscreen`. -/
def alt_enter_key (k : KeySample) : Bool :=
  decide (k.menu &&& 0x8000 ≠ 0) && decide (k.enter &&& 0x8000 ≠ 0)

/-- The lambda `HandleFullscreen` of `WorkingThread`: the statics afterwards and
the `wParam` of the `MSG_SWITCH_DISPLAY_MODE` message posted, if one is. -/
def HandleFullscreen (st : FullscreenState) (k : KeySample) : FullscreenState × Option Nat :=
  if !st._alt_enter && alt_enter_key k then
    let st1 : FullscreenState := { _alt_enter := true, _fullscreen := !st._fullscreen }
    (st1,
      some (if st1._fullscreen then MSG_SWITCH_DISPLAY_MODE_FULLSCREEN
        else MSG_SWITCH_DISPLAY_MODE_WINDOWED))
  else if !alt_enter_key k then
    ({ st with _alt_enter := false }, none)
  else (st, none)

/-- The statics before each frame of a run of `HandleFullscreen` over the key
samples, paired with what the frame does: the statics afterwards and the message
posted. -/
def runFullscreen : FullscreenState → List KeySample → List (FullscreenState × Option Nat)
  | _, [] => []
  | st, k :: ks => HandleFullscreen st k :: runFullscreen (HandleFullscreen st k).1 ks

/-! ## `class InputMethodHelper` -/

/-- The data members of `InputMethodHelper`: the module handle and the function
pointers (`true` when non-NULL) and `enable_map`, an association list with at
most one entry for a window. -/
structure InputMethodHelper where
  Imm32 : Bool
  ImmGetContext : Bool
  ImmReleaseContext : Bool
  ImmSetOpenStatus : Bool
  ImmGetOpenStatus : Bool
  ImmSetConversionStatus : Bool
  ImmNotifyIME : Bool
  enable_map : List (Nat × Bool)
  deriving DecidableEq, Repr

/-- The constructor of `InputMethodHelper`: `loaded` is whether `LoadLibraryA`
gave a module, the other arguments whether `GetProcAddress` finds each function. -/
def InputMethodHelper.construct (loaded getContext releaseContext setOpenStatus getOpenStatus
    setConversionStatus notifyIME : Bool) : InputMethodHelper :=
  if loaded then
    { Imm32 := true
      ImmGetContext := getContext
      ImmReleaseContext := releaseContext
      ImmSetOpenStatus := setOpenStatus
      ImmGetOpenStatus := getOpenStatus
      ImmSetConversionStatus := setConversionStatus
      ImmNotifyIME := notifyIME
      enable_map := [] }
  else
    { Imm32 := false
      ImmGetContext := false
      ImmReleaseContext := false
      ImmSetOpenStatus := false
      ImmGetOpenStatus := false
      ImmSetConversionStatus := false
      ImmNotifyIME := false
      enable_map := [] }

/-- The functions of Imm32 that the helper calls through its pointers. -/
inductive ImmFunction where
  | ImmGetContext
  | ImmReleaseContext
  | ImmSetOpenStatus
  | ImmGetOpenStatus
  | ImmSetConversionStatus
  deriving DecidableEq, Repr

/-- The calls into Imm32, with their arguments and results. -/
inductive ImmEvent where
  | ImmGetContext (window imc : Nat)
  | ImmSetConversionStatus (imc : Nat) (result : Bool)
  | ImmSetOpenStatus (imc : Nat) (fOpen : Bool) (result : Bool)
  | ImmGetOpenStatus (imc : Nat) (result : Bool)
  | ImmReleaseContext (window imc : Nat)
  deriving DecidableEq, Repr

/-- Results Imm32 gives during one call of a member function: the context that
`ImmGetContext` returns (0 is NULL) and the `BOOL`s of the other functions. -/
structure ImmPlatform where
  imc : Nat
  setOpenStatus : Bool
  setConversionStatus : Bool
  getOpenStatus : Bool
  deriving DecidableEq, Repr

/-- The result of a member function of `InputMethodHelper`. -/
structure ImmOutcome where
  result : Bool
  helper : InputMethodHelper
  events : List ImmEvent
  deriving DecidableEq, Repr

/-- The lookup `enable_map.find(window)`. -/
def InputMethodHelper.find (h : InputMethodHelper) (window : Nat) : Option Bool :=
  h.enable_map.lookup window

/-- Member function `InputMethodHelper::enable`. -/
def InputMethodHelper.enable (p : ImmPlatform) (h : InputMethodHelper) (window : Nat) (be : Bool) :
    ImmOutcome :=
  let h1 : InputMethodHelper :=
    if (h.find window).isSome then
      { h with enable_map := h.enable_map.map (fun e => if e.1 = window then (e.1, be) else e) }
    else
      { h with enable_map := h.enable_map ++ [(window, be)] }
  if h1.ImmGetContext && h1.ImmReleaseContext && h1.ImmSetOpenStatus then
    let ev1 := [ImmEvent.ImmGetContext window p.imc]
    if p.imc ≠ 0 then
      let ev2 :=
        if h1.ImmSetConversionStatus && !be then
          ev1 ++ [ImmEvent.ImmSetConversionStatus p.imc p.setConversionStatus]
        else ev1
      ⟨p.setOpenStatus, h1,
        ev2 ++ [ImmEvent.ImmSetOpenStatus p.imc be p.setOpenStatus,
          ImmEvent.ImmReleaseContext window p.imc]⟩
    else ⟨false, h1, ev1⟩
  else ⟨false, h1, []⟩

/-- Member function `InputMethodHelper::seteng`. -/
def InputMethodHelper.seteng (p : ImmPlatform) (h : InputMethodHelper) (window : Nat) :
    ImmOutcome :=
  if h.ImmGetContext && h.ImmReleaseContext && h.ImmSetConversionStatus then
    let ev1 := [ImmEvent.ImmGetContext window p.imc]
    if p.imc ≠ 0 then
      let ev2 :=
        if h.ImmSetOpenStatus then ev1 ++ [ImmEvent.ImmSetOpenStatus p.imc false p.setOpenStatus]
        else ev1
      ⟨p.setConversionStatus, h,
        ev2 ++ [ImmEvent.ImmSetConversionStatus p.imc p.setConversionStatus,
          ImmEvent.ImmReleaseContext window p.imc]⟩
    else ⟨false, h, ev1⟩
  else ⟨false, h, []⟩

/-- A call through one of the function pointers: defined only when the pointer
is non-NULL, otherwise the run stops with the name of the function. -/
def callThrough (f : ImmFunction) (nonNull : Bool) : Except ImmFunction Unit :=
  if nonNull then Except.ok () else Except.error f

/-- Member function `InputMethodHelper::status`: its outcome, or the function
whose NULL pointer it called. -/
def InputMethodHelper.status (p : ImmPlatform) (h : InputMethodHelper) (window : Nat) :
    Except ImmFunction ImmOutcome :=
  match h.find window with
  | some second => Except.ok ⟨second, h, []⟩
  | none => do
    callThrough ImmFunction.ImmGetContext h.ImmGetContext
    let ev1 := [ImmEvent.ImmGetContext window p.imc]
    if p.imc ≠ 0 then
      callThrough ImmFunction.ImmGetOpenStatus h.ImmGetOpenStatus
      callThrough ImmFunction.ImmReleaseContext h.ImmReleaseContext
      pure ⟨p.getOpenStatus, h,
        ev1 ++ [ImmEvent.ImmGetOpenStatus p.imc p.getOpenStatus,
          ImmEvent.ImmReleaseContext window p.imc]⟩
    else
      pure ⟨false, h, ev1⟩

/-! ## Further auxiliary definitions used in the statements -/

/-- Sample `Application`: device, swap chain (first flip-model attempt) and
render-target view all created. -/
def sampleApplication : Application :=
  (runOps (createGraphic (samplePlatform S_OK S_OK S_OK S_OK S_OK) (Application.withWindow 1)).app
    [Op.createRenderTarget ⟨S_OK, S_OK⟩]).1

/-- Sample frame in which the size lock is acquired and `ResizeBuffers` fails. -/
def failingResizePlatform : FramePlatform :=
  { try_lock := true, resize := ⟨E_FAIL, ⟨S_OK, S_OK⟩⟩, hrPresent := S_OK }

/-- The claim of a message by the first callback that wants it, as the
specification words it: the callbacks are invoked in order up to and including
the first one that returns non-zero. -/
def specifiedInvocations (callbackResult : Nat → Int) : List Nat → List WindowEvent
  | [] => []
  | callback :: rest =>
    if callbackResult callback ≠ 0 then [WindowEvent.callback callback (callbackResult callback)]
    else WindowEvent.callback callback (callbackResult callback)
      :: specifiedInvocations callbackResult rest

/-- Input edges as the specification words them: for every frame, whether the
combination is down and was not down in the previous frame (so the flag is
toggled and a message posted), paired with the flag after the frame. `prev` is
the sample of the previous frame, `flag` the flag before the first frame. -/
def edgeToggles (prev flag : Bool) : List Bool → List (Bool × Bool)
  | [] => []
  | down :: rest =>
    let toggled := down && !prev
    (xor flag toggled, toggled) :: edgeToggles down (xor flag toggled) rest

/-- Every function pointer of the helper is NULL, as after a failed
`LoadLibraryA("Imm32.dll")`. -/
def InputMethodHelper.notLoaded (h : InputMethodHelper) : Prop :=
  h.Imm32 = false ∧ h.ImmGetContext = false ∧ h.ImmReleaseContext = false ∧
  h.ImmSetOpenStatus = false ∧ h.ImmGetOpenStatus = false ∧
  h.ImmSetConversionStatus = false ∧ h.ImmNotifyIME = false

instance (h : InputMethodHelper) : Decidable h.notLoaded := by
  unfold InputMethodHelper.notLoaded
  exact inferInstance

/-- Sample helper: the one the constructor leaves when Imm32 fails to load. -/
def sampleHelperNotLoaded : InputMethodHelper :=
  InputMethodHelper.construct false true true true true true true

/-- Sample results of the Imm32 functions. -/
def sampleImmPlatform : ImmPlatform :=
  { imc := 5, setOpenStatus := true, setConversionStatus := true, getOpenStatus := true }

/-- The results that the platform gives to the capability queries and creation
attempts of `createGraphic`: the platform with the remaining results (the
`IDXGISwapChain2` and `IDXGIDevice1` queries used for frame pacing, and the wait
handle) blanked out. -/
def GraphicPlatform.negotiationInputs (p : GraphicPlatform) : GraphicPlatform :=
  { p with asSwapChain2 := false, frameLatencyWaitableObject := 0, asDXGIDevice1 := false }

/-- Whether the platform call caps the number of queued frames or fetches the
frame-latency wait handle. -/
def Event.isFrameLatencyCall : Event → Bool
  | Event.SwapChain2_SetMaximumFrameLatency _ => true
  | Event.GetFrameLatencyWaitableObject _ => true
  | Event.DXGIDevice1_SetMaximumFrameLatency _ => true
  | _ => false

/-- Sample platform of feature level 11_0, on which the flip-model block is not
entered and the legacy swap-chain creation fails. -/
def sampleLegacyOnlyPlatform : GraphicPlatform :=
  { samplePlatform E_FAIL E_FAIL E_FAIL E_FAIL E_FAIL with featureLevelA := 0xb000 }

/-- Sample platform on which only the legacy swap-chain creation succeeds and the
device does not offer `IDXGIDevice1`. -/
def sampleNoDXGIDevice1Platform : GraphicPlatform :=
  { samplePlatform E_FAIL E_FAIL E_FAIL E_FAIL S_OK with asDXGIDevice1 := false }

/-! ## The callback list and `setWindowCentered` -/

/-- The `for` loop of `Application::removeWindowMessageCallback` over the rest of
the vector: an element equal to `callback` is erased, any other is stepped over. -/
def removeWindowMessageCallback.loop (callback : Nat) : List Nat → List Nat
  | [] => []
  | x :: rest =>
    if x = callback then removeWindowMessageCallback.loop callback rest
    else x :: removeWindowMessageCallback.loop callback rest

/-- Member function `Application::removeWindowMessageCallback`; a callback is its
address, 0 being `NULL`. -/
def removeWindowMessageCallback (s : Application) (callback : Nat) : Application :=
  if callback = 0 then s
  else
    { s with
        _windowMessageCallback :=
          removeWindowMessageCallback.loop callback s._windowMessageCallback }

/-- Member function `Application::addWindowMessageCallback`. -/
def addWindowMessageCallback (s : Application) (callback : Nat) : Application :=
  if callback = 0 then s
  else
    let s1 := removeWindowMessageCallback s callback
    { s1 with _windowMessageCallback := s1._windowMessageCallback ++ [callback] }

/-- What the platform gives to one `setWindowCentered` call: `rcMonitor` as
`GetMonitorInfoW` fills it in and the rectangle of `GetWindowRect` (`none` when
the call returns 0), and whether `SetWindowPos` returns non-zero. -/
structure CenterPlatform where
  monitor : Option RECT
  window : Option RECT
  setWindowPos : Bool
  deriving DecidableEq, Repr

/-- The arguments `X, Y, cx, cy` of the `SetWindowPos` call of `setWindowCentered`
(the others are `windowHandle`, `HWND_TOP` and `SWP_SHOWWINDOW`). -/
structure SetWindowPosArguments where
  X : Int
  Y : Int
  cx : Int
  cy : Int
  deriving DecidableEq, Repr

/-- Member function `Application::setWindowCentered`: the returned `bool` and the
arguments of the `SetWindowPos` call when it is reached. The arithmetic is that
of `LONG`s: every result is brought back into the 32-bit range, and `/`
truncates towards zero. -/
def setWindowCentered (p : CenterPlatform) (s : Application) :
    Bool × Option SetWindowPosArguments :=
  if s.windowHandle = 0 then (false, none)
  else
    match p.monitor with
    | none => (false, none)
    | some rcMonitor =>
      let mwidth := toLONG (rcMonitor.right - rcMonitor.left)
      let mheight := toLONG (rcMonitor.bottom - rcMonitor.top)
      match p.window with
      | none => (false, none)
      | some wrect =>
        let wwidth := toLONG (wrect.right - wrect.left)
        let wheight := toLONG (wrect.bottom - wrect.top)
        let left := toLONG (toLONG (rcMonitor.left + Int.tdiv mwidth 2) - Int.tdiv wwidth 2)
        let top := toLONG (toLONG (rcMonitor.top + Int.tdiv mheight 2) - Int.tdiv wheight 2)
        if !p.setWindowPos then (false, some ⟨left, top, wwidth, wheight⟩)
        else (true, some ⟨left, top, wwidth, wheight⟩)

/-! ## Auxiliary definitions for the lifecycle and the capability flags -/

/-- The lifecycle invariant as the specification words it: a held render-target
view comes with a swap chain and a device, and the public raw pointer
`d3d11RenderTarget` is null exactly when the owned view is. -/
def Application.lifecycleInvariant (s : Application) : Prop :=
  (s._d3d11RenderTarget = true → s._dxgiSwapChain = true ∧ s._d3d11Device = true) ∧
  (s.d3d11RenderTarget = false ↔ s._d3d11RenderTarget = false)

instance (s : Application) : Decidable s.lifecycleInvariant := by
  unfold Application.lifecycleInvariant
  exact inferInstance

/-- Whether every `createGraphic` call of the sequence, run from `s`, is made
while no render-target view is held. -/
def createsWithoutView (s : Application) : List Op → Bool
  | [] => true
  | op :: ops =>
    (!op.isCreateGraphic || !s._d3d11RenderTarget) && createsWithoutView (op.run s).app ops

/-- Sample platform on which both `D3D11CreateDevice` calls fail. -/
def sampleNoDevicePlatform : GraphicPlatform :=
  { samplePlatform S_OK S_OK S_OK S_OK S_OK with
      hrD3D11CreateDeviceA := E_FAIL, hrD3D11CreateDeviceB := E_FAIL }

/-- Sample platform whose tearing query reports support and on which every call
succeeds, the first flip-model creation included. -/
def sampleTearingPlatform : GraphicPlatform :=
  { samplePlatform S_OK S_OK S_OK S_OK S_OK with tearingSupport := true }

/-- Sample platform whose tearing query reports support while the device is of
feature level 11_0, so that the swap chain is created by the legacy path. -/
def sampleTearingLegacyPlatform : GraphicPlatform :=
  { samplePlatform S_OK S_OK S_OK S_OK S_OK with tearingSupport := true, featureLevelA := 0xb000 }

/-- Sample platform without tearing support and of feature level 11_0, on which
the legacy swap-chain creation succeeds. -/
def sampleLegacyPlatform : GraphicPlatform :=
  { samplePlatform S_OK S_OK S_OK S_OK S_OK with featureLevelA := 0xb000 }

/-- The `wParam`s of the `MSG_SWITCH_DISPLAY_MODE` messages posted over a run of
`HandleFullscreen`, in order. -/
def postedMessages (st : FullscreenState) (ks : List KeySample) : List Nat :=
  (runFullscreen st ks).filterMap (fun r => r.2)

/-- One call of `addWindowMessageCallback` (`true`) or of
`removeWindowMessageCallback` (`false`) with its argument. -/
def runCallbackCall (s : Application) (c : Bool × Nat) : Application :=
  if c.1 then addWindowMessageCallback s c.2 else removeWindowMessageCallback s c.2

/-- A sequence of `addWindowMessageCallback` and `removeWindowMessageCallback`
calls, in order. -/
def runCallbackCalls (s : Application) (cs : List (Bool × Nat)) : Application :=
  cs.foldl runCallbackCall s

/-- Sample `Application` with three callbacks registered. -/
def sampleCallbacks : Application :=
  { Application.cleared with _windowMessageCallback := [11, 12, 13] }

/-- Sample platform for `setWindowCentered`: a 1920 x 1080 monitor at the origin
and a 1281 x 720 window. -/
def sampleCenterPlatform : CenterPlatform :=
  { monitor := some ⟨0, 0, 1920, 1080⟩, window := some ⟨100, 100, 1381, 820⟩, setWindowPos := true }

/-- Sample platform for `setWindowCentered`: a 1920 x 1080 monitor whose left edge
is the least `LONG`, and a 4000 x 720 window. -/
def sampleFarLeftCenterPlatform : CenterPlatform :=
  { monitor := some ⟨-2147483648, 0, -2147481728, 1080⟩, window := some ⟨0, 0, 4000, 720⟩,
    setWindowPos := true }

end LowFrameLatency

/-! ## The frame loop of `main.cpp` -/

namespace Main

open LowFrameLatency (HRESULT S_OK RenderTargetPlatform)

/-- Windows SDK `DXGI_ERROR_DEVICE_REMOVED` (`0x887A0005` as a signed 32-bit value). -/
abbrev DXGI_ERROR_DEVICE_REMOVED : HRESULT := -2005270523

/-- Windows SDK `DXGI_ERROR_DEVICE_RESET` (`0x887A0007` as a signed 32-bit value). -/
abbrev DXGI_ERROR_DEVICE_RESET : HRESULT := -2005270521

/-- The global graphics pointers of `main.cpp` that the frame loop dereferences. -/
inductive Pointer where
  | g_pd3dDevice
  | g_pd3dDeviceContext
  | g_pSwapChain
  deriving DecidableEq, Repr

/-- The file-scope variables of `main.cpp` (a pointer is `true` when non-null),
with the number of `GetDeviceRemovedReason` and of `CreateDeviceD3D` calls made
so far, which select the platform's answer to the next one. -/
structure State where
  g_pd3dDevice : Bool
  g_pd3dDeviceContext : Bool
  g_pSwapChain : Bool
  g_mainRenderTargetView : Bool
  g_bExit : Bool
  g_bWantUpdateWindowSize : Bool
  g_uWindowWidth : Nat
  g_uWindowHeight : Nat
  reasonCalls : Nat
  createCalls : Nat
  deriving DecidableEq, Repr

/-- Results the platform gives to one `CreateDeviceD3D` call. -/
structure CreateDevicePlatform where
  hrD3D11CreateDeviceAndSwapChain : HRESULT
  renderTarget : RenderTargetPlatform
  deriving DecidableEq, Repr

/-- What the environment decides during one `HandleRender` call of `main.cpp`. -/
structure Platform where
  try_lock : Bool
  hrResizeBuffers : HRESULT
  resizeRenderTarget : RenderTargetPlatform
  hrGetDeviceRemovedReason : Nat → HRESULT
  hrPresent : HRESULT
  createDevice : Nat → CreateDevicePlatform

/-- A member call `ptr->f(...)`: it is defined only when the pointer is
non-null; otherwise the run stops with the name of the null pointer. -/
def deref (ptr : Pointer) (nonNull : Bool) : Except Pointer Unit :=
  if nonNull then Except.ok () else Except.error ptr

/-- Function `CleanupRenderTarget` of `main.cpp`. -/
def CleanupRenderTarget (s : State) : State :=
  { s with g_mainRenderTargetView := false }

/-- Function `CleanupDeviceD3D` of `main.cpp`. -/
def CleanupDeviceD3D (s : State) : State :=
  { CleanupRenderTarget s with
      g_pSwapChain := false, g_pd3dDeviceContext := false, g_pd3dDevice := false }

/-- Function `CreateRenderTarget` of `main.cpp`. -/
def CreateRenderTarget (p : RenderTargetPlatform) (s : State) : Except Pointer State := do
  deref Pointer.g_pSwapChain s.g_pSwapChain
  if p.hrGetBuffer = S_OK then
    deref Pointer.g_pd3dDevice s.g_pd3dDevice
    if p.hrCreateRenderTargetView ≠ S_OK then
      pure { s with g_mainRenderTargetView := false }
    else
      pure { s with g_mainRenderTargetView := true }
  else
    pure s

/-- Function `CreateDeviceD3D` of `main.cpp`. -/
def CreateDeviceD3D (p : Platform) (s : State) : Except Pointer (Bool × State) := do
  let c := p.createDevice s.createCalls
  let s1 : State := { s with createCalls := s.createCalls + 1 }
  if c.hrD3D11CreateDeviceAndSwapChain ≠ S_OK then
    pure (false,
      { s1 with g_pSwapChain := false, g_pd3dDevice := false, g_pd3dDeviceContext := false })
  else
    let s2 : State :=
      { s1 with g_pSwapChain := true, g_pd3dDevice := true, g_pd3dDeviceContext := true }
    deref Pointer.g_pd3dDevice s2.g_pd3dDevice
    let s3 ← CreateRenderTarget c.renderTarget s2
    pure (true, s3)

/-- Function `CheckDeviceD3DState` of `main.cpp`. -/
def CheckDeviceD3DState (p : Platform) (s : State) : Except Pointer (Bool × State) := do
  if !s.g_pd3dDevice || !s.g_pd3dDeviceContext || !s.g_pSwapChain then
    pure (false, s)
  else
    deref Pointer.g_pd3dDevice s.g_pd3dDevice
    let reason := p.hrGetDeviceRemovedReason s.reasonCalls
    let s1 : State := { s with reasonCalls := s.reasonCalls + 1 }
    if S_OK ≠ reason then pure (false, s1)
    else if !s1.g_mainRenderTargetView then pure (false, s1)
    else pure (true, s1)

/-- The lambda `HandleDeviceD3DLose` of `WorkingThread` in `main.cpp`
(`ImGui_ImplDX11_Init` takes references on the device and the context). -/
def HandleDeviceD3DLose (p : Platform) (s : State) : Except Pointer State := do
  deref Pointer.g_pd3dDevice s.g_pd3dDevice
  let s1 : State := { s with reasonCalls := s.reasonCalls + 1 }
  let s2 := CleanupDeviceD3D s1
  let r ← CreateDeviceD3D p s2
  if !r.1 then
    pure { CleanupDeviceD3D r.2 with g_bExit := true }
  else
    deref Pointer.g_pd3dDevice r.2.g_pd3dDevice
    deref Pointer.g_pd3dDeviceContext r.2.g_pd3dDeviceContext
    pure r.2

/-- The resize part (lines 118-138) of the lambda `HandleRender` of `main.cpp`. -/
def HandleRenderResize (p : Platform) (s : State) : Except Pointer State := do
  if p.try_lock then
    let want_resize := s.g_bWantUpdateWindowSize
    let s1 : State := { s with g_bWantUpdateWindowSize := false }
    if want_resize then
      let s2 := CleanupRenderTarget s1
      deref Pointer.g_pSwapChain s2.g_pSwapChain
      let hr := p.hrResizeBuffers
      if hr = DXGI_ERROR_DEVICE_REMOVED ∨ hr = DXGI_ERROR_DEVICE_RESET then
        HandleDeviceD3DLose p s2
      else
        CreateRenderTarget p.resizeRenderTarget s2
    else pure s1
  else pure s

/-- The lambda `HandleRender` of `WorkingThread` in `main.cpp`: the state after
the call, or the null pointer that a member call went through. -/
def HandleRender (p : Platform) (s : State) : Except Pointer State := do
  let s1 ← HandleRenderResize p s
  let c ← CheckDeviceD3DState p s1
  if c.1 then
    deref Pointer.g_pd3dDeviceContext c.2.g_pd3dDeviceContext
    deref Pointer.g_pSwapChain c.2.g_pSwapChain
    let hr := p.hrPresent
    if hr = DXGI_ERROR_DEVICE_REMOVED ∨ hr = DXGI_ERROR_DEVICE_RESET then
      HandleDeviceD3DLose p c.2
    else pure c.2
  else
    HandleDeviceD3DLose p c.2

/-- Sample state at the entry of `HandleRender`: valid device, context, swap chain
and render-target view, and a resize to 800 x 600 pending. -/
def sampleState : State :=
  { g_pd3dDevice := true
    g_pd3dDeviceContext := true
    g_pSwapChain := true
    g_mainRenderTargetView := true
    g_bExit := false
    g_bWantUpdateWindowSize := true
    g_uWindowWidth := 800
    g_uWindowHeight := 600
    reasonCalls := 0
    createCalls := 0 }

/-- Sample platform: the lock is acquired, `ResizeBuffers` reports the device as
removed and `D3D11CreateDeviceAndSwapChain` then fails. -/
def deviceRemovedPlatform : Platform :=
  { try_lock := true
    hrResizeBuffers := DXGI_ERROR_DEVICE_REMOVED
    resizeRenderTarget := ⟨S_OK, S_OK⟩
    hrGetDeviceRemovedReason := fun _ => DXGI_ERROR_DEVICE_REMOVED
    hrPresent := S_OK
    createDevice := fun _ => ⟨LowFrameLatency.E_FAIL, ⟨S_OK, S_OK⟩⟩ }

end Main

/-! ## Properties of `low_frame_latency.cpp` -/

namespace LowFrameLatency

/-! ### The pending resize and the frame -/

theorem LOWORD_lt (l : Int) : LOWORD l < 65536 := by
  unfold LOWORD
  exact Nat.mod_lt _ (by norm_num)

theorem HIWORD_lt (l : Int) : HIWORD l < 65536 := by
  unfold HIWORD
  exact Nat.mod_lt _ (by norm_num)

theorem toINT_of_lt {x : Nat} (h : x < 2 ^ 31) : toINT x = (x : Int) := by
  unfold toINT
  have h1 : x % 2 ^ 32 = x := Nat.mod_eq_of_lt (by omega)
  rw [h1, if_pos h]

theorem toUINT_of_nonneg {x : Int} (h0 : 0 ≤ x) (h : x < 2 ^ 32) : toUINT x = x.toNat := by
  unfold toUINT
  rw [Int.emod_eq_of_lt h0 h]

theorem toLONG_of_inRange {x : Int} (h0 : -(2 ^ 31) ≤ x) (h : x < 2 ^ 31) : toLONG x = x := by
  unfold toLONG toINT toUINT
  have hm : (0 : Int) ≤ x % 2 ^ 32 := Int.emod_nonneg _ (by norm_num)
  have hlt : x % 2 ^ 32 < 2 ^ 32 := Int.emod_lt_of_pos _ (by norm_num)
  have hn : ((x % 2 ^ 32).toNat : Int) = x % 2 ^ 32 := Int.toNat_of_nonneg hm
  have hmod : (x % 2 ^ 32).toNat % 2 ^ 32 = (x % 2 ^ 32).toNat := Nat.mod_eq_of_lt (by omega)
  rw [hmod]
  split_ifs with hc
  · rw [hn]; omega
  · rw [hn]; omega

/-- The size that `HandleRender` hands to `resizeSwapChain` for a pending width
or height that came out of `LOWORD` / `HIWORD`. -/
theorem toINT_clamped_word {x : Nat} (h : x < 65536) :
    toINT (if x > 0 then x else 1) = max (x : Int) 1 := by
  split_ifs with hc
  · rw [toINT_of_lt (by omega)]; omega
  · rw [toINT_of_lt (by norm_num)]; omega

/-- After a non-empty run of non-minimized WM_SIZE notifications the pending
record holds the flag and the decoded size of the last notification. -/
theorem handleSizeMessages_globals (app : Application) (monitor : Option RECT) :
    ∀ (msgs : List (Nat × Int)) (st : MessageState) (hne : msgs ≠ []),
      (∀ m ∈ msgs, m.1 ≠ SIZE_MINIMIZED) →
      (handleSizeMessages app monitor st msgs).globals =
        { st.globals with
            g_bWantUpdateWindowSize := true
            g_uWindowWidth := LOWORD (msgs.getLast hne).2
            g_uWindowHeight := HIWORD (msgs.getLast hne).2 } := by
  intro msgs
  induction msgs with
  | nil => intro st hne; exact absurd rfl hne
  | cons m rest ih =>
    intro st hne hmin
    have hm : m.1 ≠ SIZE_MINIMIZED := hmin m (List.mem_cons_self _ _)
    by_cases hrest : rest = []
    · subst hrest
      simp [handleSizeMessages, WorkingThreadMessageCallback, hm]
    · have hmin2 : ∀ x ∈ rest, x.1 ≠ SIZE_MINIMIZED :=
        fun x hx => hmin x (List.mem_cons_of_mem _ hx)
      have key := ih (WorkingThreadMessageCallback app monitor st app.windowHandle WM_SIZE m.1 m.2).2
        hrest hmin2
      have hlast : (m :: rest).getLast hne = rest.getLast hrest := List.getLast_cons hrest
      rw [hlast]
      simp only [handleSizeMessages, List.foldl_cons] at key ⊢
      rw [key]
      simp [WorkingThreadMessageCallback, hm]

/-- Binding: `bindRenderTarget` leaves the `Application` as it is. -/
theorem bindRenderTarget_app (s : Application) : (bindRenderTarget s).app = s := by
  unfold bindRenderTarget
  split_ifs <;> rfl

/-- Presenting: `presentBackBuffer` leaves the `Application` as it is. -/
theorem presentBackBuffer_app (hrPresent : HRESULT) (s : Application) (vsync : Bool) :
    (presentBackBuffer hrPresent s vsync).app = s := by
  unfold presentBackBuffer
  dsimp only
  split_ifs <;> rfl

/-- A `HandleRender` call that does not get the lock leaves the pending record
and the `Application` as they are. -/
theorem HandleRender_contended (p : FramePlatform) (g : Globals) (s : Application)
    (h : p.try_lock = false) :
    (HandleRender p g s).globals = g ∧ (HandleRender p g s).app = s := by
  unfold HandleRender
  simp only [h]
  simp [presentBackBuffer_app, bindRenderTarget_app]

/-- Frames that do not get the lock leave the pending record and the
`Application` as they are. -/
theorem runFrames_contended (ps : List FramePlatform) (g : Globals) (s : Application)
    (h : ∀ q ∈ ps, q.try_lock = false) : runFrames ps g s = (g, s) := by
  unfold runFrames
  induction ps with
  | nil => rfl
  | cons q rest ih =>
    have hq := HandleRender_contended q g s (h q (List.mem_cons_self _ _))
    simp only [List.foldl_cons]
    rw [hq.1, hq.2]
    exact ih (fun x hx => h x (List.mem_cons_of_mem _ hx))

/-- C1. Coalescing: after any non-empty sequence of non-minimized WM_SIZE
notifications handled by `WorkingThreadMessageCallback`, the next `HandleRender`
call that acquires the size lock (any number of calls that fail to acquire it may
come before) makes exactly one call on `app`, namely `resizeSwapChain` with the
width and height of the last notification (each raised to 1 when 0), and clears
the pending flag. -/
theorem C1_resize_coalescing (app : Application) (monitor : Option RECT) (st : MessageState)
    (msgs : List (Nat × Int)) (contended : List FramePlatform) (p : FramePlatform)
    (hne : msgs ≠ []) (hmin : ∀ m ∈ msgs, m.1 ≠ SIZE_MINIMIZED)
    (hcontended : ∀ q ∈ contended, q.try_lock = false) (hlock : p.try_lock = true) :
    (HandleRender p
        (runFrames contended (handleSizeMessages app monitor st msgs).globals app).1
        (runFrames contended (handleSizeMessages app monitor st msgs).globals app).2).calls =
        [Call.resizeSwapChain (max (LOWORD (msgs.getLast hne).2 : Int) 1)
          (max (HIWORD (msgs.getLast hne).2 : Int) 1)] ∧
      (HandleRender p
        (runFrames contended (handleSizeMessages app monitor st msgs).globals app).1
        (runFrames contended (handleSizeMessages app monitor st msgs).globals app).2).globals.g_bWantUpdateWindowSize
        = false ∧
      (HandleRender p
        (runFrames contended (handleSizeMessages app monitor st msgs).globals app).1
        (runFrames contended (handleSizeMessages app monitor st msgs).globals app).2).events =
        (resizeSwapChain p.resize app (max (LOWORD (msgs.getLast hne).2 : Int) 1)
          (max (HIWORD (msgs.getLast hne).2 : Int) 1)).events := by
  rw [runFrames_contended contended _ app hcontended]
  rw [handleSizeMessages_globals app monitor msgs st hne hmin]
  have hw := toINT_clamped_word (LOWORD_lt (msgs.getLast hne).2)
  have hh := toINT_clamped_word (HIWORD_lt (msgs.getLast hne).2)
  simp only [HandleRender, hlock, if_true]
  simp only [hw, hh]
  simp

/-- C1, instance: (800, 600) then (1024, 768) before one frame gives exactly one
resize, to (1024, 768). -/
theorem C1_resize_coalescing_witness :
    (HandleRender sampleFramePlatform
        (handleSizeMessages (Application.withWindow 1) none sampleMessageState
          [(0, 600 * 65536 + 800), (0, 768 * 65536 + 1024)]).globals
        (Application.withWindow 1)).calls = [Call.resizeSwapChain 1024 768] := by
  have h := (C1_resize_coalescing (Application.withWindow 1) none sampleMessageState
    [(0, 600 * 65536 + 800), (0, 768 * 65536 + 1024)] [] sampleFramePlatform
    (by simp) (by decide) (by simp) rfl).1
  have hw : LOWORD (768 * 65536 + 1024) = 1024 := by decide
  have hh : HIWORD (768 * 65536 + 1024) = 768 := by decide
  simpa [hw, hh, runFrames] using h

/-- The `ResizeBuffers` calls of one `resizeSwapChain` call. -/
theorem resizeSwapChain_resizeBuffers (p : ResizePlatform) (s : Application) (width height : Int) :
    (resizeSwapChain p s width height).events.filter Event.isResizeBuffers =
      if s._dxgiSwapChain then
        [Event.ResizeBuffers 2 (toUINT (if width ≥ 1 then width else 1))
          (toUINT (if height ≥ 1 then height else 1))
          DXGI_FORMAT_B8G8R8A8_UNORM s._swapchain_flags p.hrResizeBuffers]
      else [] := by
  unfold resizeSwapChain createRenderTarget destroyRenderTarget
  cases hsc : s._dxgiSwapChain <;> cases hdc : s._d3d11DeviceContext <;>
    cases hrt : s._d3d11RenderTarget <;> cases hd : s._d3d11Device <;>
    by_cases h1 : p.hrResizeBuffers = 0 <;>
    by_cases h2 : p.renderTarget.hrGetBuffer = 0 <;>
    by_cases h3 : p.renderTarget.hrCreateRenderTargetView = 0 <;>
    simp [Event.isResizeBuffers, List.filter, hsc, hdc, hrt, hd, h1, h2, h3]

theorem toUINT_clamped {x : Int} (h : x < 2 ^ 31) :
    toUINT (if x ≥ 1 then x else 1) = (max x 1).toNat := by
  split_ifs with hc
  · rw [toUINT_of_nonneg (by omega) (by omega), max_eq_left hc]
  · rw [toUINT_of_nonneg (by omega) (by norm_num), max_eq_right (by omega)]

theorem toINT_range (x : Nat) : -(2 ^ 31) ≤ toINT x ∧ toINT x < 2 ^ 31 := by
  unfold toINT
  have h : x % 2 ^ 32 < 2 ^ 32 := Nat.mod_lt _ (by norm_num)
  split_ifs with hc <;> omega

/-- Every `ResizeBuffers` call of `resizeSwapChain` carries the clamped size. -/
theorem resizeSwapChain_dims (p : ResizePlatform) (s : Application) (width height : Int)
    (hwidth : width < 2 ^ 31) (hheight : height < 2 ^ 31)
    (c w h f fl : Nat) (hr : HRESULT)
    (hmem : Event.ResizeBuffers c w h f fl hr ∈ (resizeSwapChain p s width height).events) :
    w = (max width 1).toNat ∧ h = (max height 1).toNat := by
  have hf : Event.ResizeBuffers c w h f fl hr ∈
      (resizeSwapChain p s width height).events.filter Event.isResizeBuffers :=
    List.mem_filter.mpr ⟨hmem, rfl⟩
  rw [resizeSwapChain_resizeBuffers, toUINT_clamped hwidth, toUINT_clamped hheight] at hf
  cases hsc : s._dxgiSwapChain
  · simp [hsc] at hf
  · simp [hsc] at hf
    exact ⟨hf.2.1, hf.2.2.1⟩

/-- The platform calls of a `HandleRender` call are those of its one
`resizeSwapChain` call, or else those of binding and presenting. -/
theorem HandleRender_events (fp : FramePlatform) (g : Globals) (s : Application) :
    (HandleRender fp g s).events =
      if fp.try_lock && g.g_bWantUpdateWindowSize then
        (resizeSwapChain fp.resize s
          (toINT (if g.g_uWindowWidth > 0 then g.g_uWindowWidth else 1))
          (toINT (if g.g_uWindowHeight > 0 then g.g_uWindowHeight else 1))).events
      else (bindRenderTarget s).events ++ (presentBackBuffer fp.hrPresent s true).events := by
  unfold HandleRender
  cases hl : fp.try_lock <;> cases hw : g.g_bWantUpdateWindowSize <;>
    simp [bindRenderTarget, presentBackBuffer] <;>
    split_ifs <;> simp

/-- C2. Clamping: `resizeSwapChain(width, height)` calls `ResizeBuffers` (once,
when a swap chain is held, else not at all) with width `max(width, 1)` and height
`max(height, 1)`, and no `ResizeBuffers` call made through `resizeSwapChain` or
through `HandleRender` asks for a dimension of 0. -/
theorem C2_resize_clamped (p : ResizePlatform) (s : Application) (width height : Int)
    (hwidth : -(2 ^ 31) ≤ width ∧ width < 2 ^ 31) (hheight : -(2 ^ 31) ≤ height ∧ height < 2 ^ 31) :
    ((resizeSwapChain p s width height).events.filter Event.isResizeBuffers =
      if s._dxgiSwapChain then
        [Event.ResizeBuffers 2 (max width 1).toNat (max height 1).toNat
          DXGI_FORMAT_B8G8R8A8_UNORM s._swapchain_flags p.hrResizeBuffers]
      else []) ∧
    (∀ c w h f fl hr, Event.ResizeBuffers c w h f fl hr ∈ (resizeSwapChain p s width height).events →
      1 ≤ w ∧ 1 ≤ h) ∧
    (∀ (fp : FramePlatform) (g : Globals) c w h f fl hr,
      Event.ResizeBuffers c w h f fl hr ∈ (HandleRender fp g s).events → 1 ≤ w ∧ 1 ≤ h) := by
  refine ⟨?_, ?_, ?_⟩
  · rw [resizeSwapChain_resizeBuffers, toUINT_clamped hwidth.2, toUINT_clamped hheight.2]
  · intro c w h f fl hr hmem
    obtain ⟨h1, h2⟩ := resizeSwapChain_dims p s width height hwidth.2 hheight.2 c w h f fl hr hmem
    omega
  · intro fp g c w h f fl hr hmem
    rw [HandleRender_events] at hmem
    by_cases hc : (fp.try_lock && g.g_bWantUpdateWindowSize) = true
    · rw [if_pos hc] at hmem
      obtain ⟨h1, h2⟩ := resizeSwapChain_dims fp.resize s _ _ (toINT_range _).2 (toINT_range _).2
        c w h f fl hr hmem
      omega
    · rw [if_neg hc] at hmem
      exfalso
      unfold bindRenderTarget presentBackBuffer at hmem
      revert hmem
      split_ifs <;> simp

/-- C2, instance: a request of (0, 0) reaches `ResizeBuffers` as (1, 1). -/
theorem C2_resize_clamped_witness :
    (resizeSwapChain sampleFramePlatform.resize
        { Application.withWindow 1 with _dxgiSwapChain := true } 0 0).events.filter
        Event.isResizeBuffers =
      [Event.ResizeBuffers 2 1 1 DXGI_FORMAT_B8G8R8A8_UNORM 0 S_OK] :=
  (C2_resize_clamped sampleFramePlatform.resize
    { Application.withWindow 1 with _dxgiSwapChain := true } 0 0
    (by norm_num) (by norm_num)).1

/-- C8. `presentBackBuffer(vsync)` on a state that holds a swap chain calls
`Present` once: with sync interval 1 and flags 0 when `vsync` is true, with sync
interval 0 and flags `DXGI_PRESENT_ALLOW_TEARING` when `vsync` is false and
`_support_allow_tearing` is set, and with sync interval 0 and flags 0 otherwise;
it returns true exactly when `Present` returned `S_OK`. -/
theorem C8_present_arguments (hrPresent : HRESULT) (s : Application) (vsync : Bool)
    (hsc : s._dxgiSwapChain = true) :
    (presentBackBuffer hrPresent s vsync).events =
        [Event.Present (if vsync then 1 else 0)
          (if vsync then 0 else if s._support_allow_tearing then DXGI_PRESENT_ALLOW_TEARING else 0)
          hrPresent] ∧
      ((presentBackBuffer hrPresent s vsync).result = true ↔ hrPresent = S_OK) := by
  unfold presentBackBuffer
  cases vsync <;> cases ht : s._support_allow_tearing <;> by_cases h : hrPresent = 0 <;>
    simp [hsc, ht, h]

/-- C8, instance: without vsync and with tearing negotiated, `Present(0,
DXGI_PRESENT_ALLOW_TEARING)` is called. -/
theorem C8_present_arguments_witness :
    (presentBackBuffer S_OK
        { Application.withWindow 1 with _dxgiSwapChain := true, _support_allow_tearing := true }
        false).events = [Event.Present 0 DXGI_PRESENT_ALLOW_TEARING S_OK] :=
  (C8_present_arguments S_OK
    { Application.withWindow 1 with _dxgiSwapChain := true, _support_allow_tearing := true }
    false rfl).1

/-- C10. A `HandleRender` call that consumes a pending resize (lock acquired and
flag set) calls `resizeSwapChain` once and neither the render callback nor
`presentBackBuffer`; every other `HandleRender` call calls `bindRenderTarget`, the
render callback and `presentBackBuffer`, once each and in that order, and not
`resizeSwapChain`. -/
theorem C10_resize_frame_skips_render (p : FramePlatform) (g : Globals) (s : Application) :
    (HandleRender p g s).calls =
      if p.try_lock = true ∧ g.g_bWantUpdateWindowSize = true then
        [Call.resizeSwapChain (toINT (if g.g_uWindowWidth > 0 then g.g_uWindowWidth else 1))
          (toINT (if g.g_uWindowHeight > 0 then g.g_uWindowHeight else 1))]
      else [Call.bindRenderTarget, Call.render, Call.presentBackBuffer true] := by
  unfold HandleRender
  cases hl : p.try_lock <;> cases hw : g.g_bWantUpdateWindowSize <;> simp

/-! ### The stages of `createGraphic` -/

/-- The comparison `S_OK == hr` read as `hr == S_OK`. -/
theorem S_OK_eq_iff (hr : HRESULT) : (0 = hr) ↔ (hr = 0) := eq_comm

/-- Closed form of the flip-model creation attempts: they stop at the first
success. -/
theorem flipNegotiation_eq (p : GraphicPlatform) (t : Bool) :
    flipNegotiation p t =
      if p.hrCreateSwapChainForHwnd1 = S_OK then
        ⟨p.hrCreateSwapChainForHwnd1, DXGI_SWAP_EFFECT.FLIP_DISCARD, flipFlags t,
          [Event.CreateSwapChainForHwnd DXGI_SWAP_EFFECT.FLIP_DISCARD (flipFlags t)
            p.hrCreateSwapChainForHwnd1]⟩
      else if p.hrCreateSwapChainForHwnd2 = S_OK then
        ⟨p.hrCreateSwapChainForHwnd2, DXGI_SWAP_EFFECT.FLIP_SEQUENTIAL, flipFlags t,
          [Event.CreateSwapChainForHwnd DXGI_SWAP_EFFECT.FLIP_DISCARD (flipFlags t)
            p.hrCreateSwapChainForHwnd1,
           Event.CreateSwapChainForHwnd DXGI_SWAP_EFFECT.FLIP_SEQUENTIAL (flipFlags t)
            p.hrCreateSwapChainForHwnd2]⟩
      else if p.hrCreateSwapChainForHwnd3 = S_OK then
        ⟨p.hrCreateSwapChainForHwnd3, DXGI_SWAP_EFFECT.FLIP_DISCARD,
          flipFlags t ^^^ DXGI_SWAP_CHAIN_FLAG_FRAME_LATENCY_WAITABLE_OBJECT,
          [Event.CreateSwapChainForHwnd DXGI_SWAP_EFFECT.FLIP_DISCARD (flipFlags t)
            p.hrCreateSwapChainForHwnd1,
           Event.CreateSwapChainForHwnd DXGI_SWAP_EFFECT.FLIP_SEQUENTIAL (flipFlags t)
            p.hrCreateSwapChainForHwnd2,
           Event.CreateSwapChainForHwnd DXGI_SWAP_EFFECT.FLIP_DISCARD
            (flipFlags t ^^^ DXGI_SWAP_CHAIN_FLAG_FRAME_LATENCY_WAITABLE_OBJECT)
            p.hrCreateSwapChainForHwnd3]⟩
      else
        ⟨p.hrCreateSwapChainForHwnd4, DXGI_SWAP_EFFECT.FLIP_SEQUENTIAL,
          flipFlags t ^^^ DXGI_SWAP_CHAIN_FLAG_FRAME_LATENCY_WAITABLE_OBJECT,
          [Event.CreateSwapChainForHwnd DXGI_SWAP_EFFECT.FLIP_DISCARD (flipFlags t)
            p.hrCreateSwapChainForHwnd1,
           Event.CreateSwapChainForHwnd DXGI_SWAP_EFFECT.FLIP_SEQUENTIAL (flipFlags t)
            p.hrCreateSwapChainForHwnd2,
           Event.CreateSwapChainForHwnd DXGI_SWAP_EFFECT.FLIP_DISCARD
            (flipFlags t ^^^ DXGI_SWAP_CHAIN_FLAG_FRAME_LATENCY_WAITABLE_OBJECT)
            p.hrCreateSwapChainForHwnd3,
           Event.CreateSwapChainForHwnd DXGI_SWAP_EFFECT.FLIP_SEQUENTIAL
            (flipFlags t ^^^ DXGI_SWAP_CHAIN_FLAG_FRAME_LATENCY_WAITABLE_OBJECT)
            p.hrCreateSwapChainForHwnd4]⟩ := by
  unfold flipNegotiation createSwapChainForHwnd flipFlags
  by_cases a1 : p.hrCreateSwapChainForHwnd1 = 0 <;>
    by_cases a2 : p.hrCreateSwapChainForHwnd2 = 0 <;>
    by_cases a3 : p.hrCreateSwapChainForHwnd3 = 0 <;>
    simp [a1, a2, a3, S_OK_eq_iff]

theorem flipFlags_false : flipFlags false = 66 := by decide

theorem flipFlags_true : flipFlags true = 2114 := by decide

/-- With the wait-object flag toggled off, the flags are mode switch plus tearing. -/
theorem flipFlags_xor (t : Bool) :
    flipFlags t ^^^ DXGI_SWAP_CHAIN_FLAG_FRAME_LATENCY_WAITABLE_OBJECT =
      DXGI_SWAP_CHAIN_FLAG_ALLOW_MODE_SWITCH |||
        (if t then DXGI_SWAP_CHAIN_FLAG_ALLOW_TEARING else 0) := by
  cases t <;> decide

theorem flipFlags_eq (t : Bool) :
    flipFlags t =
      DXGI_SWAP_CHAIN_FLAG_ALLOW_MODE_SWITCH ||| DXGI_SWAP_CHAIN_FLAG_FRAME_LATENCY_WAITABLE_OBJECT
        ||| (if t then DXGI_SWAP_CHAIN_FLAG_ALLOW_TEARING else 0) := by
  cases t <;> decide

/-- The device stage makes no swap-chain creation attempt. -/
theorem createGraphicDevice_creationAttempts (p : GraphicPlatform) (s : Application) :
    creationAttempts (createGraphicDevice p s).2.2 = [] := by
  unfold createGraphicDevice creationAttempts
  by_cases h0 : s.windowHandle = 0 <;> by_cases h1 : p.hrCreateDXGIFactory1 = 0 <;>
    by_cases h2 : p.hrEnumAdapters1 = 0 <;> by_cases h3 : p.hrD3D11CreateDeviceA = 0 <;>
    by_cases h4 : p.hrD3D11CreateDeviceB = 0 <;> cases h5 : p.asFactory5 <;>
    simp [h0, h1, h2, h3, h4, h5, Event.creationAttempt, S_OK_eq_iff]

/-- What the device stage leaves untouched. -/
theorem createGraphicDevice_frame (p : GraphicPlatform) (s : Application) :
    (createGraphicDevice p s).2.1._dxgiSwapChain = s._dxgiSwapChain ∧
    (createGraphicDevice p s).2.1._dxgiSwapChain1 = s._dxgiSwapChain1 ∧
    (createGraphicDevice p s).2.1._dxgiSwapChain2 = s._dxgiSwapChain2 ∧
    (createGraphicDevice p s).2.1._swapchain_flags = s._swapchain_flags ∧
    (createGraphicDevice p s).2.1._support_swap_effect_flip = s._support_swap_effect_flip ∧
    (createGraphicDevice p s).2.1._support_frame_latency_waitable_object
      = s._support_frame_latency_waitable_object ∧
    (createGraphicDevice p s).2.1._frame_latency_waitable_object
      = s._frame_latency_waitable_object ∧
    (createGraphicDevice p s).2.1._d3d11RenderTarget = s._d3d11RenderTarget ∧
    (createGraphicDevice p s).2.1.d3d11RenderTarget = s.d3d11RenderTarget ∧
    (createGraphicDevice p s).2.1.dxgiSwapChain = s.dxgiSwapChain ∧
    (createGraphicDevice p s).2.1.windowHandle = s.windowHandle := by
  unfold createGraphicDevice
  by_cases h0 : s.windowHandle = 0 <;> by_cases h1 : p.hrCreateDXGIFactory1 = 0 <;>
    by_cases h2 : p.hrEnumAdapters1 = 0 <;> by_cases h3 : p.hrD3D11CreateDeviceA = 0 <;>
    by_cases h4 : p.hrD3D11CreateDeviceB = 0 <;> cases h5 : p.asFactory5 <;>
    simp [h0, h1, h2, h3, h4, h5, S_OK_eq_iff] <;> split_ifs <;> simp

/-- On a platform that offers the flip model the device stage ends with feature
level 11_1 and the three interfaces that the flip-model block asks for. -/
theorem createGraphicDevice_offersFlipModel (p : GraphicPlatform) (s : Application)
    (hwnd : s.windowHandle ≠ 0) (hflip : p.offersFlipModel) :
    (createGraphicDevice p s).1 = some D3D_FEATURE_LEVEL_11_1 ∧
    (createGraphicDevice p s).2.1._dxgiFactory2 = true ∧
    (createGraphicDevice p s).2.1._d3d11Device1 = true ∧
    (createGraphicDevice p s).2.1._d3d11DeviceContext1 = true := by
  obtain ⟨h1, h2, h3, h4, h5, h6, h7⟩ := hflip
  unfold createGraphicDevice
  cases h8 : p.asFactory5
  · simp [h1, h2, h3, h4, h5, h6, h7, h8, hwnd]
  · simp [h1, h2, h3, h4, h5, h6, h7, h8, hwnd]
    split_ifs <;> simp [h5]

theorem creationAttempts_append (a b : List Event) :
    creationAttempts (a ++ b) = creationAttempts a ++ creationAttempts b := by
  simp [creationAttempts, List.filterMap_append]

/-- The creation attempts of the flip-model block are those of its negotiation. -/
theorem createGraphicFlip_attempts (p : GraphicPlatform) (L : Nat) (s : Application) :
    creationAttempts (createGraphicFlip p L s).2 =
      if (s._dxgiFactory2 && s._d3d11Device1 && s._d3d11DeviceContext1
          && decide (L = D3D_FEATURE_LEVEL_11_1)) = true then
        creationAttempts (flipNegotiation p s._support_allow_tearing).events
      else [] := by
  unfold createGraphicFlip
  generalize flipNegotiation p s._support_allow_tearing = n
  dsimp only
  split_ifs <;> simp [creationAttempts, Event.creationAttempt, List.filterMap_append]

/-- The members that the flip-model block sets, in closed form: `e` is whether
the block is entered, `n` its negotiation, `w` whether the final flags carry the
wait-object flag. -/
theorem createGraphicFlip_app (p : GraphicPlatform) (L : Nat) (s : Application)
    (n : FlipNegotiation) (e w : Bool)
    (hn : flipNegotiation p s._support_allow_tearing = n)
    (he : (s._dxgiFactory2 && s._d3d11Device1 && s._d3d11DeviceContext1
          && decide (L = D3D_FEATURE_LEVEL_11_1)) = e)
    (hw : decide (0 ≠ (n.Flags &&& DXGI_SWAP_CHAIN_FLAG_FRAME_LATENCY_WAITABLE_OBJECT)) = w) :
    (createGraphicFlip p L s).1._dxgiSwapChain = (e && decide (n.hr = S_OK) || s._dxgiSwapChain) ∧
    (createGraphicFlip p L s).1._support_allow_tearing = s._support_allow_tearing ∧
    (createGraphicFlip p L s).1._support_swap_effect_flip =
      (e && decide (n.hr = S_OK) || s._support_swap_effect_flip) ∧
    (createGraphicFlip p L s).1._support_frame_latency_waitable_object =
      (if e && decide (n.hr = S_OK) then w else s._support_frame_latency_waitable_object) ∧
    (createGraphicFlip p L s).1._swapchain_flags =
      (if e && decide (n.hr = S_OK) then n.Flags else s._swapchain_flags) ∧
    (createGraphicFlip p L s).1._frame_latency_waitable_object =
      (if e && decide (n.hr = S_OK) && p.asSwapChain2 && w then p.frameLatencyWaitableObject
        else s._frame_latency_waitable_object) ∧
    (createGraphicFlip p L s).1._d3d11Device = s._d3d11Device ∧
    (createGraphicFlip p L s).1._d3d11DeviceContext = s._d3d11DeviceContext ∧
    (createGraphicFlip p L s).1._d3d11RenderTarget = s._d3d11RenderTarget ∧
    (createGraphicFlip p L s).1.d3d11RenderTarget = s.d3d11RenderTarget := by
  unfold createGraphicFlip
  rw [hn, he]
  dsimp only
  rw [hw]
  cases e <;> by_cases hn0 : n.hr = 0 <;> cases h2 : p.asSwapChain2 <;> cases w <;>
    simp [hn0, h2, S_OK_eq_iff]


/-- The legacy fallback and return of `createGraphic`, in closed form. -/
theorem createGraphicFallback_app (p : GraphicPlatform) (s : Application) (ev : List Event) :
    (createGraphicFallback p s ev).result = (s._dxgiSwapChain || decide (p.hrCreateSwapChain = S_OK)) ∧
    (createGraphicFallback p s ev).app._dxgiSwapChain =
      (s._dxgiSwapChain || decide (p.hrCreateSwapChain = S_OK)) ∧
    (createGraphicFallback p s ev).app._swapchain_flags =
      (if !s._dxgiSwapChain && decide (p.hrCreateSwapChain = S_OK)
        then DXGI_SWAP_CHAIN_FLAG_ALLOW_MODE_SWITCH else s._swapchain_flags) ∧
    (createGraphicFallback p s ev).app._support_allow_tearing = s._support_allow_tearing ∧
    (createGraphicFallback p s ev).app._support_swap_effect_flip = s._support_swap_effect_flip ∧
    (createGraphicFallback p s ev).app._support_frame_latency_waitable_object =
      s._support_frame_latency_waitable_object ∧
    (createGraphicFallback p s ev).app._frame_latency_waitable_object =
      s._frame_latency_waitable_object ∧
    (createGraphicFallback p s ev).app._d3d11Device = s._d3d11Device ∧
    (createGraphicFallback p s ev).app._d3d11DeviceContext = s._d3d11DeviceContext ∧
    (createGraphicFallback p s ev).app._d3d11RenderTarget = s._d3d11RenderTarget ∧
    (createGraphicFallback p s ev).app.d3d11RenderTarget = s.d3d11RenderTarget := by
  unfold createGraphicFallback
  cases hsc : s._dxgiSwapChain <;> by_cases h : p.hrCreateSwapChain = 0 <;>
    simp [hsc, h, S_OK_eq_iff]

/-- The creation attempts up to the return of `createGraphic`: the legacy
attempt is made exactly when no swap chain is held at that point. -/
theorem createGraphicFallback_attempts (p : GraphicPlatform) (s : Application) (ev : List Event) :
    creationAttempts (createGraphicFallback p s ev).events =
      creationAttempts ev ++
        (if s._dxgiSwapChain then []
          else [((DXGI_SWAP_EFFECT.DISCARD, DXGI_SWAP_CHAIN_FLAG_ALLOW_MODE_SWITCH),
            decide (p.hrCreateSwapChain = S_OK))]) := by
  unfold createGraphicFallback
  cases hsc : s._dxgiSwapChain <;> by_cases h : p.hrCreateSwapChain = 0 <;>
    cases hd : p.asDXGIDevice1 <;>
    simp [hsc, h, hd, S_OK_eq_iff, creationAttempts, Event.creationAttempt,
      List.filterMap_append]

/-- The result of the flip-model negotiation: it succeeds when one of the four
attempts does, and then carries the wait-object flag exactly when one of the
first two did. -/
theorem flipNegotiation_result (p : GraphicPlatform) (t : Bool) :
    ((flipNegotiation p t).hr = S_OK ↔
      (p.hrCreateSwapChainForHwnd1 = S_OK ∨ p.hrCreateSwapChainForHwnd2 = S_OK ∨
        p.hrCreateSwapChainForHwnd3 = S_OK ∨ p.hrCreateSwapChainForHwnd4 = S_OK)) ∧
    (flipNegotiation p t).Flags =
      (if p.hrCreateSwapChainForHwnd1 = S_OK ∨ p.hrCreateSwapChainForHwnd2 = S_OK then flipFlags t
        else flipFlags t ^^^ DXGI_SWAP_CHAIN_FLAG_FRAME_LATENCY_WAITABLE_OBJECT) := by
  rw [flipNegotiation_eq]
  by_cases a1 : p.hrCreateSwapChainForHwnd1 = 0 <;>
    by_cases a2 : p.hrCreateSwapChainForHwnd2 = 0 <;>
    by_cases a3 : p.hrCreateSwapChainForHwnd3 = 0 <;>
    simp [a1, a2, a3]

/-- The wait-object bit of the two possible final flag values. -/
theorem flipFlags_wait (t : Bool) :
    flipFlags t &&& DXGI_SWAP_CHAIN_FLAG_FRAME_LATENCY_WAITABLE_OBJECT = 64 ∧
    (flipFlags t ^^^ DXGI_SWAP_CHAIN_FLAG_FRAME_LATENCY_WAITABLE_OBJECT) &&&
      DXGI_SWAP_CHAIN_FLAG_FRAME_LATENCY_WAITABLE_OBJECT = 0 := by
  cases t <;> decide

/-- The creation attempts of the flip-model negotiation, one per call site, cut
after the first success. -/
theorem flipNegotiation_attempts (p : GraphicPlatform) (t : Bool) :
    creationAttempts (flipNegotiation p t).events =
      untilFirstSuccess
        [ ((DXGI_SWAP_EFFECT.FLIP_DISCARD, flipFlags t), decide (p.hrCreateSwapChainForHwnd1 = S_OK)),
          ((DXGI_SWAP_EFFECT.FLIP_SEQUENTIAL, flipFlags t),
            decide (p.hrCreateSwapChainForHwnd2 = S_OK)),
          ((DXGI_SWAP_EFFECT.FLIP_DISCARD,
              flipFlags t ^^^ DXGI_SWAP_CHAIN_FLAG_FRAME_LATENCY_WAITABLE_OBJECT),
            decide (p.hrCreateSwapChainForHwnd3 = S_OK)),
          ((DXGI_SWAP_EFFECT.FLIP_SEQUENTIAL,
              flipFlags t ^^^ DXGI_SWAP_CHAIN_FLAG_FRAME_LATENCY_WAITABLE_OBJECT),
            decide (p.hrCreateSwapChainForHwnd4 = S_OK)) ] := by
  rw [flipNegotiation_eq]
  generalize flipFlags t = f
  generalize f ^^^ DXGI_SWAP_CHAIN_FLAG_FRAME_LATENCY_WAITABLE_OBJECT = g
  by_cases a1 : p.hrCreateSwapChainForHwnd1 = 0 <;>
    by_cases a2 : p.hrCreateSwapChainForHwnd2 = 0 <;>
    by_cases a3 : p.hrCreateSwapChainForHwnd3 = 0 <;>
    by_cases a4 : p.hrCreateSwapChainForHwnd4 = 0 <;>
    simp [a1, a2, a3, a4, creationAttempts, Event.creationAttempt, untilFirstSuccess]

/-- C3, refuted as worded: when every creation attempt fails, `createGraphic`
makes five attempts, the second being flip-sequential with the wait-object flag
still set, and not the four of the specified ladder. -/
theorem C3_specified_ladder_counterexample :
    (creationAttempts
        (createGraphic (samplePlatform E_FAIL E_FAIL E_FAIL E_FAIL E_FAIL)
          (Application.withWindow 1)).events).map Prod.fst =
      [ (DXGI_SWAP_EFFECT.FLIP_DISCARD, 66), (DXGI_SWAP_EFFECT.FLIP_SEQUENTIAL, 66),
        (DXGI_SWAP_EFFECT.FLIP_DISCARD, 2), (DXGI_SWAP_EFFECT.FLIP_SEQUENTIAL, 2),
        (DXGI_SWAP_EFFECT.DISCARD, 2) ] ∧
    (creationAttempts
        (createGraphic (samplePlatform E_FAIL E_FAIL E_FAIL E_FAIL E_FAIL)
          (Application.withWindow 1)).events).map Prod.fst ≠ specifiedLadder 0 := by
  decide

/-! ### The whole of `createGraphic` -/

/-- Unfolding of `createGraphic` once the device stage has succeeded. -/
theorem createGraphic_of_device (p : GraphicPlatform) (s : Application) (L : Nat)
    (h : (createGraphicDevice p s).1 = some L) :
    createGraphic p s =
      createGraphicFallback p (createGraphicFlip p L (createGraphicDevice p s).2.1).1
        ((createGraphicDevice p s).2.2 ++ (createGraphicFlip p L (createGraphicDevice p s).2.1).2) := by
  unfold createGraphic
  simp only [h]

/-- Unfolding of `createGraphic` when the device stage fails. -/
theorem createGraphic_of_no_device (p : GraphicPlatform) (s : Application)
    (h : (createGraphicDevice p s).1 = none) :
    createGraphic p s = ⟨false, (createGraphicDevice p s).2.1, (createGraphicDevice p s).2.2⟩ := by
  unfold createGraphic
  simp only [h]

/-- The swap-chain creation attempts of `createGraphic` once the device stage
has succeeded with feature level `L`, leaving the `Application` as `d`: those of
the flip-model negotiation when the block is entered, then the legacy attempt
when no swap chain is held. -/
theorem createGraphic_attempts (p : GraphicPlatform) (s d : Application) (L : Nat)
    (ev : List Event) (e : Bool)
    (hd : createGraphicDevice p s = (some L, d, ev))
    (he : (d._dxgiFactory2 && d._d3d11Device1 && d._d3d11DeviceContext1
          && decide (L = D3D_FEATURE_LEVEL_11_1)) = e) :
    creationAttempts (createGraphic p s).events =
      (if e then creationAttempts (flipNegotiation p d._support_allow_tearing).events else []) ++
        (if (e && decide ((flipNegotiation p d._support_allow_tearing).hr = S_OK)
              || s._dxgiSwapChain) then []
          else [((DXGI_SWAP_EFFECT.DISCARD, DXGI_SWAP_CHAIN_FLAG_ALLOW_MODE_SWITCH),
            decide (p.hrCreateSwapChain = S_OK))]) := by
  have hd1 : (createGraphicDevice p s).1 = some L := by rw [hd]
  have hfr := (createGraphicDevice_frame p s).1
  have hev := createGraphicDevice_creationAttempts p s
  have happ := (createGraphicFlip_app p L d _ _ _ rfl he rfl).1
  rw [createGraphic_of_device p s L hd1]
  rw [hd] at hfr hev ⊢
  simp only at hfr hev ⊢
  rw [createGraphicFallback_attempts, creationAttempts_append, hev, createGraphicFlip_attempts,
    he, happ, hfr]
  cases e <;> simp

/-- The members of the `Application` after `createGraphic`, once the device
stage has succeeded with feature level `L`, leaving the `Application` as `d`. -/
theorem createGraphic_app (p : GraphicPlatform) (s d : Application) (L : Nat)
    (ev : List Event) (ok : Bool)
    (hd : createGraphicDevice p s = (some L, d, ev))
    (hok : ((d._dxgiFactory2 && d._d3d11Device1 && d._d3d11DeviceContext1
          && decide (L = D3D_FEATURE_LEVEL_11_1))
          && decide ((flipNegotiation p d._support_allow_tearing).hr = S_OK)) = ok) :
    (createGraphic p s).result = (ok || s._dxgiSwapChain || decide (p.hrCreateSwapChain = S_OK)) ∧
    (createGraphic p s).app._dxgiSwapChain =
      (ok || s._dxgiSwapChain || decide (p.hrCreateSwapChain = S_OK)) ∧
    (createGraphic p s).app._swapchain_flags =
      (if ok then (flipNegotiation p d._support_allow_tearing).Flags
        else if !s._dxgiSwapChain && decide (p.hrCreateSwapChain = S_OK)
          then DXGI_SWAP_CHAIN_FLAG_ALLOW_MODE_SWITCH else s._swapchain_flags) ∧
    (createGraphic p s).app._support_allow_tearing = d._support_allow_tearing ∧
    (createGraphic p s).app._support_swap_effect_flip = (ok || s._support_swap_effect_flip) ∧
    (createGraphic p s).app._support_frame_latency_waitable_object =
      (if ok then
        decide (0 ≠ ((flipNegotiation p d._support_allow_tearing).Flags
          &&& DXGI_SWAP_CHAIN_FLAG_FRAME_LATENCY_WAITABLE_OBJECT))
        else s._support_frame_latency_waitable_object) ∧
    (createGraphic p s).app._frame_latency_waitable_object =
      (if ok && p.asSwapChain2 &&
          decide (0 ≠ ((flipNegotiation p d._support_allow_tearing).Flags
            &&& DXGI_SWAP_CHAIN_FLAG_FRAME_LATENCY_WAITABLE_OBJECT))
        then p.frameLatencyWaitableObject else s._frame_latency_waitable_object) ∧
    (createGraphic p s).app._d3d11Device = d._d3d11Device ∧
    (createGraphic p s).app._d3d11DeviceContext = d._d3d11DeviceContext ∧
    (createGraphic p s).app._d3d11RenderTarget = s._d3d11RenderTarget ∧
    (createGraphic p s).app.d3d11RenderTarget = s.d3d11RenderTarget := by
  have hd1 : (createGraphicDevice p s).1 = some L := by rw [hd]
  have hfr := createGraphicDevice_frame p s
  have happ := createGraphicFlip_app p L d _ _ _ rfl rfl rfl
  have hfb := createGraphicFallback_app p (createGraphicFlip p L d).1 (ev ++ (createGraphicFlip p L d).2)
  rw [createGraphic_of_device p s L hd1]
  rw [hd] at hfr ⊢
  simp only at hfr ⊢
  obtain ⟨f1, f2, f3, f4, f5, f6, f7, f8, f9, f10, f11⟩ := hfb
  obtain ⟨a1, a2, a3, a4, a5, a6, a7, a8, a9, a10⟩ := happ
  obtain ⟨d1, d2, d3, d4, d5, d6, d7, d8, d9, d10, d11⟩ := hfr
  rw [f1, f2, f3, f4, f5, f6, f7, f8, f9, f10, f11, a1, a2, a3, a4, a5, a6, a7, a8, a9, a10,
    d1, d4, d5, d6, d7, d8, d9, hok]
  cases ok <;> cases s._dxgiSwapChain <;> simp

/-- C3, as the code has it. On a platform that offers the flip model and for an
`Application` holding no swap chain, the swap-chain creation attempts of
`createGraphic` are, in this order and cut after the first success: flip-discard
with the wait-object flag, flip-sequential with the wait-object flag,
flip-discard without it, flip-sequential without it, legacy blit model (all
flip-model attempts carry the tearing flag when tearing is supported). So each
attempt is made only after all earlier ones failed and no configuration is tried
twice. -/
theorem C3_fallback_ladder (p : GraphicPlatform) (s : Application)
    (hwnd : s.windowHandle ≠ 0) (hsc : s._dxgiSwapChain = false) (hflip : p.offersFlipModel) :
    creationAttempts (createGraphic p s).events =
      untilFirstSuccess
        [ ((DXGI_SWAP_EFFECT.FLIP_DISCARD,
              DXGI_SWAP_CHAIN_FLAG_ALLOW_MODE_SWITCH
                ||| DXGI_SWAP_CHAIN_FLAG_FRAME_LATENCY_WAITABLE_OBJECT
                ||| (if (createGraphic p s).app._support_allow_tearing
                      then DXGI_SWAP_CHAIN_FLAG_ALLOW_TEARING else 0)),
            decide (p.hrCreateSwapChainForHwnd1 = S_OK)),
          ((DXGI_SWAP_EFFECT.FLIP_SEQUENTIAL,
              DXGI_SWAP_CHAIN_FLAG_ALLOW_MODE_SWITCH
                ||| DXGI_SWAP_CHAIN_FLAG_FRAME_LATENCY_WAITABLE_OBJECT
                ||| (if (createGraphic p s).app._support_allow_tearing
                      then DXGI_SWAP_CHAIN_FLAG_ALLOW_TEARING else 0)),
            decide (p.hrCreateSwapChainForHwnd2 = S_OK)),
          ((DXGI_SWAP_EFFECT.FLIP_DISCARD,
              DXGI_SWAP_CHAIN_FLAG_ALLOW_MODE_SWITCH
                ||| (if (createGraphic p s).app._support_allow_tearing
                      then DXGI_SWAP_CHAIN_FLAG_ALLOW_TEARING else 0)),
            decide (p.hrCreateSwapChainForHwnd3 = S_OK)),
          ((DXGI_SWAP_EFFECT.FLIP_SEQUENTIAL,
              DXGI_SWAP_CHAIN_FLAG_ALLOW_MODE_SWITCH
                ||| (if (createGraphic p s).app._support_allow_tearing
                      then DXGI_SWAP_CHAIN_FLAG_ALLOW_TEARING else 0)),
            decide (p.hrCreateSwapChainForHwnd4 = S_OK)),
          ((DXGI_SWAP_EFFECT.DISCARD, DXGI_SWAP_CHAIN_FLAG_ALLOW_MODE_SWITCH),
            decide (p.hrCreateSwapChain = S_OK)) ] ∧
    ((creationAttempts (createGraphic p s).events).map Prod.fst).Nodup := by
  obtain ⟨hd1, hf2, hdev1, hctx1⟩ := createGraphicDevice_offersFlipModel p s hwnd hflip
  rcases hd : createGraphicDevice p s with ⟨o, d, ev⟩
  rw [hd] at hd1 hf2 hdev1 hctx1
  simp only at hd1 hf2 hdev1 hctx1
  subst hd1
  have hent : (d._dxgiFactory2 && d._d3d11Device1 && d._d3d11DeviceContext1
      && decide (D3D_FEATURE_LEVEL_11_1 = D3D_FEATURE_LEVEL_11_1)) = true := by
    simp [hf2, hdev1, hctx1]
  have htear := (createGraphic_app p s d _ ev _ hd rfl).2.2.2.1
  have hatt := createGraphic_attempts p s d _ ev _ hd hent
  have hres := (flipNegotiation_result p d._support_allow_tearing).1
  rw [htear, hatt, flipNegotiation_attempts, hsc, ← flipFlags_eq, ← flipFlags_xor]
  clear hatt htear hd hent
  have hfg : flipFlags d._support_allow_tearing ≠
      flipFlags d._support_allow_tearing ^^^ DXGI_SWAP_CHAIN_FLAG_FRAME_LATENCY_WAITABLE_OBJECT := by
    cases d._support_allow_tearing <;> decide
  generalize flipFlags d._support_allow_tearing = f at *
  generalize f ^^^ DXGI_SWAP_CHAIN_FLAG_FRAME_LATENCY_WAITABLE_OBJECT = g at *
  generalize (flipNegotiation p d._support_allow_tearing).hr = r at *
  have hgf : g ≠ f := fun h => hfg h.symm
  by_cases a1 : p.hrCreateSwapChainForHwnd1 = 0 <;>
    by_cases a2 : p.hrCreateSwapChainForHwnd2 = 0 <;>
    by_cases a3 : p.hrCreateSwapChainForHwnd3 = 0 <;>
    by_cases a4 : p.hrCreateSwapChainForHwnd4 = 0 <;>
    simp [a1, a2, a3, a4] at hres <;>
    simp [a1, a2, a3, a4, hres, untilFirstSuccess, hfg, hgf]
  by_cases a5 : p.hrCreateSwapChain = 0 <;> simp [a5]


/-- C3 as the code has it, instance: when the first attempt fails and the second
succeeds, the attempts are flip-discard and then flip-sequential, both with the
wait-object flag. -/
theorem C3_fallback_ladder_witness :
    creationAttempts
        (createGraphic (samplePlatform E_FAIL S_OK S_OK S_OK S_OK) (Application.withWindow 1)).events =
      [ ((DXGI_SWAP_EFFECT.FLIP_DISCARD, 66), false),
        ((DXGI_SWAP_EFFECT.FLIP_SEQUENTIAL, 66), true) ] := by
  have h := (C3_fallback_ladder (samplePlatform E_FAIL S_OK S_OK S_OK S_OK)
    (Application.withWindow 1) (by decide) rfl (by decide)).1
  rw [h]
  decide


/-- C4. Starting from a cleared `Application` (with its window created), whenever
at least two flip-model swap-chain creation attempts of `createGraphic` fail and a
later flip-model attempt (flip-sequential, or flip-discard) succeeds,
`createGraphic` returns true with `_support_swap_effect_flip` true and without a
frame-latency wait object: `_support_frame_latency_waitable_object` is false,
`_frame_latency_waitable_object` is NULL and `_swapchain_flags` does not contain
`DXGI_SWAP_CHAIN_FLAG_FRAME_LATENCY_WAITABLE_OBJECT`. -/
theorem C4_flip_without_wait_object (p : GraphicPlatform) (hwnd : Nat)
    (hfail : 2 ≤ failedFlipAttempts (createGraphic p (Application.withWindow hwnd)).events)
    (hsucc : succeededFlipAttempts (createGraphic p (Application.withWindow hwnd)).events ≠ []) :
    (createGraphic p (Application.withWindow hwnd)).result = true ∧
    (createGraphic p (Application.withWindow hwnd)).app._support_swap_effect_flip = true ∧
    (createGraphic p (Application.withWindow hwnd)).app._support_frame_latency_waitable_object
      = false ∧
    (createGraphic p (Application.withWindow hwnd)).app._frame_latency_waitable_object = 0 ∧
    (createGraphic p (Application.withWindow hwnd)).app._swapchain_flags
      &&& DXGI_SWAP_CHAIN_FLAG_FRAME_LATENCY_WAITABLE_OBJECT = 0 := by
  rcases hd : createGraphicDevice p (Application.withWindow hwnd) with ⟨o, d, ev⟩
  have hev := createGraphicDevice_creationAttempts p (Application.withWindow hwnd)
  rw [hd] at hev
  simp only at hev
  cases o with
  | none =>
    exfalso
    have h1 : (createGraphicDevice p (Application.withWindow hwnd)).1 = none := by rw [hd]
    rw [createGraphic_of_no_device p _ h1, hd] at hfail
    simp [failedFlipAttempts, hev] at hfail
  | some L =>
    have hatt := createGraphic_attempts p _ d L ev _ hd rfl
    have happ := createGraphic_app p _ d L ev _ hd rfl
    have hres := flipNegotiation_result p d._support_allow_tearing
    have hwait := flipFlags_wait d._support_allow_tearing
    unfold failedFlipAttempts at hfail
    unfold succeededFlipAttempts at hsucc
    rw [hatt, flipNegotiation_attempts] at hfail hsucc
    obtain ⟨r1, r2, r3, r4, r5, r6, r7, -⟩ := happ
    rw [r1, r5, r6, r7, r3]
    clear r1 r2 r3 r4 r5 r6 r7 hatt hd hev
    obtain ⟨hr, hfl⟩ := hres
    rw [hfl]
    obtain ⟨hw1, hw2⟩ := hwait
    generalize (d._dxgiFactory2 && d._d3d11Device1 && d._d3d11DeviceContext1
      && decide (L = D3D_FEATURE_LEVEL_11_1)) = e at *
    generalize (flipNegotiation p d._support_allow_tearing).hr = r at *
    generalize flipFlags d._support_allow_tearing = f at *
    generalize f ^^^ DXGI_SWAP_CHAIN_FLAG_FRAME_LATENCY_WAITABLE_OBJECT = g at *
    cases e <;>
      by_cases a1 : p.hrCreateSwapChainForHwnd1 = 0 <;>
      by_cases a2 : p.hrCreateSwapChainForHwnd2 = 0 <;>
      by_cases a3 : p.hrCreateSwapChainForHwnd3 = 0 <;>
      by_cases a4 : p.hrCreateSwapChainForHwnd4 = 0 <;>
      simp [a1, a2, a3, a4] at hr <;>
      simp [a1, a2, a3, a4, hr, untilFirstSuccess, DXGI_SWAP_EFFECT.isFlipModel,
        Application.withWindow, Application.cleared, hw2] at hfail hsucc ⊢

/-- C4, instance: flip-discard fails with and without the wait-object flag,
flip-sequential fails with it and succeeds without it. -/
theorem C4_flip_without_wait_object_witness :
    succeededFlipAttempts
        (createGraphic (samplePlatform E_FAIL E_FAIL E_FAIL S_OK S_OK)
          (Application.withWindow 1)).events = [DXGI_SWAP_EFFECT.FLIP_SEQUENTIAL] ∧
    (createGraphic (samplePlatform E_FAIL E_FAIL E_FAIL S_OK S_OK)
      (Application.withWindow 1)).app._support_swap_effect_flip = true ∧
    (createGraphic (samplePlatform E_FAIL E_FAIL E_FAIL S_OK S_OK)
      (Application.withWindow 1)).app._support_frame_latency_waitable_object = false :=
  ⟨by decide,
   (C4_flip_without_wait_object (samplePlatform E_FAIL E_FAIL E_FAIL S_OK S_OK) 1
      (by decide) (by decide)).2.1,
   (C4_flip_without_wait_object (samplePlatform E_FAIL E_FAIL E_FAIL S_OK S_OK) 1
      (by decide) (by decide)).2.2.1⟩


/-! ### The display-mode messages -/

theorem toLONG_eq_of (x y : Int) (h0 : -(2 ^ 31) ≤ y) (h1 : y < 2 ^ 31)
    (h : (x - y) % 2 ^ 32 = 0) : toLONG x = y := by
  unfold toLONG toINT toUINT
  split_ifs <;> omega

theorem toLONG_mod (x : Int) :
    (toLONG x - x) % 2 ^ 32 = 0 ∧ -(2 ^ 31) ≤ toLONG x ∧ toLONG x < 2 ^ 31 := by
  unfold toLONG toINT toUINT
  split_ifs <;> omega

/-- Position plus the saved extent gives back the saved far edge. -/
theorem toLONG_round_trip (l r : Int) (h0 : -(2 ^ 31) ≤ r) (h1 : r < 2 ^ 31) :
    toLONG (l + toLONG (r - l)) = r := by
  have h := toLONG_mod (r - l)
  apply toLONG_eq_of _ _ h0 h1
  omega

/-- C7. Fullscreen round trip: for the application's window with window rectangle
`R` (in particular one in windowed mode, of style `WS_OVERLAPPEDWINDOW`), handling
`MSG_SWITCH_DISPLAY_MODE` with `FULLSCREEN` and then with `WINDOWED` leaves the
window with style `WS_OVERLAPPEDWINDOW` and with rectangle `R` (same left, top,
width and height), whatever the monitor query answers. -/
theorem C7_fullscreen_round_trip (app : Application) (monitor1 monitor2 : Option RECT)
    (st : MessageState) (R : RECT) (lParam1 lParam2 : Int)
    (hR : R.inRange) (hrect : st.window.rect = R) :
    (WorkingThreadMessageCallback app monitor2
        (WorkingThreadMessageCallback app monitor1 st app.windowHandle MSG_SWITCH_DISPLAY_MODE
          MSG_SWITCH_DISPLAY_MODE_FULLSCREEN lParam1).2
        app.windowHandle MSG_SWITCH_DISPLAY_MODE MSG_SWITCH_DISPLAY_MODE_WINDOWED lParam2).2.window.style
      = WS_OVERLAPPEDWINDOW ∧
    (WorkingThreadMessageCallback app monitor2
        (WorkingThreadMessageCallback app monitor1 st app.windowHandle MSG_SWITCH_DISPLAY_MODE
          MSG_SWITCH_DISPLAY_MODE_FULLSCREEN lParam1).2
        app.windowHandle MSG_SWITCH_DISPLAY_MODE MSG_SWITCH_DISPLAY_MODE_WINDOWED lParam2).2.window.rect
      = R := by
  obtain ⟨-, -, ⟨hr0, hr1⟩, ⟨hb0, hb1⟩⟩ := hR
  have e1 := toLONG_round_trip R.left R.right hr0 hr1
  have e2 := toLONG_round_trip R.top R.bottom hb0 hb1
  have h1 : MSG_SWITCH_DISPLAY_MODE ≠ WM_SIZE := by decide
  have h2 : MSG_SWITCH_DISPLAY_MODE_FULLSCREEN ≠ MSG_SWITCH_DISPLAY_MODE_WINDOWED := by decide
  cases monitor1 <;>
    simp [WorkingThreadMessageCallback, SetWindowPos, SetWindowLongPtrW_GWL_STYLE, hrect, e1, e2,
      h1, h2]

/-- C7, instance: a 1280 x 720 window at (100, 100) on a 1920 x 1080 monitor. -/
theorem C7_fullscreen_round_trip_witness :
    (WorkingThreadMessageCallback (Application.withWindow 1) (some ⟨0, 0, 1920, 1080⟩)
        (WorkingThreadMessageCallback (Application.withWindow 1) (some ⟨0, 0, 1920, 1080⟩)
          sampleMessageState 1 MSG_SWITCH_DISPLAY_MODE MSG_SWITCH_DISPLAY_MODE_FULLSCREEN 0).2
        1 MSG_SWITCH_DISPLAY_MODE MSG_SWITCH_DISPLAY_MODE_WINDOWED 0).2.window.rect
      = ⟨100, 100, 1380, 820⟩ :=
  (C7_fullscreen_round_trip (Application.withWindow 1) (some ⟨0, 0, 1920, 1080⟩)
    (some ⟨0, 0, 1920, 1080⟩) sampleMessageState ⟨100, 100, 1380, 820⟩ 0 0
    (by decide) rfl).2


/-! ### Sequences of calls -/

/-- Frame of `createRenderTarget`: it changes the render-target view only. -/
theorem createRenderTarget_app (p : RenderTargetPlatform) (s : Application) :
    ∃ a b, (createRenderTarget p s).app = { s with _d3d11RenderTarget := a, d3d11RenderTarget := b } := by
  unfold createRenderTarget destroyRenderTarget
  dsimp only
  split_ifs <;> exact ⟨_, _, rfl⟩

/-- Frame of `resizeSwapChain`: it changes the render-target view only. -/
theorem resizeSwapChain_app (p : ResizePlatform) (s : Application) (width height : Int) :
    ∃ a b, (resizeSwapChain p s width height).app =
      { s with _d3d11RenderTarget := a, d3d11RenderTarget := b } := by
  unfold resizeSwapChain
  obtain ⟨a, b, hab⟩ := createRenderTarget_app p.renderTarget (destroyRenderTarget s).1
  dsimp only
  by_cases h1 : (!(destroyRenderTarget s).1._dxgiSwapChain) = true
  · rw [if_pos h1]
    exact ⟨_, _, rfl⟩
  · rw [if_neg h1]
    by_cases h2 : p.hrResizeBuffers ≠ S_OK
    · rw [if_pos h2]
      exact ⟨_, _, rfl⟩
    · rw [if_neg h2]
      by_cases h3 : (!(createRenderTarget p.renderTarget (destroyRenderTarget s).1).result) = true
      · rw [if_pos h3]
        exact ⟨a, b, by rw [hab]; rfl⟩
      · rw [if_neg h3]
        exact ⟨a, b, by rw [hab]; rfl⟩

/-- A call other than `createGraphic` never produces a swap chain, and keeps the
swap-chain flags while a swap chain is held. -/
theorem Op.run_keeps (op : Op) (s : Application) (hop : op.isCreateGraphic = false)
    (h : (op.run s).app._dxgiSwapChain = true) :
    s._dxgiSwapChain = true ∧ (op.run s).app._swapchain_flags = s._swapchain_flags := by
  cases op with
  | clear => simp [Op.run, LowFrameLatency.clear, _resetDXObject] at h
  | createGraphic p => simp [Op.isCreateGraphic] at hop
  | destroyGraphic => simp [Op.run, LowFrameLatency.destroyGraphic, _resetDXObject] at h
  | createRenderTarget p =>
    obtain ⟨a, b, hab⟩ := createRenderTarget_app p s
    simp only [Op.run] at h ⊢
    rw [hab] at h ⊢
    exact ⟨h, rfl⟩
  | destroyRenderTarget => exact ⟨h, rfl⟩
  | resizeSwapChain p width height =>
    obtain ⟨a, b, hab⟩ := resizeSwapChain_app p s width height
    simp only [Op.run] at h ⊢
    rw [hab] at h ⊢
    exact ⟨h, rfl⟩
  | bindRenderTarget =>
    simp only [Op.run] at h ⊢
    rw [bindRenderTarget_app] at h ⊢
    exact ⟨h, rfl⟩
  | presentBackBuffer hrPresent vsync =>
    simp only [Op.run] at h ⊢
    rw [presentBackBuffer_app] at h ⊢
    exact ⟨h, rfl⟩

/-- When the device stage succeeds, the device and its context are held. -/
theorem createGraphicDevice_device (p : GraphicPlatform) (s : Application) (L : Nat)
    (h : (createGraphicDevice p s).1 = some L) :
    (createGraphicDevice p s).2.1._d3d11Device = true ∧
    (createGraphicDevice p s).2.1._d3d11DeviceContext = true := by
  revert h
  unfold createGraphicDevice
  by_cases h0 : s.windowHandle = 0 <;> by_cases h1 : p.hrCreateDXGIFactory1 = 0 <;>
    by_cases h2 : p.hrEnumAdapters1 = 0 <;> by_cases h3 : p.hrD3D11CreateDeviceA = 0 <;>
    by_cases h4 : p.hrD3D11CreateDeviceB = 0 <;>
    simp [h0, h1, h2, h3, h4, S_OK_eq_iff]

/-- A `createGraphic` call that produces a swap chain where none was held returns
true and leaves a device. -/
theorem createGraphic_creates (p : GraphicPlatform) (s : Application)
    (hs : s._dxgiSwapChain = false) (h : (createGraphic p s).app._dxgiSwapChain = true) :
    (createGraphic p s).result = true ∧ (createGraphic p s).app._d3d11Device = true := by
  rcases hd : createGraphicDevice p s with ⟨o, d, ev⟩
  have hfr := (createGraphicDevice_frame p s).1
  cases o with
  | none =>
    exfalso
    have h1 : (createGraphicDevice p s).1 = none := by rw [hd]
    rw [createGraphic_of_no_device p s h1] at h
    simp only at h
    rw [hfr, hs] at h
    exact Bool.false_ne_true h
  | some L =>
    have h1 : (createGraphicDevice p s).1 = some L := by rw [hd]
    have hdev := (createGraphicDevice_device p s L h1).1
    rw [hd] at hdev
    obtain ⟨r1, r2, -, -, -, -, -, r8, -⟩ := createGraphic_app p s d L ev _ hd rfl
    rw [r1, r8, ← r2]
    exact ⟨h, hdev⟩

/-- Along a sequence of calls a swap chain appears only through a `createGraphic`
call that returns true and leaves a device and a swap chain. -/
theorem runOps_swapChain (ops : List Op) :
    ∀ s : Application, s._dxgiSwapChain = false → (runOps s ops).1._dxgiSwapChain = true →
      ∃ e ∈ (runOps s ops).2, e.1.isCreateGraphic = true ∧ e.2.result = true ∧
        e.2.app._d3d11Device = true ∧ e.2.app._dxgiSwapChain = true := by
  induction ops with
  | nil =>
    intro s hs h
    simp only [runOps] at h
    rw [hs] at h
    exact absurd h Bool.false_ne_true
  | cons op rest ih =>
    intro s hs h
    simp only [runOps] at h ⊢
    cases hsc : (op.run s).app._dxgiSwapChain with
    | false =>
      obtain ⟨e, he, hgood⟩ := ih (op.run s).app hsc h
      exact ⟨e, List.mem_cons_of_mem _ he, hgood⟩
    | true =>
      refine ⟨(op, op.run s), List.mem_cons_self _ _, ?_⟩
      cases hop : op.isCreateGraphic with
      | false =>
        exfalso
        have := (Op.run_keeps op s hop hsc).1
        rw [hs] at this
        exact Bool.false_ne_true this
      | true =>
        cases op with
        | createGraphic p =>
          have hc := createGraphic_creates p s hs hsc
          exact ⟨rfl, hc.1, hc.2, hsc⟩
        | clear => simp [Op.isCreateGraphic] at hop
        | destroyGraphic => simp [Op.isCreateGraphic] at hop
        | createRenderTarget p => simp [Op.isCreateGraphic] at hop
        | destroyRenderTarget => simp [Op.isCreateGraphic] at hop
        | resizeSwapChain p width height => simp [Op.isCreateGraphic] at hop
        | bindRenderTarget => simp [Op.isCreateGraphic] at hop
        | presentBackBuffer hrPresent vsync => simp [Op.isCreateGraphic] at hop

/-- What `destroyGraphic` and `clear` leave: no graphics object at all. -/
theorem tornDown_pointers (s t : Application)
    (ht : t = (destroyGraphic s).1 ∨ t = (LowFrameLatency.clear s).1) :
    t._dxgiSwapChain = false ∧ t._d3d11Device = false ∧ t._d3d11DeviceContext = false ∧
      t._d3d11RenderTarget = false ∧ t.d3d11RenderTarget = false := by
  rcases ht with h | h <;> subst h <;>
    simp [destroyGraphic, LowFrameLatency.clear, _resetDXObject]

/-- On an `Application` without context and view `destroyRenderTarget` does nothing. -/
theorem destroyRenderTarget_of_null (t : Application) (h3 : t._d3d11DeviceContext = false)
    (h4 : t._d3d11RenderTarget = false) (h5 : t.d3d11RenderTarget = false) :
    destroyRenderTarget t = (t, []) := by
  cases t
  simp only at h3 h4 h5
  subst h3 h4 h5
  simp [destroyRenderTarget]

/-- C5. In every state left by `destroyGraphic` or by `clear`, each of
`presentBackBuffer`, `bindRenderTarget`, `createRenderTarget` and `resizeSwapChain`
returns false, makes no platform call at all and leaves the state as it is; and
after any further sequence of calls `presentBackBuffer` returns true only if the
sequence contains a `createGraphic` call that returned true and left a device and
a swap chain. -/
theorem C5_torn_down_surface (s t : Application)
    (ht : t = (destroyGraphic s).1 ∨ t = (LowFrameLatency.clear s).1) :
    (∀ hrPresent vsync, presentBackBuffer hrPresent t vsync = ⟨false, t, []⟩) ∧
    bindRenderTarget t = ⟨false, t, []⟩ ∧
    (∀ p, createRenderTarget p t = ⟨false, t, []⟩) ∧
    (∀ p width height, resizeSwapChain p t width height = ⟨false, t, []⟩) ∧
    (∀ ops hrPresent vsync,
      (presentBackBuffer hrPresent (runOps t ops).1 vsync).result = true →
      ∃ e ∈ (runOps t ops).2, e.1.isCreateGraphic = true ∧ e.2.result = true ∧
        e.2.app._d3d11Device = true ∧ e.2.app._dxgiSwapChain = true) := by
  obtain ⟨h1, h2, h3, h4, h5⟩ := tornDown_pointers s t ht
  refine ⟨?_, ?_, ?_, ?_, ?_⟩
  · intro hrPresent vsync
    simp [presentBackBuffer, h1]
  · simp [bindRenderTarget, h3]
  · intro p
    simp [createRenderTarget, h1]
  · intro p width height
    have hd : destroyRenderTarget t = (t, []) := destroyRenderTarget_of_null t h3 h4 h5
    unfold resizeSwapChain
    rw [hd]
    simp [h1]
  · intro ops hrPresent vsync hp
    apply runOps_swapChain ops t h1
    revert hp
    unfold presentBackBuffer
    cases (runOps t ops).1._dxgiSwapChain <;> simp

/-- C5, instance: after `destroyGraphic` of an `Application` holding every
graphics object, presenting fails without a platform call. -/
theorem C5_torn_down_surface_witness :
    presentBackBuffer S_OK
        (destroyGraphic (createGraphic (samplePlatform S_OK S_OK S_OK S_OK S_OK)
          (Application.withWindow 1)).app).1 true =
      ⟨false,
        (destroyGraphic (createGraphic (samplePlatform S_OK S_OK S_OK S_OK S_OK)
          (Application.withWindow 1)).app).1, []⟩ :=
  (C5_torn_down_surface
    (createGraphic (samplePlatform S_OK S_OK S_OK S_OK S_OK) (Application.withWindow 1)).app
    _ (Or.inl rfl)).1 S_OK true

/-- When a creation attempt of `createGraphic` succeeded, the call returns true
with a swap chain, and `_swapchain_flags` holds the flags of that attempt. -/
theorem createGraphic_negotiatedFlags (p : GraphicPlatform) (s : Application) (F : Nat)
    (hneg : negotiatedFlags (createGraphic p s).events = some F) :
    (createGraphic p s).result = true ∧ (createGraphic p s).app._dxgiSwapChain = true ∧
      (createGraphic p s).app._swapchain_flags = F := by
  rcases hd : createGraphicDevice p s with ⟨o, d, ev⟩
  have hev := createGraphicDevice_creationAttempts p s
  rw [hd] at hev
  simp only at hev
  unfold negotiatedFlags at hneg
  cases o with
  | none =>
    exfalso
    have h1 : (createGraphicDevice p s).1 = none := by rw [hd]
    rw [createGraphic_of_no_device p s h1, hd] at hneg
    simp [hev] at hneg
  | some L =>
    have hatt := createGraphic_attempts p s d L ev _ hd rfl
    obtain ⟨r1, r2, r3, -⟩ := createGraphic_app p s d L ev _ hd rfl
    obtain ⟨hr, hfl⟩ := flipNegotiation_result p d._support_allow_tearing
    rw [hatt, flipNegotiation_attempts] at hneg
    rw [r1, r2, r3, hfl]
    clear r1 r2 r3 hatt hd hev
    generalize (d._dxgiFactory2 && d._d3d11Device1 && d._d3d11DeviceContext1
      && decide (L = D3D_FEATURE_LEVEL_11_1)) = e at *
    generalize (flipNegotiation p d._support_allow_tearing).hr = r at *
    generalize flipFlags d._support_allow_tearing = f at *
    generalize f ^^^ DXGI_SWAP_CHAIN_FLAG_FRAME_LATENCY_WAITABLE_OBJECT = g at *
    cases e <;> cases hsc : s._dxgiSwapChain <;>
      by_cases a1 : p.hrCreateSwapChainForHwnd1 = 0 <;>
      by_cases a2 : p.hrCreateSwapChainForHwnd2 = 0 <;>
      by_cases a3 : p.hrCreateSwapChainForHwnd3 = 0 <;>
      by_cases a4 : p.hrCreateSwapChainForHwnd4 = 0 <;>
      by_cases a5 : p.hrCreateSwapChain = 0 <;>
      simp [a1, a2, a3, a4] at hr <;>
      simp [a1, a2, a3, a4, a5, hr, hsc, untilFirstSuccess] at hneg ⊢ <;>
      exact hneg

/-- Calls other than `createGraphic` keep the swap-chain flags for as long as the
swap chain is held. -/
theorem runOps_keeps (ops : List Op) :
    ∀ s : Application, (∀ op ∈ ops, op.isCreateGraphic = false) →
      (runOps s ops).1._dxgiSwapChain = true →
      s._dxgiSwapChain = true ∧ (runOps s ops).1._swapchain_flags = s._swapchain_flags := by
  induction ops with
  | nil =>
    intro s _ h
    exact ⟨h, rfl⟩
  | cons op rest ih =>
    intro s hops h
    simp only [runOps] at h ⊢
    have hop : op.isCreateGraphic = false := hops op (List.mem_cons_self _ _)
    have hrest : ∀ o ∈ rest, o.isCreateGraphic = false :=
      fun o ho => hops o (List.mem_cons_of_mem _ ho)
    obtain ⟨h1, h2⟩ := ih (op.run s).app hrest h
    obtain ⟨h3, h4⟩ := Op.run_keeps op s hop h1
    exact ⟨h3, by rw [h2, h4]⟩

/-- The platform calls of `resizeSwapChain`: those of `destroyRenderTarget` first,
then, when a swap chain is held, `ResizeBuffers` with `_swapchain_flags`. -/
theorem resizeSwapChain_events (p : ResizePlatform) (s : Application) (width height : Int) :
    (resizeSwapChain p s width height).events =
      (destroyRenderTarget s).2 ++
        (if s._dxgiSwapChain then
          Event.ResizeBuffers 2 (toUINT (if width ≥ 1 then width else 1))
            (toUINT (if height ≥ 1 then height else 1)) DXGI_FORMAT_B8G8R8A8_UNORM
            s._swapchain_flags p.hrResizeBuffers ::
            (if p.hrResizeBuffers = S_OK then
              (createRenderTarget p.renderTarget (destroyRenderTarget s).1).events else [])
        else []) := by
  unfold resizeSwapChain
  have h1 : (destroyRenderTarget s).1._dxgiSwapChain = s._dxgiSwapChain := rfl
  have h2 : (destroyRenderTarget s).1._swapchain_flags = s._swapchain_flags := rfl
  dsimp only
  rw [h1, h2]
  cases s._dxgiSwapChain <;> by_cases h : p.hrResizeBuffers = 0 <;>
    cases (createRenderTarget p.renderTarget (destroyRenderTarget s).1).result <;> simp [h]

/-- C9. After a `createGraphic` call in which a swap-chain creation attempt
succeeded with description flags `F` (the call then returns true), and after any
further calls other than `createGraphic`, a `resizeSwapChain` call first performs
`destroyRenderTarget`, which leaves no render-target view, and then, for as long
as the swap chain is held, calls `ResizeBuffers` with flags exactly `F`; no
`ResizeBuffers` call of it carries other flags. -/
theorem C9_resize_keeps_negotiated_flags (p : GraphicPlatform) (s0 : Application) (F : Nat)
    (ops : List Op) (rp : ResizePlatform) (width height : Int)
    (hneg : negotiatedFlags (createGraphic p s0).events = some F)
    (hops : ∀ op ∈ ops, op.isCreateGraphic = false) :
    (createGraphic p s0).result = true ∧
    (∀ c w h f fl hr,
      Event.ResizeBuffers c w h f fl hr ∈
        (resizeSwapChain rp (runOps (createGraphic p s0).app ops).1 width height).events →
      fl = F) ∧
    ((runOps (createGraphic p s0).app ops).1._dxgiSwapChain = true →
      (destroyRenderTarget (runOps (createGraphic p s0).app ops).1).1._d3d11RenderTarget = false ∧
      ∃ rest,
        (resizeSwapChain rp (runOps (createGraphic p s0).app ops).1 width height).events =
          (destroyRenderTarget (runOps (createGraphic p s0).app ops).1).2 ++
            Event.ResizeBuffers 2 (toUINT (if width ≥ 1 then width else 1))
              (toUINT (if height ≥ 1 then height else 1)) DXGI_FORMAT_B8G8R8A8_UNORM F
              rp.hrResizeBuffers :: rest) := by
  obtain ⟨hres, -, hF⟩ := createGraphic_negotiatedFlags p s0 F hneg
  have hflags : (runOps (createGraphic p s0).app ops).1._dxgiSwapChain = true →
      (runOps (createGraphic p s0).app ops).1._swapchain_flags = F := by
    intro h
    rw [(runOps_keeps ops _ hops h).2, hF]
  generalize (runOps (createGraphic p s0).app ops).1 = S at *
  refine ⟨hres, ?_, ?_⟩
  · intro c w h f fl hr hmem
    have hf : Event.ResizeBuffers c w h f fl hr ∈
        (resizeSwapChain rp S width height).events.filter Event.isResizeBuffers :=
      List.mem_filter.mpr ⟨hmem, rfl⟩
    rw [resizeSwapChain_resizeBuffers] at hf
    cases hsc : S._dxgiSwapChain
    · simp [hsc] at hf
    · simp [hsc] at hf
      rw [hf.2.2.2.2.1, hflags hsc]
  · intro hsc
    refine ⟨rfl, ?_⟩
    rw [resizeSwapChain_events, hsc, hflags hsc]
    exact ⟨_, rfl⟩

/-- C9, instance: after the legacy fallback (flags `ALLOW_MODE_SWITCH`), creating
the render target and presenting, a resize calls `ResizeBuffers` with those flags
only. -/
theorem C9_resize_keeps_negotiated_flags_witness :
    negotiatedFlags
        (createGraphic (samplePlatform E_FAIL E_FAIL E_FAIL E_FAIL S_OK)
          (Application.withWindow 1)).events = some DXGI_SWAP_CHAIN_FLAG_ALLOW_MODE_SWITCH ∧
    ∀ c w h f fl hr,
      Event.ResizeBuffers c w h f fl hr ∈
        (resizeSwapChain sampleFramePlatform.resize
          (runOps (createGraphic (samplePlatform E_FAIL E_FAIL E_FAIL E_FAIL S_OK)
              (Application.withWindow 1)).app
            [Op.createRenderTarget ⟨S_OK, S_OK⟩, Op.presentBackBuffer S_OK true]).1
          1280 720).events →
      fl = DXGI_SWAP_CHAIN_FLAG_ALLOW_MODE_SWITCH :=
  ⟨by decide,
   (C9_resize_keeps_negotiated_flags
    (samplePlatform E_FAIL E_FAIL E_FAIL E_FAIL S_OK) (Application.withWindow 1)
    DXGI_SWAP_CHAIN_FLAG_ALLOW_MODE_SWITCH
    [Op.createRenderTarget ⟨S_OK, S_OK⟩, Op.presentBackBuffer S_OK true]
    sampleFramePlatform.resize 1280 720 (by decide) (by decide)).2.1⟩

end LowFrameLatency

/-! ## Properties of `main.cpp` -/

namespace Main

/-- C6, failing run. Entered with a valid device, context, swap chain and view and
a pending resize, `HandleRender` of `main.cpp` calls `GetDeviceRemovedReason`
through a null `g_pd3dDevice` when `ResizeBuffers` reports the device as removed
and the recreation fails: the first `HandleDeviceD3DLose` tears everything down and
sets `g_bExit`, then `CheckDeviceD3DState` fails and `HandleDeviceD3DLose` runs
again. -/
theorem C6_null_device_dereference :
    HandleRenderResize deviceRemovedPlatform sampleState =
      Except.ok
        { g_pd3dDevice := false
          g_pd3dDeviceContext := false
          g_pSwapChain := false
          g_mainRenderTargetView := false
          g_bExit := true
          g_bWantUpdateWindowSize := false
          g_uWindowWidth := 800
          g_uWindowHeight := 600
          reasonCalls := 1
          createCalls := 1 } ∧
    HandleRender deviceRemovedPlatform sampleState = Except.error Pointer.g_pd3dDevice := by
  constructor <;> rfl

end Main

/-! ## Further properties of `low_frame_latency.cpp` -/

namespace LowFrameLatency

/-! ### Rendering without a bound target -/

/-- C11, failing run. A frame consumes a pending resize whose `ResizeBuffers`
fails, which leaves no render-target view; in the next frame `bindRenderTarget`
returns false and binds nothing, and `HandleRender` invokes the render callback
all the same. -/
theorem C11_render_without_bound_target :
    (HandleRender failingResizePlatform ⟨false, true, 800, 600⟩ sampleApplication).app._d3d11RenderTarget
      = false ∧
    (bindRenderTarget
      (HandleRender failingResizePlatform ⟨false, true, 800, 600⟩ sampleApplication).app)
      = ⟨false,
          (HandleRender failingResizePlatform ⟨false, true, 800, 600⟩ sampleApplication).app, []⟩ ∧
    (HandleRender sampleFramePlatform
      (HandleRender failingResizePlatform ⟨false, true, 800, 600⟩ sampleApplication).globals
      (HandleRender failingResizePlatform ⟨false, true, 800, 600⟩ sampleApplication).app).calls
      = [Call.bindRenderTarget, Call.render, Call.presentBackBuffer true] := by
  decide

/-! ### The window procedure -/

/-- Closed form of the callback loop: every callback is invoked, in list order,
and the flag is raised when some callback returns non-zero. -/
theorem WindowProcess.loop_eq (callbackResult : Nat → Int) (l : List Nat) :
    ∀ (flag : Bool) (ev : List WindowEvent),
      WindowProcess.loop callbackResult l (flag, ev) =
        (flag || l.any (fun c => decide (callbackResult c ≠ 0)),
          ev ++ l.map (fun c => WindowEvent.callback c (callbackResult c))) := by
  induction l with
  | nil => intro flag ev; simp [WindowProcess.loop]
  | cons c rest ih =>
    intro flag ev
    simp only [WindowProcess.loop]
    rw [ih]
    by_cases h : callbackResult c = 0 <;> cases flag <;> simp [h]

/-- C12, refuted as worded: with two registered callbacks of which the first
claims the message, `WindowProcess` still invokes the second one, whereas the
specified chain stops after the first. -/
theorem C12_claim_does_not_stop_callbacks_counterexample :
    (WindowProcess { Application.withWindow 1 with _windowMessageCallback := [1, 2] }
        (fun c => if c = 1 then 1 else 0) 0 WM_SIZE 0).2 =
      [WindowEvent.callback 1 1, WindowEvent.callback 2 0] ∧
    specifiedInvocations (fun c => if c = 1 then 1 else 0) [1, 2] = [WindowEvent.callback 1 1] := by
  decide

/-- C12, as the code has it. For every message `WindowProcess` invokes all the
registered callbacks, in registration order, whether or not an earlier one has
claimed the message. When some callback claims it (returns non-zero), nothing
else runs and the result is 1. When none does: `WM_SYSCOMMAND` with `SC_KEYMENU`
gives 0 and nothing else runs, `WM_DESTROY` calls `PostQuitMessage(0)` and gives
0, and every other message goes to `DefWindowProcW`, whose result is returned. -/
theorem C12_callback_chain (app : Application) (callbackResult : Nat → Int) (lresultDef : Int)
    (msg wParam : Nat) :
    WindowProcess app callbackResult lresultDef msg wParam =
      if app._windowMessageCallback.any (fun c => decide (callbackResult c ≠ 0)) then
        (1, app._windowMessageCallback.map (fun c => WindowEvent.callback c (callbackResult c)))
      else if msg = WM_SYSCOMMAND ∧ wParam &&& 0xfff0 = SC_KEYMENU then
        (0, app._windowMessageCallback.map (fun c => WindowEvent.callback c (callbackResult c)))
      else if msg = WM_DESTROY then
        (0, app._windowMessageCallback.map (fun c => WindowEvent.callback c (callbackResult c))
          ++ [WindowEvent.PostQuitMessage 0])
      else
        (lresultDef,
          app._windowMessageCallback.map (fun c => WindowEvent.callback c (callbackResult c))
            ++ [WindowEvent.DefWindowProcW]) := by
  unfold WindowProcess
  have hl : (if app._windowMessageCallback.length > 0 then
        WindowProcess.loop callbackResult app._windowMessageCallback (false, [])
      else (false, [])) =
      (app._windowMessageCallback.any (fun c => decide (callbackResult c ≠ 0)),
        app._windowMessageCallback.map (fun c => WindowEvent.callback c (callbackResult c))) := by
    cases hc : app._windowMessageCallback with
    | nil => simp
    | cons c rest => simp [WindowProcess.loop_eq]
  dsimp only
  rw [hl]
  have hne : WM_DESTROY ≠ WM_SYSCOMMAND := by decide
  cases app._windowMessageCallback.any (fun c => decide (callbackResult c ≠ 0))
  · by_cases h1 : msg = WM_SYSCOMMAND
    · subst h1
      by_cases h2 : wParam &&& 0xfff0 = SC_KEYMENU
      · simp [h2]
      · have h3 : WM_SYSCOMMAND ≠ WM_DESTROY := by decide
        simp [h2, h3]
    · by_cases h2 : msg = WM_DESTROY <;> simp [h1, h2]
  · simp

/-! ### The fullscreen toggle -/

/-- One frame of `HandleFullscreen`, read against the previous sample held in
`_alt_enter`. -/
theorem HandleFullscreen_step (st : FullscreenState) (k : KeySample) :
    (HandleFullscreen st k).1._alt_enter = alt_enter_key k ∧
    (HandleFullscreen st k).1._fullscreen =
      xor st._fullscreen (alt_enter_key k && !st._alt_enter) ∧
    (HandleFullscreen st k).2.isSome = (alt_enter_key k && !st._alt_enter) ∧
    ((HandleFullscreen st k).2.isSome = true →
      (HandleFullscreen st k).2 =
        some (if (HandleFullscreen st k).1._fullscreen then MSG_SWITCH_DISPLAY_MODE_FULLSCREEN
          else MSG_SWITCH_DISPLAY_MODE_WINDOWED)) := by
  unfold HandleFullscreen
  rcases st with ⟨a, f⟩
  cases alt_enter_key k <;> cases a <;> cases f <;> simp

/-- Over any run, the flag after each frame and whether a message is posted in
it are those of the input edges, `_alt_enter` being the previous sample. -/
theorem runFullscreen_edges (ks : List KeySample) :
    ∀ st : FullscreenState,
      (runFullscreen st ks).map (fun r => (r.1._fullscreen, r.2.isSome)) =
        edgeToggles st._alt_enter st._fullscreen (ks.map alt_enter_key) := by
  induction ks with
  | nil => intro st; rfl
  | cons k rest ih =>
    intro st
    obtain ⟨h1, h2, h3, -⟩ := HandleFullscreen_step st k
    simp only [runFullscreen, List.map_cons, edgeToggles]
    rw [ih, h1, h2, h3]

/-- While the combination is held, no edge follows the first frame. -/
theorem edgeToggles_held (n : Nat) :
    ∀ flag : Bool, (edgeToggles true flag (List.replicate n true)).filter (fun r => r.2) = [] := by
  induction n with
  | zero => intro flag; rfl
  | succ n ih =>
    intro flag
    simp only [List.replicate_succ, edgeToggles]
    simpa using ih flag

/-- C15. Over every sequence of per-frame key samples, starting from the initial
statics, the fullscreen flag is toggled, and one display-mode message is posted,
in exactly those frames where the alt+enter combination is down and was not down
in the previous frame (initially: not down). So a frame without the combination
never changes the flag and posts nothing, and holding the combination over any
number of consecutive frames toggles and posts once. -/
theorem C15_fullscreen_edges (ks : List KeySample) :
    (runFullscreen FullscreenState.initial ks).map (fun r => (r.1._fullscreen, r.2.isSome)) =
        edgeToggles false false (ks.map alt_enter_key) ∧
    (∀ (st : FullscreenState) (k : KeySample), alt_enter_key k = false →
      (HandleFullscreen st k).1._fullscreen = st._fullscreen ∧ (HandleFullscreen st k).2 = none) ∧
    (∀ (k : KeySample) (n : Nat), alt_enter_key k = true →
      (runFullscreen FullscreenState.initial (List.replicate (n + 1) k)).map
          (fun r => (r.1._fullscreen, r.2.isSome)) =
        (true, true) :: List.replicate n (true, false)) := by
  refine ⟨runFullscreen_edges ks FullscreenState.initial, ?_, ?_⟩
  · intro st k hk
    obtain ⟨-, h2, h3, -⟩ := HandleFullscreen_step st k
    rw [hk] at h2 h3
    refine ⟨by simpa using h2, ?_⟩
    cases h : (HandleFullscreen st k).2 with
    | none => rfl
    | some x => rw [h] at h3; simp at h3
  · intro k n hk
    rw [runFullscreen_edges]
    simp only [List.map_replicate, hk, FullscreenState.initial, List.replicate_succ, edgeToggles]
    have hrest : ∀ m : Nat, edgeToggles true true (List.replicate m true) =
        List.replicate m (true, false) := by
      intro m
      induction m with
      | zero => rfl
      | succ m ihm => simp [List.replicate_succ, edgeToggles, ihm]
    simp [hrest]

/-- C15, instance: up, down, down, up, down toggles in the second and in the
fifth frame, posting FULLSCREEN and then WINDOWED. -/
theorem C15_fullscreen_edges_witness :
    (runFullscreen FullscreenState.initial
        [⟨0, 0⟩, ⟨0x8000, 0x8001⟩, ⟨0x8001, 0x8000⟩, ⟨0x8000, 0⟩, ⟨0x8000, 0x8000⟩]).map
        (fun r => r.2) =
      [none, some MSG_SWITCH_DISPLAY_MODE_FULLSCREEN, none, none,
        some MSG_SWITCH_DISPLAY_MODE_WINDOWED] ∧
    (HandleFullscreen ⟨true, true⟩ ⟨0x8000, 0⟩).1._fullscreen = true :=
  ⟨by decide,
   ((C15_fullscreen_edges []).2.1 ⟨true, true⟩ ⟨0x8000, 0⟩ (by decide)).1⟩

/-! ### The message pump -/

/-- The `PeekMessageW` loop in closed form. -/
theorem peekLoop_eq (app : Application) (msgs : List MSG) :
    (updateWindowMessage.peekLoop app msgs).events =
        (msgs.takeWhile (fun m => decide (m.message ≠ WM_QUIT))).flatMap
          (fun m => [PumpEvent.TranslateMessage m, PumpEvent.DispatchMessageW m]) ∧
    (updateWindowMessage.peekLoop app msgs).quit =
        msgs.any (fun m => decide (m.message = WM_QUIT)) ∧
    (updateWindowMessage.peekLoop app msgs).app =
        (if msgs.any (fun m => decide (m.message = WM_QUIT)) then { app with _quit := true }
          else app) ∧
    (updateWindowMessage.peekLoop app msgs).queue =
        (msgs.dropWhile (fun m => decide (m.message ≠ WM_QUIT))).tail := by
  induction msgs with
  | nil => simp [updateWindowMessage.peekLoop]
  | cons m rest ih =>
    obtain ⟨h1, h2, h3, h4⟩ := ih
    by_cases hq : m.message = WM_QUIT
    · simp [updateWindowMessage.peekLoop, hq]
    · simp only [updateWindowMessage.peekLoop, hq, if_false]
      rw [h1, h2, h3, h4]
      simp [hq, List.takeWhile_cons, List.dropWhile_cons]

/-- C16. The non-blocking pump `updateWindowMessage(true)` always returns. It
translates and dispatches the retrieved messages in queue order up to the first
`WM_QUIT`, or all of them when there is none. It returns false exactly when a
`WM_QUIT` was met; then `isWindowShouldClose()` is true afterwards and neither
the `WM_QUIT` nor any message behind it is dispatched (those behind it stay in
the queue). Otherwise it returns true and leaves the `Application`, with its
quit flag, unchanged. -/
theorem C16_pump_until_quit (app : Application) (queue : List (Int × MSG)) :
    ∃ out : PumpOutcome,
      updateWindowMessage app true queue =
        some (!(queue.map Prod.snd).any (fun m => decide (m.message = WM_QUIT)), out) ∧
      out.events =
        ((queue.map Prod.snd).takeWhile (fun m => decide (m.message ≠ WM_QUIT))).flatMap
          (fun m => [PumpEvent.TranslateMessage m, PumpEvent.DispatchMessageW m]) ∧
      ((queue.map Prod.snd).any (fun m => decide (m.message = WM_QUIT)) = true →
        isWindowShouldClose out.app = true ∧
        out.queue = ((queue.map Prod.snd).dropWhile (fun m => decide (m.message ≠ WM_QUIT))).tail) ∧
      ((queue.map Prod.snd).any (fun m => decide (m.message = WM_QUIT)) = false →
        out.app = app ∧ out.queue = []) := by
  obtain ⟨h1, h2, h3, h4⟩ := peekLoop_eq app (queue.map Prod.snd)
  refine ⟨updateWindowMessage.peekLoop app (queue.map Prod.snd), ?_, h1, ?_, ?_⟩
  · simp only [updateWindowMessage, if_true]
    rw [h2]
  · intro hq
    rw [h3, h4, hq]
    exact ⟨rfl, rfl⟩
  · intro hq
    rw [h3, h4, hq]
    refine ⟨by simp, ?_⟩
    have hall : ∀ m ∈ queue.map Prod.snd, decide (m.message ≠ WM_QUIT) = true := by
      intro m hm
      have := List.any_eq_false.mp hq m hm
      simpa using this
    rw [List.dropWhile_eq_nil_iff.mpr hall]
    rfl

/-- C16, instance: a `WM_QUIT` between two `WM_SIZE` messages stops the pump, the
quit flag is set and only the first message is dispatched. -/
theorem C16_pump_until_quit_witness :
    ∃ out : PumpOutcome,
      updateWindowMessage (Application.withWindow 1) true
          [(1, ⟨1, WM_SIZE, 0, 0⟩), (0, ⟨0, WM_QUIT, 0, 0⟩), (1, ⟨1, WM_SIZE, 0, 1⟩)] =
        some (false, out) ∧
      isWindowShouldClose out.app = true ∧ out.queue = [⟨1, WM_SIZE, 0, 1⟩] := by
  obtain ⟨out, h1, -, h3, -⟩ := C16_pump_until_quit (Application.withWindow 1)
    [(1, ⟨1, WM_SIZE, 0, 0⟩), (0, ⟨0, WM_QUIT, 0, 0⟩), (1, ⟨1, WM_SIZE, 0, 1⟩)]
  exact ⟨out, h1, (h3 (by decide)).1, (h3 (by decide)).2⟩

/-! ### The input-method helper -/

/-- Looking up in a list whose first key is another one. -/
theorem lookup_cons_ne (w k : Nat) (v : Bool) (m : List (Nat × Bool)) (h : w ≠ k) :
    ((k, v) :: m).lookup w = m.lookup w := by
  have hb : (w == k) = false := by simpa using h
  rw [List.lookup_cons, hb]

/-- Assigning through `enable_map[window]` makes `window` map to the new value. -/
theorem lookup_map_assign (window : Nat) (be : Bool) (m : List (Nat × Bool))
    (h : (m.lookup window).isSome = true) :
    (m.map (fun e => if e.1 = window then (e.1, be) else e)).lookup window = some be := by
  induction m with
  | nil => simp at h
  | cons e rest ih =>
    obtain ⟨k, v⟩ := e
    show List.lookup window ((if k = window then (k, be) else (k, v)) ::
      rest.map (fun e => if e.1 = window then (e.1, be) else e)) = some be
    by_cases hk : k = window
    · rw [if_pos hk, hk]
      exact List.lookup_cons_self
    · have hw : window ≠ k := fun h' => hk h'.symm
      rw [if_neg hk, lookup_cons_ne _ _ _ _ hw]
      rw [lookup_cons_ne _ _ _ _ hw] at h
      exact ih h

/-- Assigning through `enable_map[window]` leaves the other windows as they are. -/
theorem lookup_map_other (window other : Nat) (be : Bool) (m : List (Nat × Bool))
    (h : other ≠ window) :
    (m.map (fun e => if e.1 = window then (e.1, be) else e)).lookup other = m.lookup other := by
  induction m with
  | nil => rfl
  | cons e rest ih =>
    obtain ⟨k, v⟩ := e
    show List.lookup other ((if k = window then (k, be) else (k, v)) ::
      rest.map (fun e => if e.1 = window then (e.1, be) else e)) = _
    by_cases hk : k = window
    · have ho : other ≠ k := by rw [hk]; exact h
      rw [if_pos hk, lookup_cons_ne _ _ _ _ ho, lookup_cons_ne _ _ _ _ ho, ih]
    · rw [if_neg hk]
      by_cases ho : other = k
      · rw [ho, List.lookup_cons_self, List.lookup_cons_self]
      · rw [lookup_cons_ne _ _ _ _ ho, lookup_cons_ne _ _ _ _ ho, ih]

/-- Looking a window up after `emplace` of an entry at the end. -/
theorem lookup_emplace (w window : Nat) (be : Bool) (m : List (Nat × Bool)) :
    (m ++ [(window, be)]).lookup w =
      match m.lookup w with
      | some b => some b
      | none => if w = window then some be else none := by
  induction m with
  | nil =>
    show List.lookup w [(window, be)] = if w = window then some be else none
    by_cases h : w = window
    · rw [if_pos h, h]
      exact List.lookup_cons_self
    · rw [if_neg h, lookup_cons_ne _ _ _ _ h]
      rfl
  | cons e rest ih =>
    obtain ⟨k, v⟩ := e
    show List.lookup w ((k, v) :: (rest ++ [(window, be)])) = _
    by_cases hk : w = k
    · rw [hk, List.lookup_cons_self, List.lookup_cons_self]
    · rw [lookup_cons_ne _ _ _ _ hk, lookup_cons_ne _ _ _ _ hk]
      exact ih

/-- The override map after `enable(window, be)`: `window` maps to `be` and every
other window is as before; the pointers stay as they are. -/
theorem enable_helper (p : ImmPlatform) (h : InputMethodHelper) (window : Nat) (be : Bool) :
    (InputMethodHelper.enable p h window be).helper.find window = some be ∧
    (∀ other, other ≠ window →
      (InputMethodHelper.enable p h window be).helper.find other = h.find other) ∧
    (InputMethodHelper.enable p h window be).helper.ImmGetContext = h.ImmGetContext := by
  have hh : (InputMethodHelper.enable p h window be).helper =
      (if (h.find window).isSome then
        { h with enable_map := h.enable_map.map (fun e => if e.1 = window then (e.1, be) else e) }
      else { h with enable_map := h.enable_map ++ [(window, be)] }) := by
    unfold InputMethodHelper.enable
    dsimp only
    split_ifs <;> rfl
  rw [hh]
  unfold InputMethodHelper.find
  cases hf : (h.enable_map.lookup window).isSome
  · have hnone : h.enable_map.lookup window = none := by
      cases hl : h.enable_map.lookup window with
      | none => rfl
      | some b => rw [hl] at hf; simp at hf
    refine ⟨?_, ?_, ?_⟩
    · simp [lookup_emplace, hnone]
    · intro other ho
      simp only [Bool.false_eq_true, if_false]
      rw [lookup_emplace]
      cases h.enable_map.lookup other <;> simp [ho]
    · simp
  · refine ⟨?_, ?_, ?_⟩
    · simpa using lookup_map_assign window be h.enable_map hf
    · intro other ho
      simpa using lookup_map_other window other be h.enable_map ho
    · simp

/-- For a window with a recorded override `status` returns it and calls nothing. -/
theorem status_of_find (p : ImmPlatform) (h : InputMethodHelper) (window : Nat) (b : Bool)
    (hf : h.find window = some b) :
    InputMethodHelper.status p h window = Except.ok ⟨b, h, []⟩ := by
  unfold InputMethodHelper.status
  rw [hf]

/-- C13, refuted as worded: with Imm32 not loaded, `enable(7, true)` still
records the override in the map, after which `status(7)` returns true; and
`status` of a window without override calls the NULL pointer `ImmGetContext`. -/
theorem C13_not_loaded_counterexample :
    (InputMethodHelper.enable sampleImmPlatform sampleHelperNotLoaded 7 true).helper.enable_map
      = [(7, true)] ∧
    sampleHelperNotLoaded.enable_map = [] ∧
    InputMethodHelper.status sampleImmPlatform
        (InputMethodHelper.enable sampleImmPlatform sampleHelperNotLoaded 7 true).helper 7 =
      Except.ok ⟨true,
        (InputMethodHelper.enable sampleImmPlatform sampleHelperNotLoaded 7 true).helper, []⟩ ∧
    InputMethodHelper.status sampleImmPlatform sampleHelperNotLoaded 7 =
      Except.error ImmFunction.ImmGetContext :=
  ⟨rfl, rfl, rfl, rfl⟩

/-- C13, as the code has it. If every Imm function pointer is NULL then, for
every window: `enable` returns false and calls no platform function, but records
the override for the window in the map (the other windows stay as they are);
`seteng` returns false, calls no platform function and leaves the helper
unchanged; `status` of a window that has a recorded override returns that
override, calls no platform function and leaves the helper unchanged. -/
theorem C13_helper_without_imm32 (p : ImmPlatform) (h : InputMethodHelper) (window : Nat)
    (hn : h.notLoaded) :
    (∀ be : Bool,
      (InputMethodHelper.enable p h window be).result = false ∧
      (InputMethodHelper.enable p h window be).events = [] ∧
      (InputMethodHelper.enable p h window be).helper.find window = some be ∧
      ∀ other, other ≠ window →
        (InputMethodHelper.enable p h window be).helper.find other = h.find other) ∧
    InputMethodHelper.seteng p h window = ⟨false, h, []⟩ ∧
    (∀ b : Bool, h.find window = some b →
      InputMethodHelper.status p h window = Except.ok ⟨b, h, []⟩) := by
  obtain ⟨-, h1, -, -, -, -, -⟩ := hn
  refine ⟨?_, ?_, ?_⟩
  · intro be
    obtain ⟨e1, e2, e3⟩ := enable_helper p h window be
    refine ⟨?_, ?_, e1, e2⟩
    · unfold InputMethodHelper.enable
      dsimp only
      split_ifs <;> simp_all
    · unfold InputMethodHelper.enable
      dsimp only
      split_ifs <;> simp_all
  · unfold InputMethodHelper.seteng
    simp [h1]
  · intro b hb
    exact status_of_find p h window b hb

/-- C13 as the code has it, instance: the helper that the constructor leaves when
Imm32 fails to load. -/
theorem C13_helper_without_imm32_witness :
    sampleHelperNotLoaded.notLoaded ∧
    InputMethodHelper.seteng sampleImmPlatform sampleHelperNotLoaded 7 =
      ⟨false, sampleHelperNotLoaded, []⟩ :=
  ⟨by decide,
   (C13_helper_without_imm32 sampleImmPlatform sampleHelperNotLoaded 7 (by decide)).2.1⟩

/-- C14. After `enable(w, b)` a call `status(w)` returns `b`, whatever the
platform calls returned, and calls no platform function; for every other window
the recorded override (absent, true or false) is the same as before the call; a
second `enable(w, b2)` replaces the value, so that `status(w)` returns `b2`. -/
theorem C14_override_tracking (p1 p2 p3 : ImmPlatform) (h : InputMethodHelper) (w : Nat)
    (b b2 : Bool) :
    InputMethodHelper.status p2 (InputMethodHelper.enable p1 h w b).helper w =
      Except.ok ⟨b, (InputMethodHelper.enable p1 h w b).helper, []⟩ ∧
    (∀ other, other ≠ w →
      (InputMethodHelper.enable p1 h w b).helper.find other = h.find other) ∧
    InputMethodHelper.status p3
        (InputMethodHelper.enable p2 (InputMethodHelper.enable p1 h w b).helper w b2).helper w =
      Except.ok ⟨b2,
        (InputMethodHelper.enable p2 (InputMethodHelper.enable p1 h w b).helper w b2).helper, []⟩ :=
  ⟨status_of_find _ _ _ _ (enable_helper p1 h w b).1,
   (enable_helper p1 h w b).2.1,
   status_of_find _ _ _ _ (enable_helper p2 _ w b2).1⟩

/-- C14, instance: window 8 keeps its override `false` while window 7 is enabled. -/
theorem C14_override_tracking_witness :
    (InputMethodHelper.enable sampleImmPlatform
        { sampleHelperNotLoaded with enable_map := [(8, false)] } 7 true).helper.find 8 =
      some false :=
  (C14_override_tracking sampleImmPlatform sampleImmPlatform sampleImmPlatform
    { sampleHelperNotLoaded with enable_map := [(8, false)] } 7 true false).2.1 8 (by decide)

/-! ### Failed resizes -/

/-- After `resizeSwapChain` a render-target view is held exactly when the call
returned true. -/
theorem resizeSwapChain_view (p : ResizePlatform) (s : Application) (width height : Int) :
    (resizeSwapChain p s width height).app._d3d11RenderTarget =
        (resizeSwapChain p s width height).result ∧
    (resizeSwapChain p s width height).app.d3d11RenderTarget =
        (resizeSwapChain p s width height).result := by
  unfold resizeSwapChain createRenderTarget destroyRenderTarget
  cases hsc : s._dxgiSwapChain <;> cases hd : s._d3d11Device <;>
    by_cases h1 : p.hrResizeBuffers = 0 <;>
    by_cases h2 : p.renderTarget.hrGetBuffer = 0 <;>
    by_cases h3 : p.renderTarget.hrCreateRenderTargetView = 0 <;>
    simp [hsc, hd, h1, h2, h3]

/-- C18, refuted as worded: a resize whose `ResizeBuffers` fails, on an
`Application` holding a render-target view, leaves no view, so that
`bindRenderTarget` fails afterwards; the previous view does not remain. -/
theorem C18_view_does_not_remain_counterexample :
    sampleApplication._d3d11RenderTarget = true ∧
    (resizeSwapChain failingResizePlatform.resize sampleApplication 800 600).result = false ∧
    (resizeSwapChain failingResizePlatform.resize sampleApplication 800 600).app._d3d11RenderTarget
      = false ∧
    (bindRenderTarget
      (resizeSwapChain failingResizePlatform.resize sampleApplication 800 600).app).result
      = false := by
  decide

/-- C18, as the code has it. No `HandleRender` call changes `g_bExit`, so the
frame loop does not exit on a failed resize; and when `resizeSwapChain` returns
false no render-target view is held afterwards (the previous one was destroyed
before `ResizeBuffers`), so that `bindRenderTarget` returns false and binds
nothing until a view is created again. -/
theorem C18_failed_resize (p : ResizePlatform) (s : Application) (width height : Int)
    (hfail : (resizeSwapChain p s width height).result = false) :
    (∀ (fp : FramePlatform) (g : Globals) (a : Application),
      (HandleRender fp g a).globals.g_bExit = g.g_bExit) ∧
    (resizeSwapChain p s width height).app._d3d11RenderTarget = false ∧
    (resizeSwapChain p s width height).app.d3d11RenderTarget = false ∧
    bindRenderTarget (resizeSwapChain p s width height).app =
      ⟨false, (resizeSwapChain p s width height).app, []⟩ := by
  obtain ⟨h1, h2⟩ := resizeSwapChain_view p s width height
  rw [hfail] at h1 h2
  refine ⟨?_, h1, h2, ?_⟩
  · intro fp g a
    unfold HandleRender
    cases fp.try_lock <;> cases g.g_bWantUpdateWindowSize <;> simp
  · unfold bindRenderTarget
    rw [h1]
    simp

/-- C18 as the code has it, instance: the failed resize of the sample. -/
theorem C18_failed_resize_witness :
    (resizeSwapChain failingResizePlatform.resize sampleApplication 800 600).result = false ∧
    bindRenderTarget (resizeSwapChain failingResizePlatform.resize sampleApplication 800 600).app =
      ⟨false, (resizeSwapChain failingResizePlatform.resize sampleApplication 800 600).app, []⟩ :=
  ⟨by decide,
   (C18_failed_resize failingResizePlatform.resize sampleApplication 800 600 (by decide)).2.2.2⟩

/-! ### Exhaustion of the ladder -/

/-- C19, refuted as worded: on a device of feature level 11_0 the flip-model block
is skipped, and `createGraphic` returns false after the one legacy attempt failed,
no flip-model configuration having been attempted. -/
theorem C19_failure_without_flip_attempts_counterexample :
    (createGraphicDevice sampleLegacyOnlyPlatform (Application.withWindow 1)).1 = some 0xb000 ∧
    (createGraphic sampleLegacyOnlyPlatform (Application.withWindow 1)).result = false ∧
    creationAttempts (createGraphic sampleLegacyOnlyPlatform (Application.withWindow 1)).events =
      [((DXGI_SWAP_EFFECT.DISCARD, DXGI_SWAP_CHAIN_FLAG_ALLOW_MODE_SWITCH), false)] := by
  decide

/-- C19, as the code has it. Once the device has been created (with feature
level `L`), `createGraphic` returns false only if the legacy blit-model attempt
was made and failed and, in case the flip-model block is entered (feature level
11_1 and the `IDXGIFactory2`, `ID3D11Device1` and `ID3D11DeviceContext1`
interfaces), each of the four flip-model configurations was attempted and failed
before it; when the block is not entered, the legacy attempt is the only one. -/
theorem C19_failure_only_on_exhaustion (p : GraphicPlatform) (s : Application) (L : Nat)
    (hdev : (createGraphicDevice p s).1 = some L)
    (hres : (createGraphic p s).result = false) :
    creationAttempts (createGraphic p s).events =
      (if ((createGraphicDevice p s).2.1._dxgiFactory2
            && (createGraphicDevice p s).2.1._d3d11Device1
            && (createGraphicDevice p s).2.1._d3d11DeviceContext1
            && decide (L = D3D_FEATURE_LEVEL_11_1)) = true then
        [ ((DXGI_SWAP_EFFECT.FLIP_DISCARD,
            flipFlags (createGraphic p s).app._support_allow_tearing), false),
          ((DXGI_SWAP_EFFECT.FLIP_SEQUENTIAL,
            flipFlags (createGraphic p s).app._support_allow_tearing), false),
          ((DXGI_SWAP_EFFECT.FLIP_DISCARD,
            flipFlags (createGraphic p s).app._support_allow_tearing
              ^^^ DXGI_SWAP_CHAIN_FLAG_FRAME_LATENCY_WAITABLE_OBJECT), false),
          ((DXGI_SWAP_EFFECT.FLIP_SEQUENTIAL,
            flipFlags (createGraphic p s).app._support_allow_tearing
              ^^^ DXGI_SWAP_CHAIN_FLAG_FRAME_LATENCY_WAITABLE_OBJECT), false) ]
      else []) ++
      [((DXGI_SWAP_EFFECT.DISCARD, DXGI_SWAP_CHAIN_FLAG_ALLOW_MODE_SWITCH), false)] := by
  rcases hd : createGraphicDevice p s with ⟨o, d, ev⟩
  rw [hd] at hdev
  simp only at hdev
  subst hdev
  have hatt := createGraphic_attempts p s d L ev _ hd rfl
  obtain ⟨r1, -, -, r4, -⟩ := createGraphic_app p s d L ev _ hd rfl
  obtain ⟨hr, -⟩ := flipNegotiation_result p d._support_allow_tearing
  rw [hatt, flipNegotiation_attempts, r4]
  rw [r1] at hres
  clear hatt r1 r4 hd
  simp only
  generalize (d._dxgiFactory2 && d._d3d11Device1 && d._d3d11DeviceContext1
    && decide (L = D3D_FEATURE_LEVEL_11_1)) = e at *
  generalize (flipNegotiation p d._support_allow_tearing).hr = r at *
  generalize flipFlags d._support_allow_tearing = f at *
  generalize f ^^^ DXGI_SWAP_CHAIN_FLAG_FRAME_LATENCY_WAITABLE_OBJECT = g at *
  cases e <;> cases hsc : s._dxgiSwapChain <;>
    by_cases a1 : p.hrCreateSwapChainForHwnd1 = 0 <;>
    by_cases a2 : p.hrCreateSwapChainForHwnd2 = 0 <;>
    by_cases a3 : p.hrCreateSwapChainForHwnd3 = 0 <;>
    by_cases a4 : p.hrCreateSwapChainForHwnd4 = 0 <;>
    by_cases a5 : p.hrCreateSwapChain = 0 <;>
    simp [a1, a2, a3, a4] at hr <;>
    simp [a1, a2, a3, a4, a5, hr, hsc, untilFirstSuccess] at hres ⊢

/-- C19 as the code has it, instance: every attempt fails on the sample platform
of feature level 11_1. -/
theorem C19_failure_only_on_exhaustion_witness :
    (createGraphic (samplePlatform E_FAIL E_FAIL E_FAIL E_FAIL E_FAIL)
      (Application.withWindow 1)).result = false ∧
    creationAttempts
        (createGraphic (samplePlatform E_FAIL E_FAIL E_FAIL E_FAIL E_FAIL)
          (Application.withWindow 1)).events =
      [ ((DXGI_SWAP_EFFECT.FLIP_DISCARD, 66), false),
        ((DXGI_SWAP_EFFECT.FLIP_SEQUENTIAL, 66), false),
        ((DXGI_SWAP_EFFECT.FLIP_DISCARD, 2), false),
        ((DXGI_SWAP_EFFECT.FLIP_SEQUENTIAL, 2), false),
        ((DXGI_SWAP_EFFECT.DISCARD, 2), false) ] := by
  have h := C19_failure_only_on_exhaustion (samplePlatform E_FAIL E_FAIL E_FAIL E_FAIL E_FAIL)
    (Application.withWindow 1) D3D_FEATURE_LEVEL_11_1 (by decide) (by decide)
  refine ⟨by decide, ?_⟩
  rw [h]
  decide

/-! ### Frame pacing -/

/-- The device stage makes no frame-latency call. -/
theorem createGraphicDevice_frameLatencyCalls (p : GraphicPlatform) (s : Application) :
    (createGraphicDevice p s).2.2.filter Event.isFrameLatencyCall = [] := by
  unfold createGraphicDevice
  by_cases h0 : s.windowHandle = 0 <;> by_cases h1 : p.hrCreateDXGIFactory1 = 0 <;>
    by_cases h2 : p.hrEnumAdapters1 = 0 <;> by_cases h3 : p.hrD3D11CreateDeviceA = 0 <;>
    by_cases h4 : p.hrD3D11CreateDeviceB = 0 <;> cases h5 : p.asFactory5 <;>
    simp [h0, h1, h2, h3, h4, h5, Event.isFrameLatencyCall, S_OK_eq_iff]

/-- The creation attempts of the negotiation are no frame-latency calls. -/
theorem flipNegotiation_frameLatencyCalls (p : GraphicPlatform) (t : Bool) :
    (flipNegotiation p t).events.filter Event.isFrameLatencyCall = [] := by
  rw [flipNegotiation_eq]
  split_ifs <;> simp [Event.isFrameLatencyCall]

/-- The frame-latency calls of the flip-model block. -/
theorem createGraphicFlip_frameLatencyCalls (p : GraphicPlatform) (L : Nat) (s : Application) :
    (createGraphicFlip p L s).2.filter Event.isFrameLatencyCall =
      if ((s._dxgiFactory2 && s._d3d11Device1 && s._d3d11DeviceContext1
            && decide (L = D3D_FEATURE_LEVEL_11_1))
          && decide ((flipNegotiation p s._support_allow_tearing).hr = S_OK)) = true then
        (if (p.asSwapChain2 &&
            decide (0 ≠ ((flipNegotiation p s._support_allow_tearing).Flags
              &&& DXGI_SWAP_CHAIN_FLAG_FRAME_LATENCY_WAITABLE_OBJECT))) = true then
          [Event.SwapChain2_SetMaximumFrameLatency 1,
            Event.GetFrameLatencyWaitableObject p.frameLatencyWaitableObject]
        else if p.asDXGIDevice1 = true then [Event.DXGIDevice1_SetMaximumFrameLatency 1]
        else [])
      else [] := by
  have hn := flipNegotiation_frameLatencyCalls p s._support_allow_tearing
  unfold createGraphicFlip
  generalize flipNegotiation p s._support_allow_tearing = n at *
  generalize (s._dxgiFactory2 && s._d3d11Device1 && s._d3d11DeviceContext1
    && decide (L = D3D_FEATURE_LEVEL_11_1)) = e
  dsimp only
  generalize decide (0 ≠ (n.Flags &&& DXGI_SWAP_CHAIN_FLAG_FRAME_LATENCY_WAITABLE_OBJECT)) = w
  cases e <;> by_cases h0 : n.hr = 0 <;> cases h2 : p.asSwapChain2 <;> cases w <;>
    cases h1 : p.asDXGIDevice1 <;>
    simp [h0, h1, h2, hn, S_OK_eq_iff, Event.isFrameLatencyCall, List.filter_append]

/-- The frame-latency calls up to the return of `createGraphic`. -/
theorem createGraphicFallback_frameLatencyCalls (p : GraphicPlatform) (s : Application)
    (ev : List Event) :
    (createGraphicFallback p s ev).events.filter Event.isFrameLatencyCall =
      ev.filter Event.isFrameLatencyCall ++
        (if (!s._dxgiSwapChain && decide (p.hrCreateSwapChain = S_OK)) = true then
          (if p.asDXGIDevice1 = true then [Event.DXGIDevice1_SetMaximumFrameLatency 1] else [])
        else []) := by
  unfold createGraphicFallback
  cases hsc : s._dxgiSwapChain <;> by_cases h : p.hrCreateSwapChain = 0 <;>
    cases hd : p.asDXGIDevice1 <;>
    simp [hsc, h, hd, S_OK_eq_iff, Event.isFrameLatencyCall, List.filter_append]

/-- The creation attempt that succeeded is either the last one of the flip-model
negotiation, or the legacy one, made because no swap chain was held. -/
theorem negotiatedFlags_cases (p : GraphicPlatform) (s d : Application) (L : Nat)
    (ev : List Event) (F : Nat)
    (hd : createGraphicDevice p s = (some L, d, ev))
    (hneg : negotiatedFlags (createGraphic p s).events = some F) :
    (((d._dxgiFactory2 && d._d3d11Device1 && d._d3d11DeviceContext1
          && decide (L = D3D_FEATURE_LEVEL_11_1))
        && decide ((flipNegotiation p d._support_allow_tearing).hr = S_OK)) = true ∧
      F = (flipNegotiation p d._support_allow_tearing).Flags) ∨
    (((d._dxgiFactory2 && d._d3d11Device1 && d._d3d11DeviceContext1
          && decide (L = D3D_FEATURE_LEVEL_11_1))
        && decide ((flipNegotiation p d._support_allow_tearing).hr = S_OK)) = false ∧
      s._dxgiSwapChain = false ∧ p.hrCreateSwapChain = S_OK ∧
      F = DXGI_SWAP_CHAIN_FLAG_ALLOW_MODE_SWITCH) := by
  have hatt := createGraphic_attempts p s d L ev _ hd rfl
  obtain ⟨hr, hfl⟩ := flipNegotiation_result p d._support_allow_tearing
  unfold negotiatedFlags at hneg
  rw [hatt, flipNegotiation_attempts] at hneg
  rw [hfl]
  clear hatt hd hfl
  generalize (d._dxgiFactory2 && d._d3d11Device1 && d._d3d11DeviceContext1
    && decide (L = D3D_FEATURE_LEVEL_11_1)) = e at *
  generalize (flipNegotiation p d._support_allow_tearing).hr = r at *
  generalize flipFlags d._support_allow_tearing = f at *
  generalize f ^^^ DXGI_SWAP_CHAIN_FLAG_FRAME_LATENCY_WAITABLE_OBJECT = g at *
  cases e <;> cases hsc : s._dxgiSwapChain <;>
    by_cases a1 : p.hrCreateSwapChainForHwnd1 = 0 <;>
    by_cases a2 : p.hrCreateSwapChainForHwnd2 = 0 <;>
    by_cases a3 : p.hrCreateSwapChainForHwnd3 = 0 <;>
    by_cases a4 : p.hrCreateSwapChainForHwnd4 = 0 <;>
    by_cases a5 : p.hrCreateSwapChain = 0 <;>
    simp [a1, a2, a3, a4] at hr <;>
    simp [a1, a2, a3, a4, a5, hr, hsc, untilFirstSuccess] at hneg ⊢ <;>
    exact hneg.symm

/-- C20, refuted as worded: the legacy swap-chain creation succeeds on a device
that does not offer `IDXGIDevice1`; `createGraphic` returns true and has capped
the number of queued frames through neither interface. -/
theorem C20_no_cap_counterexample :
    (createGraphic sampleNoDXGIDevice1Platform (Application.withWindow 1)).result = true ∧
    (createGraphic sampleNoDXGIDevice1Platform (Application.withWindow 1)).events.filter
      Event.isFrameLatencyCall = [] := by
  decide

/-- C20, as the code has it. On every `createGraphic` call in which a swap-chain
creation attempt succeeded, with description flags `F`, the frame-latency calls
are: `SetMaximumFrameLatency(1)` on the swap chain followed by
`GetFrameLatencyWaitableObject`, if `F` carries the wait-object flag and the swap
chain offers `IDXGISwapChain2`; otherwise one `SetMaximumFrameLatency(1)` on the
DXGI device if the device offers `IDXGIDevice1`, and none if it does not.
`_frame_latency_waitable_object` is the handle obtained in the first case, and
is left as it was (NULL after `clear` or `destroyGraphic`) in the others. -/
theorem C20_frame_latency_cap (p : GraphicPlatform) (s : Application) (F : Nat)
    (hneg : negotiatedFlags (createGraphic p s).events = some F) :
    (createGraphic p s).result = true ∧
    (createGraphic p s).events.filter Event.isFrameLatencyCall =
      (if (p.asSwapChain2 &&
          decide (0 ≠ (F &&& DXGI_SWAP_CHAIN_FLAG_FRAME_LATENCY_WAITABLE_OBJECT))) = true then
        [Event.SwapChain2_SetMaximumFrameLatency 1,
          Event.GetFrameLatencyWaitableObject p.frameLatencyWaitableObject]
      else if p.asDXGIDevice1 = true then [Event.DXGIDevice1_SetMaximumFrameLatency 1]
      else []) ∧
    (createGraphic p s).app._frame_latency_waitable_object =
      (if (p.asSwapChain2 &&
          decide (0 ≠ (F &&& DXGI_SWAP_CHAIN_FLAG_FRAME_LATENCY_WAITABLE_OBJECT))) = true then
        p.frameLatencyWaitableObject
      else s._frame_latency_waitable_object) := by
  have hres := (createGraphic_negotiatedFlags p s F hneg).1
  refine ⟨hres, ?_⟩
  rcases hd : createGraphicDevice p s with ⟨o, d, ev⟩
  cases o with
  | none =>
    exfalso
    have h1 : (createGraphicDevice p s).1 = none := by rw [hd]
    rw [createGraphic_of_no_device p s h1] at hres
    simp at hres
  | some L =>
    have h1 : (createGraphicDevice p s).1 = some L := by rw [hd]
    have hcases := negotiatedFlags_cases p s d L ev F hd hneg
    have hdevcalls := createGraphicDevice_frameLatencyCalls p s
    have hsc := (createGraphicDevice_frame p s).1
    have hflipapp := (createGraphicFlip_app p L d _ _ _ rfl rfl rfl).1
    obtain ⟨-, -, -, -, -, -, r7, -⟩ := createGraphic_app p s d L ev _ hd rfl
    rw [r7, createGraphic_of_device p s L h1, createGraphicFallback_frameLatencyCalls,
      List.filter_append, hdevcalls]
    rw [hd] at hsc ⊢
    simp only at hsc ⊢
    rw [createGraphicFlip_frameLatencyCalls, hflipapp, hsc]
    clear r7 hdevcalls hflipapp hd h1 hres hneg
    generalize ((d._dxgiFactory2 && d._d3d11Device1 && d._d3d11DeviceContext1
          && decide (L = D3D_FEATURE_LEVEL_11_1))
        && decide ((flipNegotiation p d._support_allow_tearing).hr = S_OK)) = ok at *
    have hms : (DXGI_SWAP_CHAIN_FLAG_ALLOW_MODE_SWITCH
        &&& DXGI_SWAP_CHAIN_FLAG_FRAME_LATENCY_WAITABLE_OBJECT) = 0 := by decide
    rcases hcases with ⟨hok, hF⟩ | ⟨hok, hs, hl, hF⟩
    · subst hok hF
      cases p.asSwapChain2 <;> cases p.asDXGIDevice1 <;>
        by_cases hw : (0 : Nat) = ((flipNegotiation p d._support_allow_tearing).Flags
          &&& DXGI_SWAP_CHAIN_FLAG_FRAME_LATENCY_WAITABLE_OBJECT) <;>
        simp [hw]
    · subst hok hF
      rw [hms]
      cases p.asSwapChain2 <;> cases p.asDXGIDevice1 <;> simp [hs, hl]

/-- C20 as the code has it, instance: the swap chain created at the first attempt
carries the wait-object flag and is capped through `IDXGISwapChain2`. -/
theorem C20_frame_latency_cap_witness :
    negotiatedFlags
        (createGraphic (samplePlatform S_OK S_OK S_OK S_OK S_OK) (Application.withWindow 1)).events
      = some 66 ∧
    (createGraphic (samplePlatform S_OK S_OK S_OK S_OK S_OK)
        (Application.withWindow 1)).events.filter Event.isFrameLatencyCall =
      [Event.SwapChain2_SetMaximumFrameLatency 1, Event.GetFrameLatencyWaitableObject 7] := by
  have h := (C20_frame_latency_cap (samplePlatform S_OK S_OK S_OK S_OK S_OK)
    (Application.withWindow 1) 66 (by decide)).2.1
  refine ⟨by decide, ?_⟩
  rw [h]
  decide

/-! ### Determinism of the negotiation -/

/-- C17. The negotiation of `createGraphic` is a function of the start state and
of the results given to its capability queries and creation attempts: two runs
from the same `Application` (a cleared one in particular) that receive the same
such results, whatever the rest of the platform's answers, end with the same
return value, the same creation attempts with the same outcomes (hence the same
technique chosen), the same `_swapchain_flags` and the same capability flags. -/
theorem C17_negotiation_deterministic (p1 p2 : GraphicPlatform) (s : Application)
    (hsame : p1.negotiationInputs = p2.negotiationInputs) :
    (createGraphic p1 s).result = (createGraphic p2 s).result ∧
    creationAttempts (createGraphic p1 s).events = creationAttempts (createGraphic p2 s).events ∧
    (createGraphic p1 s).app._swapchain_flags = (createGraphic p2 s).app._swapchain_flags ∧
    (createGraphic p1 s).app._support_swap_effect_flip
      = (createGraphic p2 s).app._support_swap_effect_flip ∧
    (createGraphic p1 s).app._support_frame_latency_waitable_object
      = (createGraphic p2 s).app._support_frame_latency_waitable_object ∧
    (createGraphic p1 s).app._support_allow_tearing
      = (createGraphic p2 s).app._support_allow_tearing := by
  have hdev : createGraphicDevice p1 s = createGraphicDevice p2 s := by
    have e1 : createGraphicDevice p1 s = createGraphicDevice p1.negotiationInputs s := rfl
    have e2 : createGraphicDevice p2 s = createGraphicDevice p2.negotiationInputs s := rfl
    rw [e1, e2, hsame]
  have hflip : ∀ t, flipNegotiation p1 t = flipNegotiation p2 t := by
    intro t
    have e1 : flipNegotiation p1 t = flipNegotiation p1.negotiationInputs t := rfl
    have e2 : flipNegotiation p2 t = flipNegotiation p2.negotiationInputs t := rfl
    rw [e1, e2, hsame]
  have hleg : p1.hrCreateSwapChain = p2.hrCreateSwapChain := by
    have e1 : p1.hrCreateSwapChain = p1.negotiationInputs.hrCreateSwapChain := rfl
    have e2 : p2.hrCreateSwapChain = p2.negotiationInputs.hrCreateSwapChain := rfl
    rw [e1, e2, hsame]
  rcases hd : createGraphicDevice p1 s with ⟨o, d, ev⟩
  have hd2 : createGraphicDevice p2 s = (o, d, ev) := by rw [← hdev, hd]
  cases o with
  | none =>
    have h1 : (createGraphicDevice p1 s).1 = none := by rw [hd]
    have h2 : (createGraphicDevice p2 s).1 = none := by rw [hd2]
    rw [createGraphic_of_no_device p1 s h1, createGraphic_of_no_device p2 s h2, hdev]
    exact ⟨rfl, rfl, rfl, rfl, rfl, rfl⟩
  | some L =>
    have a1 := createGraphic_attempts p1 s d L ev _ hd rfl
    have a2 := createGraphic_attempts p2 s d L ev _ hd2 rfl
    obtain ⟨r1, -, r3, r4, r5, r6, -⟩ := createGraphic_app p1 s d L ev _ hd rfl
    obtain ⟨q1, -, q3, q4, q5, q6, -⟩ := createGraphic_app p2 s d L ev _ hd2 rfl
    rw [a1, a2, r1, r3, r4, r5, r6, q1, q3, q4, q5, q6, hflip, hleg]
    exact ⟨rfl, rfl, rfl, rfl, rfl, rfl⟩

/-- C17, instance: two platforms that differ in the wait handle and in the
`IDXGIDevice1` query only. -/
theorem C17_negotiation_deterministic_witness :
    (createGraphic (samplePlatform E_FAIL S_OK S_OK S_OK S_OK) (Application.withWindow 1)).result =
      (createGraphic
        { samplePlatform E_FAIL S_OK S_OK S_OK S_OK with
            frameLatencyWaitableObject := 9, asDXGIDevice1 := false }
        (Application.withWindow 1)).result :=
  (C17_negotiation_deterministic (samplePlatform E_FAIL S_OK S_OK S_OK S_OK)
    { samplePlatform E_FAIL S_OK S_OK S_OK S_OK with
        frameLatencyWaitableObject := 9, asDXGIDevice1 := false }
    (Application.withWindow 1) (by decide)).1

/-! ### A contended size lock -/

/-- Binding the render target makes no `ResizeBuffers` call. -/
theorem bindRenderTarget_noResize (s : Application) :
    ∀ e ∈ (bindRenderTarget s).events, e.isResizeBuffers = false := by
  have h : (bindRenderTarget s).events.all (fun e => !e.isResizeBuffers) = true := by
    unfold bindRenderTarget
    split_ifs <;> rfl
  intro e he
  have := List.all_eq_true.mp h e he
  simpa using this

/-- Presenting makes no `ResizeBuffers` call. -/
theorem presentBackBuffer_noResize (hrPresent : HRESULT) (s : Application) (vsync : Bool) :
    ∀ e ∈ (presentBackBuffer hrPresent s vsync).events, e.isResizeBuffers = false := by
  have h : (presentBackBuffer hrPresent s vsync).events.all (fun e => !e.isResizeBuffers)
      = true := by
    unfold presentBackBuffer
    dsimp only
    split_ifs <;> rfl
  intro e he
  have := List.all_eq_true.mp h e he
  simpa using this

/-- C21. Contended lock: a `HandleRender` call whose `try_lock` fails leaves the
pending resize record (flag, width, height) and the `Application` unchanged,
makes no `ResizeBuffers` call and calls `bindRenderTarget`, the render callback
and `presentBackBuffer` as a frame without a resize does; after any number of
such frames, the next `HandleRender` call that acquires the lock finds the
request as it was and, the flag being set, applies it: one `resizeSwapChain` call
with the pending width and height (floored at 1) on the unchanged `Application`,
and the flag is cleared. -/
theorem C21_contended_lock (p q : FramePlatform) (ps : List FramePlatform) (g : Globals)
    (s : Application) (hp : p.try_lock = false) (hps : ∀ r ∈ ps, r.try_lock = false)
    (hq : q.try_lock = true) (hwant : g.g_bWantUpdateWindowSize = true) :
    (HandleRender p g s).globals = g ∧
    (HandleRender p g s).app = s ∧
    (HandleRender p g s).calls =
      [Call.bindRenderTarget, Call.render, Call.presentBackBuffer true] ∧
    (∀ e ∈ (HandleRender p g s).events, e.isResizeBuffers = false) ∧
    (HandleRender q (runFrames (p :: ps) g s).1 (runFrames (p :: ps) g s).2).calls =
      [Call.resizeSwapChain (toINT (if g.g_uWindowWidth > 0 then g.g_uWindowWidth else 1))
        (toINT (if g.g_uWindowHeight > 0 then g.g_uWindowHeight else 1))] ∧
    (HandleRender q (runFrames (p :: ps) g s).1 (runFrames (p :: ps) g s).2).events =
      (resizeSwapChain q.resize s
        (toINT (if g.g_uWindowWidth > 0 then g.g_uWindowWidth else 1))
        (toINT (if g.g_uWindowHeight > 0 then g.g_uWindowHeight else 1))).events ∧
    (HandleRender q (runFrames (p :: ps) g s).1
      (runFrames (p :: ps) g s).2).globals.g_bWantUpdateWindowSize = false := by
  have hall : ∀ r ∈ p :: ps, r.try_lock = false := by
    intro r hr
    rcases List.mem_cons.mp hr with h | h
    · rw [h]; exact hp
    · exact hps r h
  have hrun : runFrames (p :: ps) g s = (g, s) := runFrames_contended (p :: ps) g s hall
  have hc := HandleRender_contended p g s hp
  refine ⟨hc.1, hc.2, ?_, ?_, ?_, ?_, ?_⟩
  · unfold HandleRender
    simp [hp]
  · intro e he
    rw [HandleRender_events, hp] at he
    simp only [Bool.false_and, Bool.false_eq_true, if_false] at he
    rcases List.mem_append.mp he with h | h
    · exact bindRenderTarget_noResize s e h
    · exact presentBackBuffer_noResize p.hrPresent s true e h
  · rw [hrun]
    unfold HandleRender
    simp [hq, hwant]
  · rw [hrun, HandleRender_events, hq, hwant]
    simp
  · rw [hrun]
    unfold HandleRender
    simp [hq, hwant]

theorem C21_contended_lock_witness :
    (HandleRender { sampleFramePlatform with try_lock := false } ⟨false, true, 800, 600⟩
      sampleApplication).globals = ⟨false, true, 800, 600⟩ ∧
    (HandleRender sampleFramePlatform
      (runFrames [{ sampleFramePlatform with try_lock := false },
        { sampleFramePlatform with try_lock := false }] ⟨false, true, 800, 600⟩
        sampleApplication).1
      (runFrames [{ sampleFramePlatform with try_lock := false },
        { sampleFramePlatform with try_lock := false }] ⟨false, true, 800, 600⟩
        sampleApplication).2).calls = [Call.resizeSwapChain 800 600] :=
  ⟨(C21_contended_lock { sampleFramePlatform with try_lock := false } sampleFramePlatform
      [{ sampleFramePlatform with try_lock := false }] ⟨false, true, 800, 600⟩ sampleApplication
      rfl (by decide) rfl rfl).1,
   (C21_contended_lock { sampleFramePlatform with try_lock := false } sampleFramePlatform
      [{ sampleFramePlatform with try_lock := false }] ⟨false, true, 800, 600⟩ sampleApplication
      rfl (by decide) rfl rfl).2.2.2.2.1⟩

/-! ### The tearing flag of `Present` -/

/-- C22. On a cleared `Application` with a window, `createGraphic` succeeds on a
platform whose tearing query reports support and whose device is of feature
level 11_0: the swap chain is created by the legacy path, with
`DXGI_SWAP_CHAIN_FLAG_ALLOW_MODE_SWITCH` only, so the tearing bit is not set in
`_swapchain_flags`; `presentBackBuffer(false)` then passes
`DXGI_PRESENT_ALLOW_TEARING` to `Present` all the same. -/
theorem C22_tearing_flag_on_legacy_swap_chain :
    (createGraphic sampleTearingLegacyPlatform (Application.withWindow 1)).result = true ∧
    creationAttempts (createGraphic sampleTearingLegacyPlatform (Application.withWindow 1)).events
      = [((DXGI_SWAP_EFFECT.DISCARD, DXGI_SWAP_CHAIN_FLAG_ALLOW_MODE_SWITCH), true)] ∧
    (createGraphic sampleTearingLegacyPlatform (Application.withWindow 1)).app._swapchain_flags
      &&& DXGI_SWAP_CHAIN_FLAG_ALLOW_TEARING = 0 ∧
    (presentBackBuffer S_OK
      (createGraphic sampleTearingLegacyPlatform (Application.withWindow 1)).app false).events
      = [Event.Present 0 DXGI_PRESENT_ALLOW_TEARING S_OK] := by
  decide

/-! ### The lifecycle invariant -/

/-- What `createRenderTarget` leaves: the raw pointer follows the owned view when
it did before, and a view is held afterwards only if one was held before or
swap chain and device are there. -/
theorem createRenderTarget_lifecycle (p : RenderTargetPlatform) (s : Application)
    (h2 : s.d3d11RenderTarget = s._d3d11RenderTarget) :
    (createRenderTarget p s).app.d3d11RenderTarget
      = (createRenderTarget p s).app._d3d11RenderTarget ∧
    ((createRenderTarget p s).app._d3d11RenderTarget = true →
      (s._d3d11RenderTarget = true ∧ (createRenderTarget p s).app = s) ∨
      (s._dxgiSwapChain = true ∧ s._d3d11Device = true)) := by
  unfold createRenderTarget destroyRenderTarget
  cases hsc : s._dxgiSwapChain <;> cases hdev : s._d3d11Device <;>
    cases hrt : s._d3d11RenderTarget <;>
    by_cases hg : p.hrGetBuffer = 0 <;> by_cases hc : p.hrCreateRenderTargetView = 0 <;>
    simp [hg, hc, h2, hrt]

/-- A successful `resizeSwapChain` had a swap chain and a device to work with. -/
theorem resizeSwapChain_result (p : ResizePlatform) (s : Application) (width height : Int)
    (h : (resizeSwapChain p s width height).result = true) :
    s._dxgiSwapChain = true ∧ s._d3d11Device = true := by
  unfold resizeSwapChain createRenderTarget destroyRenderTarget at h
  cases hsc : s._dxgiSwapChain <;> cases hdev : s._d3d11Device <;>
    by_cases hr : p.hrResizeBuffers = 0 <;>
    by_cases hg : p.renderTarget.hrGetBuffer = 0 <;>
    by_cases hc : p.renderTarget.hrCreateRenderTargetView = 0 <;>
    simp [hsc, hdev, hr, hg, hc] at h ⊢

/-- What `createGraphic` leaves of the view and the swap chain: it touches neither
the owned view nor the raw pointer, and never gives up a swap chain. -/
theorem createGraphic_lifecycle (p : GraphicPlatform) (s : Application) :
    (createGraphic p s).app._d3d11RenderTarget = s._d3d11RenderTarget ∧
    (createGraphic p s).app.d3d11RenderTarget = s.d3d11RenderTarget ∧
    (s._dxgiSwapChain = true → (createGraphic p s).app._dxgiSwapChain = true) := by
  rcases hd : createGraphicDevice p s with ⟨o, d, ev⟩
  cases o with
  | none =>
    have hn : (createGraphicDevice p s).1 = none := by rw [hd]
    have hf := createGraphicDevice_frame p s
    rw [createGraphic_of_no_device p s hn]
    exact ⟨hf.2.2.2.2.2.2.2.1, hf.2.2.2.2.2.2.2.2.1, fun h => by rw [← h]; exact hf.1⟩
  | some L =>
    have ha := createGraphic_app p s d L ev _ hd rfl
    refine ⟨ha.2.2.2.2.2.2.2.2.2.1, ha.2.2.2.2.2.2.2.2.2.2, ?_⟩
    intro h
    rw [ha.2.1, h]
    simp

/-- One call keeps "a view comes with a swap chain" and "the raw pointer follows
the owned view"; it keeps "a view comes with a device" too, unless it is a
`createGraphic` made while a view is held. -/
theorem Op.run_lifecycle (op : Op) (s : Application)
    (h1 : s._d3d11RenderTarget = true → s._dxgiSwapChain = true)
    (h2 : s.d3d11RenderTarget = s._d3d11RenderTarget) :
    ((op.run s).app._d3d11RenderTarget = true → (op.run s).app._dxgiSwapChain = true) ∧
    (op.run s).app.d3d11RenderTarget = (op.run s).app._d3d11RenderTarget ∧
    ((!op.isCreateGraphic || !s._d3d11RenderTarget) = true →
      (s._d3d11RenderTarget = true → s._d3d11Device = true) →
      (op.run s).app._d3d11RenderTarget = true → (op.run s).app._d3d11Device = true) := by
  cases op with
  | clear =>
    have ht := tornDown_pointers s (LowFrameLatency.clear s).1 (Or.inr rfl)
    simp only [Op.run]
    rw [ht.2.2.2.1, ht.2.2.2.2]
    simp
  | destroyGraphic =>
    have ht := tornDown_pointers s (LowFrameLatency.destroyGraphic s).1 (Or.inl rfl)
    simp only [Op.run]
    rw [ht.2.2.2.1, ht.2.2.2.2]
    simp
  | destroyRenderTarget =>
    simp [Op.run, LowFrameLatency.destroyRenderTarget]
  | bindRenderTarget =>
    simp only [Op.run, bindRenderTarget_app]
    exact ⟨h1, h2, fun _ h => h⟩
  | presentBackBuffer hr vsync =>
    simp only [Op.run, presentBackBuffer_app]
    exact ⟨h1, h2, fun _ h => h⟩
  | createRenderTarget p =>
    have hl := createRenderTarget_lifecycle p s h2
    obtain ⟨a, b, hab⟩ := createRenderTarget_app p s
    have hsc : (LowFrameLatency.createRenderTarget p s).app._dxgiSwapChain = s._dxgiSwapChain := by
      rw [hab]
    have hdev : (LowFrameLatency.createRenderTarget p s).app._d3d11Device = s._d3d11Device := by
      rw [hab]
    simp only [Op.run]
    refine ⟨?_, hl.1, ?_⟩
    · intro h
      rw [hsc]
      rcases hl.2 h with h3 | h3
      · exact h1 h3.1
      · exact h3.1
    · intro _ hd h
      rw [hdev]
      rcases hl.2 h with h3 | h3
      · exact hd h3.1
      · exact h3.2
  | resizeSwapChain p width height =>
    have hv := resizeSwapChain_view p s width height
    obtain ⟨a, b, hab⟩ := resizeSwapChain_app p s width height
    have hsc : (LowFrameLatency.resizeSwapChain p s width height).app._dxgiSwapChain
        = s._dxgiSwapChain := by rw [hab]
    have hdev : (LowFrameLatency.resizeSwapChain p s width height).app._d3d11Device
        = s._d3d11Device := by rw [hab]
    simp only [Op.run]
    refine ⟨?_, ?_, ?_⟩
    · intro h
      rw [hv.1] at h
      rw [hsc]
      exact (resizeSwapChain_result p s width height h).1
    · rw [hv.1, hv.2]
    · intro _ _ h
      rw [hv.1] at h
      rw [hdev]
      exact (resizeSwapChain_result p s width height h).2
  | createGraphic p =>
    have hl := createGraphic_lifecycle p s
    simp only [Op.run, Op.isCreateGraphic]
    refine ⟨?_, ?_, ?_⟩
    · intro h
      rw [hl.1] at h
      exact hl.2.2 (h1 h)
    · rw [hl.1, hl.2.1]
      exact h2
    · intro hv _ h
      rw [hl.1] at h
      rw [h] at hv
      simp at hv

/-- Over a sequence of calls: a view comes with a swap chain and the raw pointer
follows the owned view; a view comes with a device too when every `createGraphic`
call is made while no view is held. -/
theorem runOps_lifecycle (ops : List Op) :
    ∀ s : Application, (s._d3d11RenderTarget = true → s._dxgiSwapChain = true) →
      s.d3d11RenderTarget = s._d3d11RenderTarget →
      ((runOps s ops).1._d3d11RenderTarget = true → (runOps s ops).1._dxgiSwapChain = true) ∧
      (runOps s ops).1.d3d11RenderTarget = (runOps s ops).1._d3d11RenderTarget ∧
      (createsWithoutView s ops = true →
        (s._d3d11RenderTarget = true → s._d3d11Device = true) →
        (runOps s ops).1._d3d11RenderTarget = true → (runOps s ops).1._d3d11Device = true) := by
  induction ops with
  | nil =>
    intro s h1 h2
    exact ⟨h1, h2, fun _ h => h⟩
  | cons op rest ih =>
    intro s h1 h2
    have hop := Op.run_lifecycle op s h1 h2
    have hr := ih (op.run s).app hop.1 hop.2.1
    simp only [runOps]
    refine ⟨hr.1, hr.2.1, ?_⟩
    intro hc hd
    simp only [createsWithoutView, Bool.and_eq_true] at hc
    exact hr.2.2 hc.2 (hop.2.2 hc.1 hd)

/-- C23, as claimed, fails: after a successful `createGraphic` and
`createRenderTarget`, a second `createGraphic` whose two `D3D11CreateDevice` calls
fail leaves the view (and the swap chain) held while the device pointer, written
by the failed calls, is null. -/
theorem C23_view_without_device_counterexample :
    (runOps (Application.withWindow 1)
      [Op.createGraphic (samplePlatform S_OK S_OK S_OK S_OK S_OK),
        Op.createRenderTarget ⟨S_OK, S_OK⟩,
        Op.createGraphic sampleNoDevicePlatform]).1._d3d11RenderTarget = true ∧
    (runOps (Application.withWindow 1)
      [Op.createGraphic (samplePlatform S_OK S_OK S_OK S_OK S_OK),
        Op.createRenderTarget ⟨S_OK, S_OK⟩,
        Op.createGraphic sampleNoDevicePlatform]).1._d3d11Device = false ∧
    ¬ (runOps (Application.withWindow 1)
      [Op.createGraphic (samplePlatform S_OK S_OK S_OK S_OK S_OK),
        Op.createRenderTarget ⟨S_OK, S_OK⟩,
        Op.createGraphic sampleNoDevicePlatform]).1.lifecycleInvariant := by
  decide

/-- C23, amended. From an `Application` that satisfies the lifecycle invariant (a
cleared one does), after every sequence of `clear`, `createGraphic`,
`destroyGraphic`, `createRenderTarget`, `destroyRenderTarget`, `resizeSwapChain`,
`bindRenderTarget` and `presentBackBuffer` calls with arbitrary platform results,
a non-null render-target view implies a non-null swap chain, and the raw pointer
`d3d11RenderTarget` is null exactly when the owned view is; when every
`createGraphic` call of the sequence is made while no view is held, a non-null
view implies a non-null device as well, so the whole invariant holds. -/
theorem C23_lifecycle_invariant (s : Application) (ops : List Op)
    (hs : s.lifecycleInvariant) :
    ((runOps s ops).1._d3d11RenderTarget = true → (runOps s ops).1._dxgiSwapChain = true) ∧
    ((runOps s ops).1.d3d11RenderTarget = false ↔ (runOps s ops).1._d3d11RenderTarget = false) ∧
    (createsWithoutView s ops = true → (runOps s ops).1.lifecycleInvariant) := by
  have h2 : s.d3d11RenderTarget = s._d3d11RenderTarget := by
    have := hs.2
    cases h : s.d3d11RenderTarget <;> cases h' : s._d3d11RenderTarget <;> simp_all
  have hr := runOps_lifecycle ops s (fun h => (hs.1 h).1) h2
  refine ⟨hr.1, by rw [hr.2.1], ?_⟩
  intro hc
  refine ⟨fun h => ⟨hr.1 h, hr.2.2 hc (fun h => (hs.1 h).2) h⟩, by rw [hr.2.1]⟩

theorem C23_lifecycle_invariant_witness :
    (Application.withWindow 1).lifecycleInvariant ∧
    createsWithoutView (Application.withWindow 1)
      [Op.createGraphic (samplePlatform S_OK S_OK S_OK S_OK S_OK),
        Op.createRenderTarget ⟨S_OK, S_OK⟩, Op.destroyRenderTarget,
        Op.createGraphic sampleNoDevicePlatform] = true ∧
    (runOps (Application.withWindow 1)
      [Op.createGraphic (samplePlatform S_OK S_OK S_OK S_OK S_OK),
        Op.createRenderTarget ⟨S_OK, S_OK⟩, Op.destroyRenderTarget,
        Op.createGraphic sampleNoDevicePlatform]).1.lifecycleInvariant :=
  ⟨by decide, by decide,
    (C23_lifecycle_invariant (Application.withWindow 1)
      [Op.createGraphic (samplePlatform S_OK S_OK S_OK S_OK S_OK),
        Op.createRenderTarget ⟨S_OK, S_OK⟩, Op.destroyRenderTarget,
        Op.createGraphic sampleNoDevicePlatform] (by decide)).2.2 (by decide)⟩

/-! ### The capability flags across a destroy/create cycle -/

/-- C24. A first `createGraphic` on a platform with tearing support creates a
flip-model swap chain with the wait-object flag; after `destroyGraphic`, a
second `createGraphic` succeeds on a platform whose tearing query reports no
support and whose device is of feature level 11_0, so that it makes the legacy
creation attempt only and its swap chain carries
`DXGI_SWAP_CHAIN_FLAG_ALLOW_MODE_SWITCH` alone. The three capability flags are
still true afterwards: they are those of the first call. -/
theorem C24_stale_capability_flags :
    (createGraphic sampleTearingPlatform (Application.withWindow 1)).result = true ∧
    (createGraphic sampleLegacyPlatform
      (destroyGraphic
        (createGraphic sampleTearingPlatform (Application.withWindow 1)).app).1).result = true ∧
    creationAttempts (createGraphic sampleLegacyPlatform
      (destroyGraphic
        (createGraphic sampleTearingPlatform (Application.withWindow 1)).app).1).events
      = [((DXGI_SWAP_EFFECT.DISCARD, DXGI_SWAP_CHAIN_FLAG_ALLOW_MODE_SWITCH), true)] ∧
    Event.CheckFeatureSupport S_OK false ∈ (createGraphic sampleLegacyPlatform
      (destroyGraphic
        (createGraphic sampleTearingPlatform (Application.withWindow 1)).app).1).events ∧
    (createGraphic sampleLegacyPlatform
      (destroyGraphic
        (createGraphic sampleTearingPlatform (Application.withWindow 1)).app).1).app._swapchain_flags
      = DXGI_SWAP_CHAIN_FLAG_ALLOW_MODE_SWITCH ∧
    (createGraphic sampleLegacyPlatform
      (destroyGraphic
        (createGraphic sampleTearingPlatform
          (Application.withWindow 1)).app).1).app._support_swap_effect_flip = true ∧
    (createGraphic sampleLegacyPlatform
      (destroyGraphic
        (createGraphic sampleTearingPlatform
          (Application.withWindow 1)).app).1).app._support_frame_latency_waitable_object = true ∧
    (createGraphic sampleLegacyPlatform
      (destroyGraphic
        (createGraphic sampleTearingPlatform
          (Application.withWindow 1)).app).1).app._support_allow_tearing = true := by
  decide

/-! ### The order of the display-mode messages -/

/-- The message at each position of a run, from any values of the statics: the
requests alternate, the first one being the opposite of the mode held. -/
theorem postedMessages_index (ks : List KeySample) :
    ∀ (st : FullscreenState) (k m : Nat), (postedMessages st ks)[k]? = some m →
      m = if xor st._fullscreen (decide (k % 2 = 0)) then MSG_SWITCH_DISPLAY_MODE_FULLSCREEN
        else MSG_SWITCH_DISPLAY_MODE_WINDOWED := by
  induction ks with
  | nil =>
    intro st k m h
    simp [postedMessages, runFullscreen] at h
  | cons k0 rest ih =>
    intro st k m h
    have hstep := HandleFullscreen_step st k0
    have hcons : postedMessages st (k0 :: rest) =
        (match (HandleFullscreen st k0).2 with
          | some m0 => m0 :: postedMessages (HandleFullscreen st k0).1 rest
          | none => postedMessages (HandleFullscreen st k0).1 rest) := by
      simp only [postedMessages, runFullscreen, List.filterMap_cons]
      cases (HandleFullscreen st k0).2 <;> rfl
    rw [hcons] at h
    cases hp : (HandleFullscreen st k0).2 with
    | none =>
      rw [hp] at h
      have hn : (alt_enter_key k0 && !st._alt_enter) = false := by
        rw [← hstep.2.2.1, hp]; rfl
      have hf : (HandleFullscreen st k0).1._fullscreen = st._fullscreen := by
        rw [hstep.2.1, hn]; simp
      have := ih _ k m h
      rw [hf] at this
      exact this
    | some m0 =>
      rw [hp] at h
      have hn : (alt_enter_key k0 && !st._alt_enter) = true := by
        rw [← hstep.2.2.1, hp]; rfl
      have hf : (HandleFullscreen st k0).1._fullscreen = !st._fullscreen := by
        rw [hstep.2.1, hn]; simp
      have hm := hstep.2.2.2 (by rw [hp]; rfl)
      rw [hp, hf] at hm
      cases k with
      | zero =>
        simp only [List.getElem?_cons_zero, Option.some.injEq] at h
        rw [← h]
        have := Option.some.inj hm
        rw [this]
        cases st._fullscreen <;> simp
      | succ j =>
        simp only [List.getElem?_cons_succ] at h
        have := ih _ j m h
        rw [hf] at this
        rw [this]
        have hj : (j + 1) % 2 = 0 ↔ ¬ (j % 2 = 0) := by omega
        by_cases h0 : j % 2 = 0
        · have h1 : ¬ ((j + 1) % 2 = 0) := by omega
          cases st._fullscreen <;> simp [h0, h1]
        · have h1 : (j + 1) % 2 = 0 := by omega
          cases st._fullscreen <;> simp [h0, h1]

/-- C25. The display-mode messages posted by `HandleFullscreen` strictly
alternate, beginning with FULLSCREEN: for every sequence of key samples, starting
from the initial statics, the k-th posted `MSG_SWITCH_DISPLAY_MODE` (counted
from 1) carries FULLSCREEN when k is odd and WINDOWED when k is even; so the
first request, if there is one, is FULLSCREEN and no WINDOWED request precedes
it. -/
theorem C25_display_mode_messages_alternate (ks : List KeySample) (k m : Nat)
    (hk : 1 ≤ k) (h : (postedMessages FullscreenState.initial ks)[k - 1]? = some m) :
    m = (if k % 2 = 1 then MSG_SWITCH_DISPLAY_MODE_FULLSCREEN
      else MSG_SWITCH_DISPLAY_MODE_WINDOWED) ∧
    (postedMessages FullscreenState.initial ks).head? = some MSG_SWITCH_DISPLAY_MODE_FULLSCREEN := by
  constructor
  · have := postedMessages_index ks FullscreenState.initial (k - 1) m h
    rw [this]
    by_cases h0 : (k - 1) % 2 = 0
    · have h1 : k % 2 = 1 := by omega
      simp [FullscreenState.initial, h0, h1]
    · have h1 : ¬ (k % 2 = 1) := by omega
      simp [FullscreenState.initial, h0, h1]
  · cases hl : postedMessages FullscreenState.initial ks with
    | nil => rw [hl] at h; simp at h
    | cons a rest =>
      have h0 : (postedMessages FullscreenState.initial ks)[0]? = some a := by rw [hl]; simp
      have := postedMessages_index ks FullscreenState.initial 0 a h0
      simp only [List.head?_cons]
      rw [this]
      simp [FullscreenState.initial]

theorem C25_display_mode_messages_alternate_witness :
    (postedMessages FullscreenState.initial
      [⟨0x8000, 0x8000⟩, ⟨0x8000, 0x8000⟩, ⟨0, 0⟩, ⟨0x8001, 0x8000⟩, ⟨0x8001, 0x8000⟩])[2 - 1]?
      = some 1 ∧
    (1 : Nat) = (if 2 % 2 = 1 then MSG_SWITCH_DISPLAY_MODE_FULLSCREEN
      else MSG_SWITCH_DISPLAY_MODE_WINDOWED) :=
  ⟨by decide,
    (C25_display_mode_messages_alternate
      [⟨0x8000, 0x8000⟩, ⟨0x8000, 0x8000⟩, ⟨0, 0⟩, ⟨0x8001, 0x8000⟩, ⟨0x8001, 0x8000⟩] 2 1
      (by decide) (by decide)).1⟩

/-! ### The callback list -/

/-- The erase loop keeps exactly the elements other than `callback`, in order. -/
theorem removeWindowMessageCallback_loop_filter (callback : Nat) (l : List Nat) :
    removeWindowMessageCallback.loop callback l = l.filter (fun x => decide (x ≠ callback)) := by
  induction l with
  | nil => rfl
  | cons x rest ih =>
    by_cases h : x = callback
    · simp [removeWindowMessageCallback.loop, h, ih]
    · simp [removeWindowMessageCallback.loop, h, ih]

/-- Filtering out a value that does not occur changes nothing. -/
theorem filter_ne_of_not_mem (c : Nat) (l : List Nat) (h : c ∉ l) :
    l.filter (fun x => decide (x ≠ c)) = l := by
  rw [List.filter_eq_self]
  intro a ha
  have : a ≠ c := fun e => h (e ▸ ha)
  simpa using this

/-- The callback list after `removeWindowMessageCallback`. -/
theorem removeWindowMessageCallback_list (s : Application) (c : Nat) (h0 : 0 ∉ s._windowMessageCallback) :
    (removeWindowMessageCallback s c)._windowMessageCallback =
      s._windowMessageCallback.filter (fun x => decide (x ≠ c)) := by
  unfold removeWindowMessageCallback
  by_cases hc : c = 0
  · rw [if_pos hc, hc, filter_ne_of_not_mem 0 _ h0]
  · rw [if_neg hc]
    exact removeWindowMessageCallback_loop_filter c _

/-- The callback list after `addWindowMessageCallback` of a callback that is not `NULL`. -/
theorem addWindowMessageCallback_list (s : Application) (c : Nat) (hc : c ≠ 0) :
    (addWindowMessageCallback s c)._windowMessageCallback =
      s._windowMessageCallback.filter (fun x => decide (x ≠ c)) ++ [c] := by
  unfold addWindowMessageCallback removeWindowMessageCallback
  rw [if_neg hc]
  simp only [if_neg hc]
  rw [removeWindowMessageCallback_loop_filter]

/-- Both member functions keep the list free of `NULL` and of repetitions. -/
theorem runCallbackCall_invariant (s : Application) (c : Bool × Nat)
    (h0 : 0 ∉ s._windowMessageCallback) (hnd : s._windowMessageCallback.Nodup) :
    0 ∉ (runCallbackCall s c)._windowMessageCallback ∧
    (runCallbackCall s c)._windowMessageCallback.Nodup := by
  rcases c with ⟨b, c⟩
  cases b with
  | false =>
    simp only [runCallbackCall, Bool.false_eq_true, if_false]
    rw [removeWindowMessageCallback_list s c h0]
    exact ⟨fun h => h0 (List.mem_filter.mp h).1, hnd.filter _⟩
  | true =>
    simp only [runCallbackCall, if_true]
    by_cases hc : c = 0
    · have : addWindowMessageCallback s c = s := by
        unfold addWindowMessageCallback
        rw [if_pos hc]
      rw [this]
      exact ⟨h0, hnd⟩
    · rw [addWindowMessageCallback_list s c hc]
      constructor
      · intro h
        rcases List.mem_append.mp h with h | h
        · exact h0 (List.mem_filter.mp h).1
        · exact hc (List.mem_singleton.mp h).symm
      · rw [List.nodup_append]
        refine ⟨hnd.filter _, List.nodup_singleton c, ?_⟩
        intro a ha hb
        have h1 := (List.mem_filter.mp ha).2
        have h2 := List.mem_singleton.mp hb
        simp [h2] at h1

/-- Every sequence of `addWindowMessageCallback` and `removeWindowMessageCallback`
calls keeps the list free of `NULL` and of repetitions. -/
theorem runCallbackCalls_invariant (cs : List (Bool × Nat)) :
    ∀ s : Application, 0 ∉ s._windowMessageCallback → s._windowMessageCallback.Nodup →
      0 ∉ (runCallbackCalls s cs)._windowMessageCallback ∧
      (runCallbackCalls s cs)._windowMessageCallback.Nodup := by
  induction cs with
  | nil =>
    intro s h0 hnd
    exact ⟨h0, hnd⟩
  | cons c rest ih =>
    intro s h0 hnd
    have h := runCallbackCall_invariant s c h0 hnd
    simp only [runCallbackCalls, List.foldl_cons]
    exact ih (runCallbackCall s c) h.1 h.2

/-- C26. The registered callback list never contains `NULL` nor the same
callback twice: this holds after every sequence of `addWindowMessageCallback` and
`removeWindowMessageCallback` calls on a list for which it holds (the empty list
of a cleared `Application` is one). For every such list l,
`addWindowMessageCallback(c)` with non-`NULL` c yields l with c removed, followed
by c; add or remove with `NULL` leaves the `Application` unchanged;
`removeWindowMessageCallback(c)` removes c and keeps all other callbacks in their
order; and remove after add of a callback that was not in l gives back l. -/
theorem C26_callback_list (s : Application) (c : Nat) (cs : List (Bool × Nat))
    (h0 : 0 ∉ s._windowMessageCallback) (hnd : s._windowMessageCallback.Nodup) :
    (0 ∉ (runCallbackCalls s cs)._windowMessageCallback ∧
      (runCallbackCalls s cs)._windowMessageCallback.Nodup) ∧
    (c ≠ 0 → (addWindowMessageCallback s c)._windowMessageCallback =
      s._windowMessageCallback.filter (fun x => decide (x ≠ c)) ++ [c]) ∧
    (addWindowMessageCallback s 0 = s ∧ removeWindowMessageCallback s 0 = s) ∧
    (removeWindowMessageCallback s c)._windowMessageCallback =
      s._windowMessageCallback.filter (fun x => decide (x ≠ c)) ∧
    (c ≠ 0 → c ∉ s._windowMessageCallback →
      removeWindowMessageCallback (addWindowMessageCallback s c) c = s) := by
  refine ⟨runCallbackCalls_invariant cs s h0 hnd, addWindowMessageCallback_list s c, ⟨rfl, rfl⟩,
    removeWindowMessageCallback_list s c h0, ?_⟩
  intro hc hmem
  have hl : (removeWindowMessageCallback (addWindowMessageCallback s c) c)._windowMessageCallback
      = s._windowMessageCallback := by
    have h0a : 0 ∉ (addWindowMessageCallback s c)._windowMessageCallback :=
      (runCallbackCall_invariant s (true, c) h0 hnd).1
    rw [removeWindowMessageCallback_list _ c h0a, addWindowMessageCallback_list s c hc]
    rw [filter_ne_of_not_mem c _ hmem, List.filter_append, filter_ne_of_not_mem c _ hmem]
    simp
  unfold removeWindowMessageCallback addWindowMessageCallback at hl ⊢
  simp only [if_neg hc] at hl ⊢
  unfold removeWindowMessageCallback at hl ⊢
  simp only [if_neg hc] at hl ⊢
  cases s
  simp only at hl ⊢
  rw [hl]

theorem C26_callback_list_witness :
    (addWindowMessageCallback sampleCallbacks 12)._windowMessageCallback = [11, 13, 12] ∧
    removeWindowMessageCallback (addWindowMessageCallback sampleCallbacks 14) 14
      = sampleCallbacks :=
  ⟨(C26_callback_list sampleCallbacks 12 [] (by decide) (by decide)).2.1 (by decide),
    (C26_callback_list sampleCallbacks 14 [] (by decide) (by decide)).2.2.2.2
      (by decide) (by decide)⟩

/-! ### Centering the window -/

/-- C27, as claimed, fails: for a monitor rectangle whose left edge is the least
`LONG` and a window wider than the monitor, both of non-negative size and with
every field a `LONG`, the position `monitorLeft + mw/2 - ww/2` lies below the
`LONG` range; the call wraps it, passes X = 2147482608 to `SetWindowPos` and
returns true, and the bound on the horizontal offset does not hold. -/
theorem C27_position_overflow_counterexample :
    RECT.inRange ⟨-2147483648, 0, -2147481728, 1080⟩ ∧ RECT.inRange ⟨0, 0, 4000, 720⟩ ∧
    setWindowCentered sampleFarLeftCenterPlatform (Application.withWindow 1) =
      (true, some ⟨2147482608, 180, 4000, 720⟩) ∧
    ¬ (|(2 * 2147482608 + (4000 - 0)) - (2 * (-2147483648) + (-2147481728 - (-2147483648)))|
        ≤ (1 : Int)) := by
  refine ⟨by decide, by decide, by decide, ?_⟩
  norm_num

/-- C27, amended. Centering: when `setWindowCentered` has a window, both queries
succeed, the monitor rectangle (whose fields are `LONG`s) has width mw and height
mh and the window rectangle has width ww and height wh, all non-negative, and no
`LONG` expression of the call overflows (mw, mh, ww and wh are below 2^31, and
monitorLeft + mw/2 - ww/2 and monitorTop + mh/2 - wh/2 are not below -2^31), the
call returns what `SetWindowPos` reports and passes it a position (left, top)
with |(2*left + ww) - (2*monitorLeft + mw)| <= 1 and
|(2*top + wh) - (2*monitorTop + mh)| <= 1, and the width ww and height wh of the
window. -/
theorem C27_window_centered (p : CenterPlatform) (s : Application) (m w : RECT)
    (hwnd : s.windowHandle ≠ 0) (hm : p.monitor = some m) (hw : p.window = some w)
    (hmr : m.inRange)
    (hmw : 0 ≤ m.right - m.left ∧ m.right - m.left < 2 ^ 31)
    (hmh : 0 ≤ m.bottom - m.top ∧ m.bottom - m.top < 2 ^ 31)
    (hww : 0 ≤ w.right - w.left ∧ w.right - w.left < 2 ^ 31)
    (hwh : 0 ≤ w.bottom - w.top ∧ w.bottom - w.top < 2 ^ 31)
    (hleft : -(2 ^ 31) ≤ m.left + (m.right - m.left) / 2 - (w.right - w.left) / 2)
    (htop : -(2 ^ 31) ≤ m.top + (m.bottom - m.top) / 2 - (w.bottom - w.top) / 2) :
    ∃ left top : Int,
      setWindowCentered p s =
        (p.setWindowPos, some ⟨left, top, w.right - w.left, w.bottom - w.top⟩) ∧
      |(2 * left + (w.right - w.left)) - (2 * m.left + (m.right - m.left))| ≤ 1 ∧
      |(2 * top + (w.bottom - w.top)) - (2 * m.top + (m.bottom - m.top))| ≤ 1 := by
  obtain ⟨⟨hl0, hl1⟩, ⟨ht0, ht1⟩, ⟨hr0, hr1⟩, ⟨hb0, hb1⟩⟩ := hmr
  have e1 : toLONG (m.right - m.left) = m.right - m.left :=
    toLONG_of_inRange (by omega) hmw.2
  have e2 : toLONG (m.bottom - m.top) = m.bottom - m.top :=
    toLONG_of_inRange (by omega) hmh.2
  have e3 : toLONG (w.right - w.left) = w.right - w.left :=
    toLONG_of_inRange (by omega) hww.2
  have e4 : toLONG (w.bottom - w.top) = w.bottom - w.top :=
    toLONG_of_inRange (by omega) hwh.2
  have d1 := Int.tdiv_eq_ediv hmw.1 (show (0 : Int) ≤ 2 by norm_num)
  have d2 := Int.tdiv_eq_ediv hmh.1 (show (0 : Int) ≤ 2 by norm_num)
  have d3 := Int.tdiv_eq_ediv hww.1 (show (0 : Int) ≤ 2 by norm_num)
  have d4 := Int.tdiv_eq_ediv hwh.1 (show (0 : Int) ≤ 2 by norm_num)
  have e5 : toLONG (m.left + (m.right - m.left) / 2) = m.left + (m.right - m.left) / 2 :=
    toLONG_of_inRange (by omega) (by omega)
  have e6 : toLONG (m.left + (m.right - m.left) / 2 - (w.right - w.left) / 2)
      = m.left + (m.right - m.left) / 2 - (w.right - w.left) / 2 :=
    toLONG_of_inRange hleft (by omega)
  have e7 : toLONG (m.top + (m.bottom - m.top) / 2) = m.top + (m.bottom - m.top) / 2 :=
    toLONG_of_inRange (by omega) (by omega)
  have e8 : toLONG (m.top + (m.bottom - m.top) / 2 - (w.bottom - w.top) / 2)
      = m.top + (m.bottom - m.top) / 2 - (w.bottom - w.top) / 2 :=
    toLONG_of_inRange htop (by omega)
  refine ⟨m.left + (m.right - m.left) / 2 - (w.right - w.left) / 2,
    m.top + (m.bottom - m.top) / 2 - (w.bottom - w.top) / 2, ?_, ?_, ?_⟩
  · unfold setWindowCentered
    rw [if_neg hwnd]
    simp only [hm, hw, e1, e2, e3, e4, d1, d2, d3, d4, e5, e6, e7, e8]
    cases p.setWindowPos <;> rfl
  · exact abs_le.mpr ⟨by omega, by omega⟩
  · exact abs_le.mpr ⟨by omega, by omega⟩

theorem C27_window_centered_witness :
    ∃ left top : Int,
      setWindowCentered sampleCenterPlatform (Application.withWindow 1) =
        (true, some ⟨left, top, 1381 - 100, 820 - 100⟩) ∧
      |(2 * left + (1381 - 100)) - (2 * 0 + (1920 - 0))| ≤ 1 ∧
      |(2 * top + (820 - 100)) - (2 * 0 + (1080 - 0))| ≤ 1 :=
  C27_window_centered sampleCenterPlatform (Application.withWindow 1)
    ⟨0, 0, 1920, 1080⟩ ⟨100, 100, 1381, 820⟩ (by decide) rfl rfl
    (by decide) (by decide) (by decide) (by decide) (by decide) (by decide) (by decide)

/-! ### Decoding `WM_SIZE` -/

/-- The low word of an `LPARAM` is its residue modulo 2^16. -/
theorem LOWORD_eq (l : Int) : LOWORD l = (l % 2 ^ 16).toNat := by
  unfold LOWORD
  omega

/-- The high word of an `LPARAM` is the residue modulo 2^16 of its quotient by 2^16. -/
theorem HIWORD_eq (l : Int) : HIWORD l = ((l / 2 ^ 16) % 2 ^ 16).toNat := by
  unfold HIWORD
  omega

/-- C28. `WM_SIZE` decoding in `WorkingThreadMessageCallback`: for every `lParam`
and every `wParam` other than `SIZE_MINIMIZED` sent to the application window,
the pending record becomes flag = true, width = lParam mod 2^16,
height = (lParam div 2^16) mod 2^16, both below 65536, and nothing else changes;
for `wParam = SIZE_MINIMIZED`, and for any message to a window handle other than
the application's, the state is left unchanged; the callback returns 0 for every
message. -/
theorem C28_wm_size_decoding (app : Application) (monitor : Option RECT) (st : MessageState)
    (hWnd msg wParam : Nat) (lParam : Int) :
    (wParam ≠ SIZE_MINIMIZED →
      (WorkingThreadMessageCallback app monitor st app.windowHandle WM_SIZE wParam lParam).2 =
        { st with
            globals :=
              { st.globals with
                  g_bWantUpdateWindowSize := true
                  g_uWindowWidth := (lParam % 2 ^ 16).toNat
                  g_uWindowHeight := ((lParam / 2 ^ 16) % 2 ^ 16).toNat } } ∧
      (lParam % 2 ^ 16).toNat < 65536 ∧ ((lParam / 2 ^ 16) % 2 ^ 16).toNat < 65536) ∧
    (WorkingThreadMessageCallback app monitor st app.windowHandle WM_SIZE SIZE_MINIMIZED
      lParam).2 = st ∧
    (hWnd ≠ app.windowHandle →
      (WorkingThreadMessageCallback app monitor st hWnd msg wParam lParam).2 = st) ∧
    (WorkingThreadMessageCallback app monitor st hWnd msg wParam lParam).1 = 0 := by
  refine ⟨?_, ?_, ?_, ?_⟩
  · intro hw
    refine ⟨?_, by omega, by omega⟩
    unfold WorkingThreadMessageCallback
    rw [if_pos rfl, if_pos rfl, if_pos hw, LOWORD_eq, HIWORD_eq]
  · unfold WorkingThreadMessageCallback
    rw [if_pos rfl, if_pos rfl]
    simp
  · intro hh
    unfold WorkingThreadMessageCallback
    rw [if_neg hh]
  · unfold WorkingThreadMessageCallback
    dsimp only
    split_ifs <;> first | rfl | (cases monitor <;> rfl)

theorem C28_wm_size_decoding_witness :
    (WorkingThreadMessageCallback sampleApplication none sampleMessageState
      sampleApplication.windowHandle WM_SIZE 0 (600 * 65536 + 800)).2.globals
      = ⟨false, true, 800, 600⟩ ∧
    (WorkingThreadMessageCallback sampleApplication none sampleMessageState 99 WM_SIZE 0
      (600 * 65536 + 800)).2 = sampleMessageState :=
  ⟨by
    rw [((C28_wm_size_decoding sampleApplication none sampleMessageState 99 WM_SIZE 0
      (600 * 65536 + 800)).1 (by decide)).1]
    decide,
   (C28_wm_size_decoding sampleApplication none sampleMessageState 99 WM_SIZE 0
      (600 * 65536 + 800)).2.2.1 (by decide)⟩

end LowFrameLatency
